import Mathlib

/-!
# Verification of the heatmap calendar/color core

A shallow embedding of the date, data-processing and color routines of the
obsidian-heatmap-bases-view plugin (`src/dateUtils.ts`, `src/data.ts`,
`src/colorUtils.ts`, and the bundled color module), together with theorems
settling the specification claims about them.

Modelling conventions:
* A JavaScript `Date` normalized to local midnight is represented by its
  calendar day number (days since 1970-01-01, as an `Int`).  All dates in
  this code base are timezone-less calendar days.
* JavaScript numbers are modelled by `ℚ` where only field operations and
  comparisons occur (data statistics, intensity), and by `ℝ` where the code
  uses `Math.cbrt` / `Math.pow` (the Oklab color pipeline).
* `new Date(y, m, d)` follows the ECMAScript `MakeDay` semantics: the month
  index is normalized into the year, the day offset is added on the day
  line (so out-of-range fields roll over), and years 0..99 are remapped to
  1900..1999 per `MakeFullYear`.
-/

namespace Heatmap

/-! ## Calendar arithmetic (civil calendar ↔ day numbers) -/

/-- Gregorian leap-year predicate. -/
def isLeapYear (y : Int) : Bool :=
  (y % 4 == 0 && y % 100 != 0) || y % 400 == 0

/-- Number of days in month `m` (1..12) of year `y`. -/
def daysInMonth (y m : Int) : Int :=
  if m = 2 then (if isLeapYear y then 29 else 28)
  else if m = 4 ∨ m = 6 ∨ m = 9 ∨ m = 11 then 30
  else 31

/-- Day number (days since 1970-01-01) of the civil date `(y, m, d)`.
Uses the standard era-based algorithm; `d` enters linearly, so the
formula is also meaningful for out-of-range day fields. -/
def daysFromCivil (y m d : Int) : Int :=
  let yAdj : Int := if m ≤ 2 then y - 1 else y
  let era : Int := yAdj / 400
  let yoe : Int := yAdj - era * 400
  let mp : Int := (m + 9) % 12
  let doy : Int := (153 * mp + 2) / 5 + d - 1
  let doe : Int := yoe * 365 + yoe / 4 - yoe / 100 + doy
  era * 146097 + doe - 719468

/-- Civil date `(year, month, day)` of a day number. Inverse of
`daysFromCivil` on valid dates. -/
def civilFromDays (z : Int) : Int × Int × Int :=
  let z2 : Int := z + 719468
  let era : Int := z2 / 146097
  let doe : Int := z2 - era * 146097
  let yoe : Int :=
    (doe - doe / 1460 + doe / 36524 - doe / 146096) / 365
  let y : Int := yoe + era * 400
  let doy : Int := doe - (365 * yoe + yoe / 4 - yoe / 100)
  let mp : Int := (5 * doy + 2) / 153
  let d : Int := doy - (153 * mp + 2) / 5 + 1
  let m : Int := mp + (if mp < 10 then 3 else -9)
  (if m ≤ 2 then y + 1 else y, m, d)

/-- `Date.prototype.getFullYear` of a (midnight) day number. -/
def getFullYear (z : Int) : Int := (civilFromDays z).1

/-- `Date.prototype.getMonth` (0-based month) of a day number. -/
def getMonth (z : Int) : Int := (civilFromDays z).2.1 - 1

/-- `Date.prototype.getDate` (day of month) of a day number. -/
def getDate (z : Int) : Int := (civilFromDays z).2.2

/-- `Date.prototype.getDay`: day of week, 0 = Sunday.  1970-01-01 was a
Thursday (day 4). -/
def jsGetDay (z : Int) : Int := (z + 4) % 7

/-- ECMAScript `MakeDay(year, month, date)`: the 0-based `month` is
normalized into the year and the (1-based) `day` is added on the day
line, so out-of-range month/day fields roll over through the calendar. -/
def jsMakeDay (y m d : Int) : Int :=
  daysFromCivil (y + m / 12) (m % 12 + 1) d

/-- `new Date(y, m, d)` at local midnight: `MakeDay` preceded by the
ECMAScript `MakeFullYear` remapping of years 0..99 to 1900..1999. -/
def jsNewDate (y m d : Int) : Int :=
  jsMakeDay (if 0 ≤ y ∧ y ≤ 99 then 1900 + y else y) m d

/-! ## `dateUtils.ts`: parsing and formatting -/

/-- Numeric value of a decimal digit character. -/
def digitVal (c : Char) : Int := Int.ofNat c.toNat - 48

/-- Surrounding-whitespace trim (`String.prototype.trim`) on a character
list. -/
def jsTrim (cs : List Char) : List Char :=
  ((cs.dropWhile Char.isWhitespace).reverse.dropWhile Char.isWhitespace).reverse

/-- Field extraction of the anchored regex
`^(\d{4})-(\d{2})-(\d{2})$` of `parseISODateString`: returns the three
numeric fields `(year, month, day)` when the (already trimmed) character
list matches, and `none` otherwise. -/
def parseISOFields (cs : List Char) : Option (Int × Int × Int) :=
  match cs with
  | [y1, y2, y3, y4, h1, m1, m2, h2, d1, d2] =>
    if y1.isDigit && y2.isDigit && y3.isDigit && y4.isDigit && h1 == '-' &&
        m1.isDigit && m2.isDigit && h2 == '-' && d1.isDigit && d2.isDigit then
      some (1000 * digitVal y1 + 100 * digitVal y2 + 10 * digitVal y3 + digitVal y4,
        10 * digitVal m1 + digitVal m2,
        10 * digitVal d1 + digitVal d2)
    else none
  | _ => none

/-- `parseISODateString(dateStr)`: trims the input, matches it against
`^(\d{4})-(\d{2})-(\d{2})$`, and on success builds
`new Date(year, month - 1, day)` (at midnight).  The `isNaN` guards of the
source can never fire (the fields are digit groups). -/
def parseISODateString (s : String) : Option Int :=
  match parseISOFields (jsTrim s.data) with
  | some (y, mo, d) => some (jsNewDate y (mo - 1) d)
  | none => none

/-- Zero-pad a decimal representation to two characters
(`String(n).padStart(2, '0')`). -/
def pad2 (n : Int) : String :=
  let s := toString n
  if s.length < 2 then "0" ++ s else s

/-- `formatDateISO(date)`: `YYYY-MM-DD` with zero-padded month and day
(the year is written unpadded, as in the template literal). -/
def formatDateISO (z : Int) : String :=
  toString (getFullYear z) ++ "-" ++ pad2 ((civilFromDays z).2.1) ++ "-" ++
    pad2 (getDate z)

/-- `generateDateRange(start, end)`: ISO strings of every day from
`start` to `end` inclusive (empty when `start > end`).  The source loops
`while (current <= end)`, pushing and stepping one day. -/
def generateDateRange (start endD : Int) : List String :=
  if start ≤ endD then
    formatDateISO start :: generateDateRange (start + 1) endD
  else []
termination_by (endD + 1 - start).toNat
decreasing_by
  rename_i h
  omega

/-- `getDayOfWeek(date, weekStart)`: 0..6 with 0 the configured first
day of the week. -/
def getDayOfWeek (z : Int) (weekStart : Int) : Int :=
  let day := jsGetDay z
  if weekStart = 0 then day
  else if day = 0 then 6 else day - 1

/-- `getWeekNumber(date, rangeStart, weekStart)`: range-relative week
ordinal; the range start is always in week 1. -/
def getWeekNumber (z rangeStart : Int) (weekStart : Int) : Int :=
  let diffDays := z - rangeStart
  let startDayOfWeek := getDayOfWeek rangeStart weekStart
  (diffDays + startDayOfWeek) / 7 + 1

/-! ## `dateUtils.ts`: date-range resolution -/

/-- Ascending insertion into a sorted list (by day number). -/
def insertAsc (x : Int) : List Int → List Int
  | [] => [x]
  | y :: ys => if x ≤ y then x :: y :: ys else y :: insertAsc x ys

/-- Ascending sort, modelling `Array.prototype.sort` with the comparator
`(a, b) => a.getTime() - b.getTime()`. -/
def sortAsc (l : List Int) : List Int := l.foldr insertAsc []

/-- JavaScript truthiness of a `string | null` option value. -/
def jsTruthy : Option String → Bool
  | none => false
  | some s => s ≠ ""

/-- `calculateDateRange(entries, startDate, endDate)` from
`dateUtils.ts`.  The embedding is explicit about the two environmental
inputs of the source: `today` models `new Date()` (at midnight) and
`lenient` models the implementation-defined lenient parser
`new Date(string)` (`none` = Invalid Date).  `entriesKeys` are the keys
of the entries map in insertion order.  Returns `(start, end)`. -/
def calculateDateRange (lenient : String → Option Int) (today : Int)
    (entriesKeys : List String) (startDate endDate : Option String) :
    Int × Int :=
  let endR : Int :=
    if jsTruthy endDate then
      match parseISODateString (endDate.getD "") with
      | some e => e
      | none =>
        match lenient (endDate.getD "") with
        | some e => e
        | none => today
    else today
  let startR : Int :=
    if jsTruthy startDate then
      match parseISODateString (startDate.getD "") with
      | some e => e
      | none =>
        match lenient (startDate.getD "") with
        | some e => e
        | none => jsNewDate (getFullYear endR) 0 1
    else
      -- Auto-detect: parse every key, keep the valid ones, sort
      -- ascending and take the first (else January 1 of the end year).
      let ds := entriesKeys.filterMap fun k =>
        match parseISODateString k with
        | some e => some e
        | none => lenient k
      match sortAsc ds with
      | d :: _ => d
      | [] => jsNewDate (getFullYear endR) 0 1
  (startR, endR)

/-! ## `dateUtils.ts`: month labels -/

/-- A month-label span (`MonthLabel` of `types.ts`). -/
structure MonthLabel where
  name : String
  startColumn : Int
  endColumn : Int
deriving DecidableEq, Repr

/-- The fixed English month names. -/
def monthNames : List String :=
  ["Jan", "Feb", "Mar", "Apr", "May", "Jun",
    "Jul", "Aug", "Sep", "Oct", "Nov", "Dec"]

/-- `monthNames[m]` (only ever used with `m` in 0..11). -/
def monthName (m : Int) : String := monthNames.getD m.toNat ""

/-- Add month `mo` to the set of months of week `w`
(`Map<number, Set<number>>` update of the first pass). -/
def addWeekMonth (w mo : Int) : List (Int × List Int) → List (Int × List Int)
  | [] => [(w, [mo])]
  | (w2, ms) :: rest =>
    if w2 = w then (w2, if mo ∈ ms then ms else ms ++ [mo]) :: rest
    else (w2, ms) :: addWeekMonth w mo rest

/-- Look up the month set of a week. -/
def lookupWeek (w : Int) : List (Int × List Int) → Option (List Int)
  | [] => none
  | (w2, ms) :: rest => if w2 = w then some ms else lookupWeek w rest

/-- First pass of `generateMonthLabels`: walk every day of the range and
record which months appear in each week.  The `while (current <= end)`
loop runs exactly `(end + 1 - start).toNat` times; the embedding drives
it by that count so the recursion is structural. -/
def weekMonthsLoop : Nat → Int → Int → Int → List (Int × List Int) →
    List (Int × List Int)
  | 0, _, _, _, acc => acc
  | n + 1, cur, rangeStart, weekStart, acc =>
    weekMonthsLoop n (cur + 1) rangeStart weekStart
      (addWeekMonth (getWeekNumber cur rangeStart weekStart) (getMonth cur) acc)

/-- Second pass of `generateMonthLabels`: walk weeks 1..totalWeeks (the
count drives the recursion); the primary month of a week is the last
element of its ascending-sorted month set (its maximum); start a new
span whenever the primary month changes, closing the previous span at
the current week.  `acc` holds the emitted labels in reverse; its head
is the running (mutable) label. -/
def labelsLoop : Nat → Int → Int → List (Int × List Int) → Int →
    List MonthLabel → List MonthLabel
  | 0, _, _, _, _, acc => acc.reverse
  | n + 1, week, totalWeeks, wm, curMonth, acc =>
    match lookupWeek week wm with
    | none => labelsLoop n (week + 1) totalWeeks wm curMonth acc
    | some ms =>
      match ms.max? with
      | none => labelsLoop n (week + 1) totalWeeks wm curMonth acc
      | some primary =>
        if primary ≠ curMonth then
          let closed : List MonthLabel :=
            match acc with
            | [] => []
            | l :: rest => { l with endColumn := week } :: rest
          labelsLoop n (week + 1) totalWeeks wm primary
            ({ name := monthName primary, startColumn := week,
                endColumn := totalWeeks + 1 } :: closed)
        else labelsLoop n (week + 1) totalWeeks wm curMonth acc

/-- `generateMonthLabels(rangeStart, rangeEnd, weekStart)`.  The final
"close the last label" assignment of the source rewrites
`endColumn := totalWeeks + 1`, the value every label is created with, so
it is a no-op and is not repeated here. -/
def generateMonthLabels (rangeStart rangeEnd weekStart : Int) :
    List MonthLabel :=
  let wm := weekMonthsLoop (rangeEnd + 1 - rangeStart).toNat rangeStart
    rangeStart weekStart []
  let totalWeeks := getWeekNumber rangeEnd rangeStart weekStart
  labelsLoop totalWeeks.toNat 1 totalWeeks wm (-1) []

/-! ## `data.ts`: dataset processing -/

/-- `ValueType` of `data.ts`. -/
inductive ValueType where
  | boolean
  | number
  | unsupported
deriving DecidableEq, Repr

/-- A raw record as consumed by `processData`, after the external
`extractDate` / `extractValue` steps: the resolved date string (or
`none`), the extracted value, its classification, the display text and
an opaque file reference. -/
structure RawRecord where
  date : Option String
  value : Option ℚ
  vtype : ValueType
  displayValue : String
  fileId : Nat
deriving DecidableEq, Repr

/-- `HeatmapEntry` of `types.ts`. -/
structure HeatmapEntry where
  date : String
  value : Option ℚ
  fileId : Nat
  displayValue : String
deriving DecidableEq, Repr

/-- Aggregate statistics of `ProcessedData`.  The running `min`/`max`
use `Option`: `none` models the `Infinity`/`-Infinity` sentinels that no
value has been folded yet. -/
structure ProcessedStats where
  min : ℚ
  max : ℚ
  count : Nat
  hasNumeric : Bool
deriving DecidableEq, Repr

/-- The fold state of `processData`'s loop. -/
structure ProcState where
  entries : List (String × HeatmapEntry)
  minO : Option ℚ
  maxO : Option ℚ
  count : Nat
  hasNumeric : Bool
deriving DecidableEq, Repr

/-- Insertion-ordered map lookup (`Map.prototype.get`). -/
def mapGet (k : String) : List (String × HeatmapEntry) → Option HeatmapEntry
  | [] => none
  | (k2, v) :: rest => if k2 = k then some v else mapGet k rest

/-- Insertion-ordered map write (`Map.prototype.set`): overwrites in
place if the key exists, else appends. -/
def mapSet (k : String) (v : HeatmapEntry) :
    List (String × HeatmapEntry) → List (String × HeatmapEntry)
  | [] => [(k, v)]
  | (k2, v2) :: rest =>
    if k2 = k then (k2, v) :: rest else (k2, v2) :: mapSet k v rest

/-- One iteration of the `processData` loop. -/
def procStep (st : ProcState) (r : RawRecord) : ProcState :=
  match r.date with
  | none => st
  | some date =>
    let hasNumeric := st.hasNumeric ||
      (r.vtype == ValueType.number &&
        match r.value with
        | some v => decide (v ≠ 0) && decide (v ≠ 1)
        | none => false)
    let (minO, maxO, count) :=
      match r.value with
      | some v =>
        if 0 < v then
          (some (match st.minO with | none => v | some m => min m v),
            some (match st.maxO with | none => v | some m => max m v),
            st.count + 1)
        else (st.minO, st.maxO, st.count)
      | none => (st.minO, st.maxO, st.count)
    let newEntry : HeatmapEntry :=
      { date := date, value := r.value, fileId := r.fileId,
        displayValue := r.displayValue }
    let entries :=
      match mapGet date st.entries with
      | some existing =>
        -- `value !== null && (existing.value === null || value > existing.value)`
        let replace : Bool :=
          match r.value, existing.value with
          | some _, none => true
          | some v, some w => decide (w < v)
          | none, _ => false
        if replace then mapSet date newEntry st.entries else st.entries
      | none => mapSet date newEntry st.entries
    { entries := entries, minO := minO, maxO := maxO, count := count,
      hasNumeric := hasNumeric }

/-- `processData(entries, ...)` final result. -/
structure ProcessedData where
  entries : List (String × HeatmapEntry)
  stats : ProcessedStats
deriving DecidableEq, Repr

/-- `processData`: fold all records, then apply the edge-case
normalization (`min = 0` when nothing was folded, `max = 1` when nothing
was folded, and `min := 0` when `min == max > 0`). -/
def processData (records : List RawRecord) : ProcessedData :=
  let st := records.foldl procStep
    { entries := [], minO := none, maxO := none, count := 0,
      hasNumeric := false }
  let min1 : ℚ := match st.minO with | none => 0 | some m => m
  let max1 : ℚ := match st.maxO with | none => 1 | some m => m
  let min2 : ℚ := if min1 = max1 ∧ 0 < min1 then 0 else min1
  { entries := st.entries,
    stats :=
      { min := min2, max := max1, count := st.count,
        hasNumeric := st.hasNumeric } }

/-! ## `colorUtils.ts`: hex parsing / formatting (exact integer parts) -/

/-- An 8-bit RGB triple (`{r, g, b}`). -/
structure Rgb where
  r : Nat
  g : Nat
  b : Nat
deriving DecidableEq, Repr

/-- Hex digit test of the character class `[a-f\d]` under the `/i`
flag. -/
def isHexDigit (c : Char) : Bool :=
  c.isDigit || ('a' ≤ c && c ≤ 'f') || ('A' ≤ c && c ≤ 'F')

/-- Value of a hex digit (0 for other characters; only applied behind
`isHexDigit` guards). -/
def hexVal (c : Char) : Nat :=
  if c.isDigit then c.toNat - 48
  else if 'a' ≤ c ∧ c ≤ 'f' then c.toNat - 87
  else if 'A' ≤ c ∧ c ≤ 'F' then c.toNat - 70
  else 0

/-- Strip one optional leading `#` (the `#?` of the regex). -/
def stripHash : List Char → List Char
  | '#' :: rest => rest
  | cs => cs

/-- Whether a string matches the `hexToRgb` regex
`^#?([a-f\d]{2})([a-f\d]{2})([a-f\d]{2})$/i`. -/
def matchesHexPattern (s : String) : Bool :=
  match stripHash s.data with
  | [c1, c2, c3, c4, c5, c6] =>
    isHexDigit c1 && isHexDigit c2 && isHexDigit c3 && isHexDigit c4 &&
      isHexDigit c5 && isHexDigit c6
  | _ => false

/-- `hexToRgb(hex)`: parse an optionally-`#`-prefixed 6-hex-digit color;
any other input yields `{r: 0, g: 0, b: 0}`. -/
def hexToRgb (s : String) : Rgb :=
  match stripHash s.data with
  | [c1, c2, c3, c4, c5, c6] =>
    if isHexDigit c1 && isHexDigit c2 && isHexDigit c3 && isHexDigit c4 &&
        isHexDigit c5 && isHexDigit c6 then
      { r := 16 * hexVal c1 + hexVal c2, g := 16 * hexVal c3 + hexVal c4,
        b := 16 * hexVal c5 + hexVal c6 }
    else { r := 0, g := 0, b := 0 }
  | _ => { r := 0, g := 0, b := 0 }

/-- Lowercase hex character of a value 0..15. -/
def hexChar (n : Nat) : Char :=
  if n < 10 then Char.ofNat (48 + n) else Char.ofNat (87 + n)

/-- The per-channel step of `rgbToHex`:
`Math.max(0, Math.min(255, n)).toString(16).padStart(2, '0')` applied to
an already-rounded integer channel. -/
def hexByte (n : Int) : String :=
  let clamped := (max 0 (min 255 n)).toNat
  String.mk [hexChar (clamped / 16), hexChar (clamped % 16)]

/-- `rgbToHex` on already-rounded integer channels. -/
def rgbToHexInt (r g b : Int) : String :=
  "#" ++ hexByte r ++ hexByte g ++ hexByte b

/-! ## `colorUtils.ts`: the real-valued Oklab pipeline

The source computes with IEEE-754 doubles (`Math.cbrt`, `Math.pow`);
the embedding idealizes those as exact real arithmetic.  Every theorem
about this pipeline concerns quantities whose distance from a decision
boundary is many orders of magnitude larger than double rounding
error. -/

/-- `Math.round(x) = ⌊x + 1/2⌋`. -/
noncomputable def jsRound (x : ℝ) : Int := ⌊x + 1 / 2⌋

/-- `Math.cbrt`, as applied in this pipeline: all call sites receive a
nonnegative argument (an LMS cone response of an in-gamut color), where
the real cube root is `x ^ (1/3)`. -/
noncomputable def jsCbrt (x : ℝ) : ℝ := x ^ ((1 : ℝ) / 3)

/-- `srgbToLinear(c)`: piecewise sRGB transfer function. -/
noncomputable def srgbToLinear (c : ℝ) : ℝ :=
  if c ≤ 0.04045 then c / 12.92
  else ((c + 0.055) / 1.055) ^ (2.4 : ℝ)

/-- `linearToSrgb(c)`: inverse piecewise sRGB transfer function. -/
noncomputable def linearToSrgb (c : ℝ) : ℝ :=
  if c ≤ 0.0031308 then c * 12.92
  else 1.055 * c ^ ((1 : ℝ) / 2.4) - 0.055

/-- An Oklab coordinate triple. -/
structure Oklab where
  L : ℝ
  a : ℝ
  b : ℝ

/-- `rgbToOklab(r, g, b)` on 0-255 channels. -/
noncomputable def rgbToOklab (r g b : ℝ) : Oklab :=
  let lr := srgbToLinear (r / 255)
  let lg := srgbToLinear (g / 255)
  let lb := srgbToLinear (b / 255)
  let l := 0.4122214708 * lr + 0.5363325363 * lg + 0.0514459929 * lb
  let m := 0.2119034982 * lr + 0.6806995451 * lg + 0.1073969566 * lb
  let s := 0.0883024619 * lr + 0.2817188376 * lg + 0.6299787005 * lb
  let l2 := jsCbrt l
  let m2 := jsCbrt m
  let s2 := jsCbrt s
  { L := 0.2104542553 * l2 + 0.7936177850 * m2 - 0.0040720468 * s2,
    a := 1.9779984951 * l2 - 2.4285922050 * m2 + 0.4505937099 * s2,
    b := 0.0259040371 * l2 + 0.7827717662 * m2 - 0.8086757660 * s2 }

/-- `oklabToRgb(L, a, b)`: rounded (possibly out-of-range) integer
channels. -/
noncomputable def oklabToRgb (L a b : ℝ) : Int × Int × Int :=
  let l2 := L + 0.3963377774 * a + 0.2158037573 * b
  let m2 := L - 0.1055613458 * a - 0.0638541728 * b
  let s2 := L - 0.0894841775 * a - 1.2914855480 * b
  let l := l2 * l2 * l2
  let m := m2 * m2 * m2
  let s := s2 * s2 * s2
  let lr := 4.0767416621 * l - 3.3077115913 * m + 0.2309699292 * s
  let lg := -1.2684380046 * l + 2.6097574011 * m - 0.3413193965 * s
  let lb := -0.0041960863 * l - 0.7034186147 * m + 1.7076147010 * s
  (jsRound (linearToSrgb lr * 255), jsRound (linearToSrgb lg * 255),
    jsRound (linearToSrgb lb * 255))

/-- `interpolateColor(color1, color2, t)`: linear interpolation in Oklab
space.  Note: `t` is used as given, without clamping. -/
noncomputable def interpolateColor (color1 color2 : String) (t : ℝ) : String :=
  let rgb1 := hexToRgb color1
  let rgb2 := hexToRgb color2
  let lab1 := rgbToOklab rgb1.r rgb1.g rgb1.b
  let lab2 := rgbToOklab rgb2.r rgb2.g rgb2.b
  let L := lab1.L + (lab2.L - lab1.L) * t
  let a := lab1.a + (lab2.a - lab1.a) * t
  let b := lab1.b + (lab2.b - lab1.b) * t
  let rgb := oklabToRgb L a b
  rgbToHexInt rgb.1 rgb.2.1 rgb.2.2

/-- `getRelativeLuminance(hex)`: BT.709 luminance of linearized
channels. -/
noncomputable def getRelativeLuminance (hex : String) : ℝ :=
  let rgb := hexToRgb hex
  0.2126 * srgbToLinear (rgb.r / 255) + 0.7152 * srgbToLinear (rgb.g / 255) +
    0.0722 * srgbToLinear (rgb.b / 255)

/-- `adjustColorForTheme(hex, isDark)`: blend 70% toward the canonical
background when the zero color is out of the theme's luminance band. -/
noncomputable def adjustColorForTheme (hex : String) (isDark : Bool) : String :=
  let luminance := getRelativeLuminance hex
  if isDark then
    if 0.15 < luminance then interpolateColor hex "#161b22" 0.7 else hex
  else
    if luminance < 0.85 then interpolateColor hex "#ebedf0" 0.7 else hex

/-- The built-in color scheme identifiers (`ColorScheme` of
`types.ts`). -/
inductive ColorScheme where
  | green
  | purple
  | blue
  | orange
  | gray
deriving DecidableEq, Repr

/-- A zero/max hex pair. -/
structure SchemeColors where
  zero : String
  max : String
deriving DecidableEq, Repr

/-- `COLOR_SCHEMES`: dark variants. -/
def schemeDark : ColorScheme → SchemeColors
  | .green => { zero := "#161b22", max := "#39d353" }
  | .purple => { zero := "#1a1523", max := "#a78bfa" }
  | .blue => { zero := "#161b22", max := "#38bdf8" }
  | .orange => { zero := "#1c1917", max := "#fb923c" }
  | .gray => { zero := "#161b22", max := "#adbac7" }

/-- `COLOR_SCHEMES`: light variants. -/
def schemeLight : ColorScheme → SchemeColors
  | .green => { zero := "#ebedf0", max := "#216e39" }
  | .purple => { zero := "#ebedf0", max := "#5b21b6" }
  | .blue => { zero := "#ebedf0", max := "#0284c7" }
  | .orange => { zero := "#ebedf0", max := "#ea580c" }
  | .gray => { zero := "#ebedf0", max := "#444c56" }

/-- `calculateIntensityNumeric(value, min, max)`. -/
def calculateIntensityNumeric (value mn mx : ℚ) : ℚ :=
  if mx = mn then 1
  else if value ≤ mn then 0
  else if mx ≤ value then 1
  else (value - mn) / (mx - mn)

/-- `getColorForIntensity(intensity, scheme, isDark)`: the zero color
exactly at `intensity ≤ 0`, else Oklab interpolation at the clamped
intensity. -/
noncomputable def getColorForIntensity (intensity : ℝ) (scheme : ColorScheme)
    (isDark : Bool) : String :=
  let colors := if isDark then schemeDark scheme else schemeLight scheme
  if intensity ≤ 0 then colors.zero
  else interpolateColor colors.zero colors.max (max 0 (min 1 intensity))

/-- The sixteen lowercase hex digits (as a set; the order is immaterial). -/
def lowerHexDigits : List Char :=
  ['a', 'b', 'c', 'd', 'e', 'f', '0', '1', '2', '3', '4', '5', '6', '7', '8', '9']

/-- A lowercase hex digit. -/
def isLowerHexDigit (c : Char) : Bool := lowerHexDigits.contains c

/-- A lowercase `#`-prefixed 6-digit hex color string: the input format the
endpoint claim quantifies over. -/
def isLowerHexString (s : String) : Bool :=
  match s.data with
  | ['#', c1, c2, c3, c4, c5, c6] =>
    isLowerHexDigit c1 && isLowerHexDigit c2 && isLowerHexDigit c3 &&
      isLowerHexDigit c4 && isLowerHexDigit c5 && isLowerHexDigit c6
  | _ => false

/-! ## Specification-side definitions

Used to state the claims; they describe intended results, not code. -/

/-- The consecutive day numbers from `s` to `e` inclusive. -/
def rangeDays (s e : Int) : List Int :=
  (List.range (e + 1 - s).toNat).map (fun (i : Nat) => s + (i : Int))

/-- The calendar months (0-based) of the days of the range that fall in
week `w` (per `getWeekNumber`). -/
def monthsInWeekSpec (s e ws w : Int) : List Int :=
  ((rangeDays s e).filter (fun z => getWeekNumber z s ws == w)).map getMonth

/-- The values of the records that have a resolvable date and a non-null
positive value, in input order. -/
def positiveDatedValues (records : List RawRecord) : List ℚ :=
  records.filterMap fun r =>
    match r.date, r.value with
    | some _, some v => if 0 < v then some v else none
    | _, _ => none

/-- A dated record carrying the non-null value 0 (concrete input of a
counterexample). -/
def zeroValueRecord : RawRecord :=
  { date := some "2024-01-01", value := some 0,
    vtype := ValueType.number, displayValue := "0", fileId := 0 }

end Heatmap

namespace Heatmap

/-! Smoke checks for the calendar embedding (kept as compiled examples). -/

example : daysFromCivil 1970 1 1 = 0 := by decide
example : daysFromCivil 2024 1 1 = 19723 := by decide
example : civilFromDays 19723 = (2024, 1, 1) := by decide
example : jsGetDay (daysFromCivil 2024 1 1) = 1 := by decide
example : civilFromDays (jsNewDate 2024 12 40) = (2025, 2, 9) := by decide
example : parseISODateString "2024-01-15" = some (daysFromCivil 2024 1 15) := by decide
example : parseISODateString "invalid" = none := by decide
example : parseISODateString "  2024-01-15  " = some (daysFromCivil 2024 1 15) := by
  decide
example : formatDateISO (daysFromCivil 2024 1 5) = "2024-01-05" := by decide

end Heatmap

namespace Heatmap

/-! ## Calendar lemmas: `civilFromDays` inverts `daysFromCivil` -/

-- Year-of-era recovery: the era-based inverse formula returns the
-- year-of-era for any day-of-era built from a valid day-of-(shifted-)year.
set_option maxHeartbeats 8000000 in
theorem yoe_inv (yoe doy doe : Int)
    (h1 : 0 ≤ yoe) (h2 : yoe ≤ 399)
    (h3 : 0 ≤ doy)
    (h4 : doy ≤ 364 ∨
      (doy = 365 ∧ (yoe + 1) % 4 = 0 ∧ ((yoe + 1) % 100 ≠ 0 ∨ (yoe + 1) % 400 = 0)))
    (h5 : doe = yoe * 365 + yoe / 4 - yoe / 100 + doy) :
    (doe - doe / 1460 + doe / 36524 - doe / 146096) / 365 = yoe := by
  interval_cases yoe <;> omega

/-- Characterization of `civilFromDays`: if the era, day-of-era,
year-of-era, day-of-year and shifted month of `z` are the given values,
the result is the assembled triple. -/
theorem civilFromDays_spec (z era doe yoe doy mp : Int)
    (he : (z + 719468) / 146097 = era)
    (hdoe : z + 719468 - era * 146097 = doe)
    (hyoe : (doe - doe / 1460 + doe / 36524 - doe / 146096) / 365 = yoe)
    (hdoy : doe - (365 * yoe + yoe / 4 - yoe / 100) = doy)
    (hmp : (5 * doy + 2) / 153 = mp) :
    civilFromDays z =
      (if mp + (if mp < 10 then 3 else -9) ≤ 2 then yoe + era * 400 + 1
        else yoe + era * 400,
        mp + (if mp < 10 then 3 else -9),
        doy - (153 * mp + 2) / 5 + 1) := by
  subst he
  subst hdoe
  subst hyoe
  subst hdoy
  subst hmp
  rfl

/-- Every month has at most 31 days. -/
theorem daysInMonth_le (y m : Int) : daysInMonth y m ≤ 31 := by
  unfold daysInMonth
  split_ifs <;> omega

/-- Every month has at least 28 days. -/
theorem daysInMonth_pos (y m : Int) : 28 ≤ daysInMonth y m := by
  unfold daysInMonth
  split_ifs <;> omega

-- `civilFromDays` of an era-decomposed day number.
set_option maxHeartbeats 4000000 in
theorem civilFromDays_eq (era yoe mp dOff : Int)
    (h1 : 0 ≤ yoe) (h2 : yoe ≤ 399) (h3 : 0 ≤ mp) (h4 : mp ≤ 11)
    (h5 : 0 ≤ dOff)
    (h6 : dOff + 1 ≤ daysInMonth (era * 400 + yoe + (if 10 ≤ mp then 1 else 0))
      (if mp < 10 then mp + 3 else mp - 9)) :
    civilFromDays (era * 146097 +
        (yoe * 365 + yoe / 4 - yoe / 100 + ((153 * mp + 2) / 5 + dOff)) - 719468)
      = (era * 400 + yoe + (if 10 ≤ mp then 1 else 0),
        (if mp < 10 then mp + 3 else mp - 9), dOff + 1) := by
  have h31 : dOff ≤ 30 := by
    have := daysInMonth_le (era * 400 + yoe + (if 10 ≤ mp then 1 else 0))
      (if mp < 10 then mp + 3 else mp - 9)
    omega
  set w : Int := (153 * mp + 2) / 5 + dOff with hw
  have hwb : 0 ≤ w ∧ w ≤ 367 := by
    rw [hw]
    omega
  set D : Int := yoe * 365 + yoe / 4 - yoe / 100 + w with hD
  have hdis : w ≤ 364 ∨
      (w = 365 ∧ (yoe + 1) % 4 = 0 ∧ ((yoe + 1) % 100 ≠ 0 ∨ (yoe + 1) % 400 = 0)) := by
    rcases (show mp = 11 ∨ mp ≤ 10 by omega) with rfl | hle
    · norm_num [daysInMonth, isLeapYear, Bool.or_eq_true, Bool.and_eq_true,
        beq_iff_eq, bne_iff_ne] at h6
      split at h6
      · rename_i hleap
        rcases hleap with ⟨ha, hb⟩ | hc
        · omega
        · omega
      · omega
    · left
      rw [hw]
      omega
  have hmpw : (5 * w + 2) / 153 = mp ∧ w - (153 * mp + 2) / 5 + 1 = dOff + 1 := by
    constructor
    · rcases (show mp = 11 ∨ mp ≤ 10 by omega) with rfl | hle
      · rcases hdis with h | h <;> omega
      · have hgap : dOff + 1 ≤ (153 * (mp + 1) + 2) / 5 - (153 * mp + 2) / 5 := by
          interval_cases mp <;> norm_num [daysInMonth] at h6 ⊢ <;> omega
        omega
    · omega
  have hinv := yoe_inv yoe w D h1 h2 hwb.1 hdis hD
  rw [civilFromDays_spec (era * 146097 + D - 719468) era D yoe w mp
    (by omega) (by omega) hinv (by omega) hmpw.1]
  simp only [Prod.mk.injEq]
  rcases (show (10 : Int) ≤ mp ∨ mp < 10 by omega) with hge | hlt
  · rw [if_neg (show ¬mp < 10 by omega), if_pos (show mp + -9 ≤ 2 by omega),
      if_pos hge]
    refine ⟨by omega, by omega, hmpw.2⟩
  · rw [if_pos hlt, if_neg (show ¬mp + 3 ≤ 2 by omega),
      if_neg (show ¬(10 : Int) ≤ mp by omega)]
    refine ⟨by omega, by omega, hmpw.2⟩

-- The civil round trip: extracting the (year, month, day) components of
-- the day number of a valid calendar date returns exactly that date.
set_option maxHeartbeats 1000000 in
theorem civil_roundtrip (y m d : Int) (h1 : 1 ≤ m) (h2 : m ≤ 12) (h3 : 1 ≤ d)
    (h4 : d ≤ daysInMonth y m) :
    civilFromDays (daysFromCivil y m d) = (y, m, d) := by
  rcases (show m ≤ 2 ∨ 2 < m by omega) with hm | hm
  · have h6 : (d - 1) + 1 ≤
        daysInMonth ((y - 1) / 400 * 400 + (y - 1 - (y - 1) / 400 * 400) +
          (if (10 : Int) ≤ m + 9 then 1 else 0))
          (if m + 9 < 10 then m + 9 + 3 else m + 9 - 9) := by
      rw [if_pos (show (10 : Int) ≤ m + 9 by omega),
        if_neg (show ¬m + 9 < 10 by omega),
        show ((y - 1) / 400 * 400 + (y - 1 - (y - 1) / 400 * 400) + 1 : Int) = y by
          omega,
        show (m + 9 - 9 : Int) = m by omega]
      omega
    have key := civilFromDays_eq ((y - 1) / 400) (y - 1 - (y - 1) / 400 * 400)
      (m + 9) (d - 1) (by omega) (by omega) (by omega) (by omega) (by omega) h6
    have harg : daysFromCivil y m d = (y - 1) / 400 * 146097 +
        ((y - 1 - (y - 1) / 400 * 400) * 365 + (y - 1 - (y - 1) / 400 * 400) / 4 -
          (y - 1 - (y - 1) / 400 * 400) / 100 +
          ((153 * (m + 9) + 2) / 5 + (d - 1))) - 719468 := by
      simp only [daysFromCivil]
      rw [if_pos hm]
      omega
    rw [harg, key, if_pos (show (10 : Int) ≤ m + 9 by omega),
      if_neg (show ¬m + 9 < 10 by omega)]
    simp only [Prod.mk.injEq]
    refine ⟨by omega, by omega, by omega⟩
  · have h6 : (d - 1) + 1 ≤
        daysInMonth (y / 400 * 400 + (y - y / 400 * 400) +
          (if (10 : Int) ≤ m - 3 then 1 else 0))
          (if m - 3 < 10 then m - 3 + 3 else m - 3 - 9) := by
      rw [if_neg (show ¬(10 : Int) ≤ m - 3 by omega),
        if_pos (show m - 3 < 10 by omega),
        show (y / 400 * 400 + (y - y / 400 * 400) + 0 : Int) = y by omega,
        show (m - 3 + 3 : Int) = m by omega]
      omega
    have key := civilFromDays_eq (y / 400) (y - y / 400 * 400)
      (m - 3) (d - 1) (by omega) (by omega) (by omega) (by omega) (by omega) h6
    have harg : daysFromCivil y m d = y / 400 * 146097 +
        ((y - y / 400 * 400) * 365 + (y - y / 400 * 400) / 4 -
          (y - y / 400 * 400) / 100 +
          ((153 * (m - 3) + 2) / 5 + (d - 1))) - 719468 := by
      simp only [daysFromCivil]
      rw [if_neg (show ¬m ≤ 2 by omega)]
      omega
    rw [harg, key, if_neg (show ¬(10 : Int) ≤ m - 3 by omega),
      if_pos (show m - 3 < 10 by omega)]
    simp only [Prod.mk.injEq]
    refine ⟨by omega, by omega, by omega⟩

end Heatmap

namespace Heatmap

/-! ## Claim C1: `parseISODateString` -/

/-- C1 counterexample: the matching input "2024-13-40" is not rejected;
it rolls over to the valid calendar date 2025-02-09, a date whose
components differ from the literal fields (2024, 13, 40). -/
theorem parseISO_counterexample :
    parseISODateString "2024-13-40" = some (daysFromCivil 2025 2 9) ∧
    civilFromDays (daysFromCivil 2025 2 9) = (2025, 2, 9) ∧
    1 ≤ (9 : Int) ∧ 9 ≤ daysInMonth 2025 2 ∧
    ((2025, 2, 9) : Int × Int × Int) ≠ (2024, 13, 40) := by
  refine ⟨by decide, by decide, by decide, by decide, by decide⟩

-- The `MakeDay` constructor agrees with `daysFromCivil` on in-range
-- months for years outside the two-digit remapping window.
theorem jsNewDate_eq_daysFromCivil (y m d : Int) (hy : 100 ≤ y)
    (h1 : 1 ≤ m) (h2 : m ≤ 12) :
    jsNewDate y (m - 1) d = daysFromCivil y m d := by
  unfold jsNewDate jsMakeDay
  rw [if_neg (by omega),
    show y + (m - 1) / 12 = y by omega,
    show (m - 1) % 12 + 1 = m by omega]

/-- C1 (amended): `parseISODateString` returns `null` exactly on inputs
whose trim does not match `\d{4}-\d{2}-\d{2}`; a matching input is
parsed through the JavaScript `Date` constructor, which rolls
out-of-range fields over into adjacent months/years, so only when the
three fields form a valid calendar date (with a year ≥ 100, below which
the ECMAScript two-digit-year remapping interferes) is the result
exactly the literal (year, month, day) triple. -/
theorem parseISODateString_amended :
    (∀ s : String, parseISOFields (jsTrim s.data) = none →
      parseISODateString s = none) ∧
    (∀ (s : String) (y m d : Int),
      parseISOFields (jsTrim s.data) = some (y, m, d) →
      100 ≤ y → 1 ≤ m → m ≤ 12 → 1 ≤ d → d ≤ daysInMonth y m →
      parseISODateString s = some (daysFromCivil y m d) ∧
      civilFromDays (daysFromCivil y m d) = (y, m, d)) := by
  constructor
  · intro s h
    unfold parseISODateString
    rw [h]
  · intro s y m d hf hy h1 h2 h3 h4
    constructor
    · unfold parseISODateString
      rw [hf]
      show some (jsNewDate y (m - 1) d) = some (daysFromCivil y m d)
      rw [jsNewDate_eq_daysFromCivil y m d hy h1 h2]
    · exact civil_roundtrip y m d h1 h2 h3 h4

/-- C1 witness: a concrete valid input. -/
theorem parseISODateString_amended_witness :
    parseISOFields (jsTrim "2024-01-15".data) = some (2024, 1, 15) ∧
    parseISODateString "2024-01-15" = some (daysFromCivil 2024 1 15) ∧
    civilFromDays (daysFromCivil 2024 1 15) = (2024, 1, 15) :=
  ⟨by decide,
    (parseISODateString_amended.2 "2024-01-15" 2024 1 15 (by decide) (by decide)
      (by decide) (by decide) (by decide) (by decide)).1,
    (parseISODateString_amended.2 "2024-01-15" 2024 1 15 (by decide) (by decide)
      (by decide) (by decide) (by decide) (by decide)).2⟩

/-! ## Claim C9: `generateDateRange` -/

-- Closed form of the generation loop.
theorem generateDateRange_eq_map :
    ∀ (n : Nat) (s e : Int), (e + 1 - s).toNat = n →
      generateDateRange s e =
        (List.range n).map (fun (i : Nat) => formatDateISO (s + (i : Int))) := by
  intro n
  induction n with
  | zero =>
    intro s e h
    rw [generateDateRange]
    rw [if_neg (by omega)]
    rfl
  | succ k ih =>
    intro s e h
    rw [generateDateRange]
    rw [if_pos (by omega), ih (s + 1) e (by omega), List.range_succ_eq_map]
    simp only [List.map_cons, List.map_map]
    congr 1
    · congr 1
      push_cast
      ring
    · apply List.map_congr_left
      intro i _
      simp only [Function.comp_apply]
      congr 1
      push_cast
      ring

/-- C9: for `start ≤ end`, `generateDateRange` returns exactly the ISO
strings of the consecutive days from `start` to `end` inclusive, in
order, with `(end - start) + 1` elements; for `start > end` it returns
the empty list. -/
theorem generateDateRange_correct :
    ∀ s e : Int,
      (s ≤ e → generateDateRange s e = (rangeDays s e).map formatDateISO ∧
        (generateDateRange s e).length = (e - s).toNat + 1) ∧
      (e < s → generateDateRange s e = []) := by
  intro s e
  constructor
  · intro h
    have h1 := generateDateRange_eq_map (e + 1 - s).toNat s e rfl
    constructor
    · rw [h1]
      unfold rangeDays
      rw [List.map_map]
      rfl
    · rw [h1, List.length_map, List.length_range]
      omega
  · intro h
    rw [generateDateRange]
    rw [if_neg (by omega)]

/-- C9 witness: the three-day example range. -/
theorem generateDateRange_correct_witness :
    daysFromCivil 2024 1 1 ≤ daysFromCivil 2024 1 3 ∧
    generateDateRange (daysFromCivil 2024 1 1) (daysFromCivil 2024 1 3) =
      ["2024-01-01", "2024-01-02", "2024-01-03"] ∧
    (generateDateRange (daysFromCivil 2024 1 1) (daysFromCivil 2024 1 3)).length
      = 3 := by
  have h := (generateDateRange_correct (daysFromCivil 2024 1 1)
    (daysFromCivil 2024 1 3)).1 (by decide)
  refine ⟨by decide, ?_, ?_⟩
  · rw [h.1]
    decide
  · rw [h.2]
    decide

/-! ## Claim C3: `calculateDateRange` fallback for unparseable start -/

/-- C3 counterexample: with a non-empty entries map keyed 2024-03-15 and
an explicit start text no parser accepts, the resolved start is
January 1 of the end year (2024-01-01), not the minimum entry key
(2024-03-15) that the no-explicit-start default would give. -/
theorem calculateDateRange_counterexample :
    (calculateDateRange (fun _ => none) 0 ["2024-03-15"]
      (some "not-a-date") (some "2024-12-31")).1 = daysFromCivil 2024 1 1 ∧
    (calculateDateRange (fun _ => none) 0 ["2024-03-15"]
      none (some "2024-12-31")).1 = daysFromCivil 2024 3 15 ∧
    daysFromCivil 2024 1 1 ≠ daysFromCivil 2024 3 15 := by
  refine ⟨by decide, by decide, by decide⟩

/-- C3 (amended): when a non-empty explicit start text fails both the
strict and the lenient parser, `calculateDateRange` raises no error and
resolves the start to January 1 of the resolved end date's year — not to
the minimum entries key (that default applies only when no explicit
start is given). -/
theorem calculateDateRange_amended :
    ∀ (lenient : String → Option Int) (today : Int) (keys : List String)
      (s : String) (endTxt : Option String),
      s ≠ "" → parseISODateString s = none → lenient s = none →
      (calculateDateRange lenient today keys (some s) endTxt).1 =
        jsNewDate
          (getFullYear ((calculateDateRange lenient today keys (some s) endTxt).2))
          0 1 := by
  intro lenient today keys s endTxt hs hp hl
  simp only [calculateDateRange, jsTruthy, Option.getD_some, hp, hl]
  rw [if_pos (by simp [hs])]

/-- C3 witness: a concrete failing start text. -/
theorem calculateDateRange_amended_witness :
    ("nope" : String) ≠ "" ∧ parseISODateString "nope" = none ∧
    (calculateDateRange (fun _ => none) 19723 ["2024-03-15"] (some "nope")
      (some "2024-12-31")).1 =
      jsNewDate
        (getFullYear ((calculateDateRange (fun _ => none) 19723 ["2024-03-15"]
          (some "nope") (some "2024-12-31")).2)) 0 1 :=
  ⟨by decide, by decide,
    calculateDateRange_amended (fun _ => none) 19723 ["2024-03-15"] "nope"
      (some "2024-12-31") (by decide) (by decide) rfl⟩

/-! ## Claim C10: `hexToRgb` total fallback to black -/

/-- C10: any input that does not match the optionally-`#`-prefixed
6-hex-digit pattern parses to `{r: 0, g: 0, b: 0}`, so the downstream
color operations treat a malformed color exactly as `#000000` (shown
here for `getRelativeLuminance`). -/
theorem hexToRgb_malformed :
    ∀ s : String, matchesHexPattern s = false →
      hexToRgb s = { r := 0, g := 0, b := 0 } ∧
      getRelativeLuminance s = getRelativeLuminance "#000000" := by
  intro s h
  have hblack : hexToRgb s = { r := 0, g := 0, b := 0 } := by
    unfold hexToRgb
    unfold matchesHexPattern at h
    split
    · rename_i heq
      rw [heq] at h
      rw [if_neg (by simp_all)]
    · rfl
  refine ⟨hblack, ?_⟩
  have hb2 : hexToRgb "#000000" = { r := 0, g := 0, b := 0 } := by decide
  unfold getRelativeLuminance
  rw [hblack, hb2]

/-- C10 witness: a malformed color string. -/
theorem hexToRgb_malformed_witness :
    matchesHexPattern "xyz" = false ∧
    hexToRgb "xyz" = { r := 0, g := 0, b := 0 } ∧
    getRelativeLuminance "xyz" = getRelativeLuminance "#000000" :=
  ⟨by decide, (hexToRgb_malformed "xyz" (by decide)).1,
    (hexToRgb_malformed "xyz" (by decide)).2⟩

end Heatmap

namespace Heatmap

/-! ## Claim C4: `calculateIntensityNumeric` -/

/-- C4: the normalizer contract.  With `min < max` the result is the
clamped affine ramp: 0 at or below `min`, 1 at or above `max`,
`(v - min)/(max - min)` in between, hence within [0, 1] and monotone
non-decreasing in `v` (the ℚ model has no NaN; the division is reached
only when `max ≠ min`).  With `max = min` the result is 1 for every
`v`. -/
theorem calculateIntensityNumeric_contract :
    ∀ mn mx v : ℚ,
      (mx = mn → calculateIntensityNumeric v mn mx = 1) ∧
      (mn < mx →
        (v ≤ mn → calculateIntensityNumeric v mn mx = 0) ∧
        (mx ≤ v → calculateIntensityNumeric v mn mx = 1) ∧
        (mn < v → v < mx →
          calculateIntensityNumeric v mn mx = (v - mn) / (mx - mn)) ∧
        0 ≤ calculateIntensityNumeric v mn mx ∧
        calculateIntensityNumeric v mn mx ≤ 1 ∧
        (∀ w : ℚ, v ≤ w →
          calculateIntensityNumeric v mn mx ≤ calculateIntensityNumeric w mn mx)) := by
  intro mn mx v
  constructor
  · intro h
    unfold calculateIntensityNumeric
    rw [if_pos h]
  · intro hlt
    have hc : 0 < mx - mn := by linarith
    have hne : ¬mx = mn := by
      intro h
      rw [h] at hlt
      exact lt_irrefl mn hlt
    have base : ∀ u : ℚ, 0 ≤ calculateIntensityNumeric u mn mx ∧
        calculateIntensityNumeric u mn mx ≤ 1 := by
      intro u
      unfold calculateIntensityNumeric
      rw [if_neg hne]
      split_ifs with h1 h2
      · norm_num
      · norm_num
      · constructor
        · apply div_nonneg <;> linarith
        · rw [div_le_one hc]
          linarith
    refine ⟨?_, ?_, ?_, (base v).1, (base v).2, ?_⟩
    · intro h
      unfold calculateIntensityNumeric
      rw [if_neg hne, if_pos h]
    · intro h
      unfold calculateIntensityNumeric
      rw [if_neg hne, if_neg (by linarith), if_pos h]
    · intro h1 h2
      unfold calculateIntensityNumeric
      rw [if_neg hne, if_neg (by linarith), if_neg (by linarith)]
    · intro w hw
      unfold calculateIntensityNumeric
      rw [if_neg hne, if_neg hne]
      split_ifs with h1 h2 h3 h4 h5 h6 h7 h8 <;>
        first
          | linarith
          | (apply div_nonneg <;> linarith)
          | (rw [div_le_one hc]; linarith)
          | (gcongr <;> linarith)

/-- C4 witness: a concrete interior evaluation. -/
theorem calculateIntensityNumeric_contract_witness :
    (0 : ℚ) < 2 ∧ calculateIntensityNumeric 1 0 2 = (1 - 0) / (2 - 0) :=
  ⟨by norm_num,
    (((calculateIntensityNumeric_contract 0 2 1).2 (by norm_num)).2.2.1
      (by norm_num) (by norm_num))⟩

/-! ## Claim C2: `processData` statistics -/

/-- C2 counterexample: a single dated record with the non-null value 0
yields `count = 0` (and `max = 1`), although one record (and one
retained entry) has a non-null value and the maximum non-null value seen
is 0: the statistics accumulate only strictly positive values. -/
theorem processData_counterexample :
    (processData [zeroValueRecord]).stats.count = 0 ∧
    (processData [zeroValueRecord]).stats.max = 1 ∧
    ([zeroValueRecord].filter (fun (r : RawRecord) => r.value ≠ none)).length
      = 1 ∧
    ((processData [zeroValueRecord]).entries.filter
      (fun p => p.2.value ≠ none)).length = 1 := by
  refine ⟨by decide, by decide, by decide, by decide⟩

-- Fold characterization of the statistics accumulator.
theorem procFold_stats :
    ∀ (records : List RawRecord) (st : ProcState),
      (records.foldl procStep st).count
        = st.count + (positiveDatedValues records).length ∧
      (records.foldl procStep st).minO =
        (positiveDatedValues records).foldl
          (fun acc v => some (match acc with | none => v | some m => min m v))
          st.minO ∧
      (records.foldl procStep st).maxO =
        (positiveDatedValues records).foldl
          (fun acc v => some (match acc with | none => v | some m => max m v))
          st.maxO := by
  intro records
  induction records with
  | nil =>
    intro st
    simp [positiveDatedValues]
  | cons r rs ih =>
    intro st
    simp only [List.foldl_cons]
    have hstep := ih (procStep st r)
    rcases hd : r.date with _ | dt
    · have hps : procStep st r = st := by
        simp only [procStep, hd]
      have hP : positiveDatedValues (r :: rs) = positiveDatedValues rs := by
        unfold positiveDatedValues
        rw [List.filterMap_cons]
        rcases hv : r.value with _ | v <;> simp [hd, hv]
      rw [hps] at hstep
      rw [hps, hP]
      exact hstep
    · rcases hv : r.value with _ | v
      · have hps : (procStep st r).count = st.count ∧
            (procStep st r).minO = st.minO ∧ (procStep st r).maxO = st.maxO := by
          refine ⟨?_, ?_, ?_⟩ <;> simp only [procStep, hd, hv]
        have hP : positiveDatedValues (r :: rs) = positiveDatedValues rs := by
          unfold positiveDatedValues
          rw [List.filterMap_cons]
          simp [hd, hv]
        refine ⟨?_, ?_, ?_⟩
        · rw [hstep.1, hps.1, hP]
        · rw [hstep.2.1, hps.2.1, hP]
        · rw [hstep.2.2, hps.2.2, hP]
      · by_cases hpos : 0 < v
        · have hps : (procStep st r).count = st.count + 1 ∧
              (procStep st r).minO =
                some (match st.minO with | none => v | some m => min m v) ∧
              (procStep st r).maxO =
                some (match st.maxO with | none => v | some m => max m v) := by
            refine ⟨?_, ?_, ?_⟩ <;> simp only [procStep, hd, hv, if_pos hpos]
          have hP : positiveDatedValues (r :: rs) = v :: positiveDatedValues rs := by
            unfold positiveDatedValues
            rw [List.filterMap_cons]
            simp [hd, hv, hpos]
          refine ⟨?_, ?_, ?_⟩
          · rw [hstep.1, hps.1, hP]
            simp only [List.length_cons]
            omega
          · rw [hstep.2.1, hps.2.1, hP, List.foldl_cons]
          · rw [hstep.2.2, hps.2.2, hP, List.foldl_cons]
        · have hps : (procStep st r).count = st.count ∧
              (procStep st r).minO = st.minO ∧ (procStep st r).maxO = st.maxO := by
            refine ⟨?_, ?_, ?_⟩ <;> simp only [procStep, hd, hv, if_neg hpos]
          have hP : positiveDatedValues (r :: rs) = positiveDatedValues rs := by
            unfold positiveDatedValues
            rw [List.filterMap_cons]
            simp [hd, hv, hpos]
          refine ⟨?_, ?_, ?_⟩
          · rw [hstep.1, hps.1, hP]
          · rw [hstep.2.1, hps.2.1, hP]
          · rw [hstep.2.2, hps.2.2, hP]

-- The option-valued min fold computes `List.min?`, and the max fold
-- computes `List.max?`.
theorem optFold_min_some :
    ∀ (l : List ℚ) (m : ℚ),
      l.foldl (fun acc v => some (match acc with | none => v | some w => min w v))
        (some m) = some (l.foldl min m) := by
  intro l
  induction l with
  | nil => intro m; rfl
  | cons a as ih =>
    intro m
    simp only [List.foldl_cons]
    rw [ih]

theorem optFold_min_eq :
    ∀ l : List ℚ,
      l.foldl (fun acc v => some (match acc with | none => v | some w => min w v))
        none = l.min? := by
  intro l
  cases l with
  | nil => rfl
  | cons a as =>
    show (as.foldl (fun acc v =>
      some (match acc with | none => v | some w => min w v)) (some a)) = (a :: as).min?
    rw [optFold_min_some]
    rfl

theorem optFold_max_some :
    ∀ (l : List ℚ) (m : ℚ),
      l.foldl (fun acc v => some (match acc with | none => v | some w => max w v))
        (some m) = some (l.foldl max m) := by
  intro l
  induction l with
  | nil => intro m; rfl
  | cons a as ih =>
    intro m
    simp only [List.foldl_cons]
    rw [ih]

theorem optFold_max_eq :
    ∀ l : List ℚ,
      l.foldl (fun acc v => some (match acc with | none => v | some w => max w v))
        none = l.max? := by
  intro l
  cases l with
  | nil => rfl
  | cons a as =>
    show (as.foldl (fun acc v =>
      some (match acc with | none => v | some w => max w v)) (some a)) = (a :: as).max?
    rw [optFold_max_some]
    rfl

/-- C2 (amended): `count` is the number of records with a resolvable
date and a non-null strictly positive value; `max` is the maximum such
value (1 when there is none) and `min` is the minimum such value (0 when
there is none), reset to 0 in the final normalization when
`min = max > 0`.  Records with value 0 or negative do not contribute. -/
theorem processData_stats :
    ∀ records : List RawRecord,
      (processData records).stats.count = (positiveDatedValues records).length ∧
      (processData records).stats.max
        = ((positiveDatedValues records).max?.getD 1) ∧
      (processData records).stats.min =
        (if ((positiveDatedValues records).min?.getD 0)
            = ((positiveDatedValues records).max?.getD 1) ∧
            0 < ((positiveDatedValues records).min?.getD 0) then 0
          else ((positiveDatedValues records).min?.getD 0)) := by
  intro records
  have h := procFold_stats records
    { entries := [], minO := none, maxO := none, count := 0, hasNumeric := false }
  unfold processData
  rw [optFold_min_eq, optFold_max_eq] at h
  refine ⟨?_, ?_, ?_⟩
  · simp only [h.1]
    omega
  · simp only [h.2.2]
    cases (positiveDatedValues records).max? <;> rfl
  · simp only [h.2.1, h.2.2]
    cases hm : (positiveDatedValues records).min? <;>
      cases hM : (positiveDatedValues records).max? <;>
      simp [Option.getD]

end Heatmap

namespace Heatmap

/-! ## Claim C8: month labels over the 2024 calendar year -/

set_option maxRecDepth 40000 in
/-- C8: over 2024-01-01..2024-12-31 with weekStart 0,
`generateMonthLabels` yields exactly 12 spans named Jan..Dec in order,
each with `endColumn ≥ startColumn`; every week lies in a span whose
name is the month name of the largest month value present among that
week's dates, and a span starts exactly at week 1 and at each week whose
largest-present-month differs from the previous week's. -/
theorem generateMonthLabels_2024 :
    ((generateMonthLabels (daysFromCivil 2024 1 1) (daysFromCivil 2024 12 31)
        0).map MonthLabel.name = monthNames) ∧
    (((generateMonthLabels (daysFromCivil 2024 1 1) (daysFromCivil 2024 12 31)
        0).all fun l => decide (l.startColumn ≤ l.endColumn)) = true) ∧
    ((((List.range 53).all fun i =>
      ((generateMonthLabels (daysFromCivil 2024 1 1) (daysFromCivil 2024 12 31)
          0).any fun l =>
        decide (l.startColumn ≤ (i : Int) + 1) &&
          decide ((i : Int) + 1 < l.endColumn) &&
          ((monthsInWeekSpec (daysFromCivil 2024 1 1) (daysFromCivil 2024 12 31)
              0 ((i : Int) + 1)).max?.map monthName == some l.name))) = true)) ∧
    ((((List.range 53).all fun i =>
      (((generateMonthLabels (daysFromCivil 2024 1 1) (daysFromCivil 2024 12 31)
          0).any fun l => l.startColumn == (i : Int) + 1)
        ==
        ((i : Int) + 1 == 1 ||
          ((monthsInWeekSpec (daysFromCivil 2024 1 1) (daysFromCivil 2024 12 31)
              0 ((i : Int) + 1)).max?
            != (monthsInWeekSpec (daysFromCivil 2024 1 1)
              (daysFromCivil 2024 12 31) 0 ((i : Int))).max?)))) = true)) := by
  refine ⟨by decide, by decide, by decide, by decide⟩

end Heatmap

namespace Heatmap

/-! ## Real-arithmetic helper lemmas for the color pipeline -/

-- Rational bracketing of rpow with a rational exponent m/n.
theorem le_rpow_ratio (x q : ℝ) (m n : ℕ) (hn : 0 < n) (hx : 0 ≤ x)
    (hq : 0 ≤ q) (h : q ^ n ≤ x ^ m) : q ≤ x ^ ((m : ℝ) / n) := by
  have hn0 : ((n : ℝ)) ≠ 0 := by positivity
  have h1 : ((q ^ n : ℝ)) ^ ((1 : ℝ) / n) ≤ ((x ^ m : ℝ)) ^ ((1 : ℝ) / n) :=
    Real.rpow_le_rpow (by positivity) h (by positivity)
  have h2 : ((q ^ n : ℝ)) ^ ((1 : ℝ) / n) = q := by
    rw [← Real.rpow_natCast q n, ← Real.rpow_mul hq]
    rw [mul_one_div, div_self hn0, Real.rpow_one]
  have h3 : ((x ^ m : ℝ)) ^ ((1 : ℝ) / n) = x ^ ((m : ℝ) / n) := by
    rw [← Real.rpow_natCast x m, ← Real.rpow_mul hx]
    rw [mul_one_div]
  rw [h2, h3] at h1
  exact h1

theorem rpow_ratio_le (x q : ℝ) (m n : ℕ) (hn : 0 < n) (hx : 0 ≤ x)
    (hq : 0 ≤ q) (h : x ^ m ≤ q ^ n) : x ^ ((m : ℝ) / n) ≤ q := by
  have hn0 : ((n : ℝ)) ≠ 0 := by positivity
  have h1 : ((x ^ m : ℝ)) ^ ((1 : ℝ) / n) ≤ ((q ^ n : ℝ)) ^ ((1 : ℝ) / n) :=
    Real.rpow_le_rpow (by positivity) h (by positivity)
  have h2 : ((q ^ n : ℝ)) ^ ((1 : ℝ) / n) = q := by
    rw [← Real.rpow_natCast q n, ← Real.rpow_mul hq]
    rw [mul_one_div, div_self hn0, Real.rpow_one]
  have h3 : ((x ^ m : ℝ)) ^ ((1 : ℝ) / n) = x ^ ((m : ℝ) / n) := by
    rw [← Real.rpow_natCast x m, ← Real.rpow_mul hx]
    rw [mul_one_div]
  rw [h2, h3] at h1
  exact h1

-- Cube-root bracketing for `jsCbrt`.
theorem le_cbrt (x q : ℝ) (hq : 0 ≤ q) (h : q ^ 3 ≤ x) : q ≤ jsCbrt x := by
  have hx : 0 ≤ x := le_trans (by positivity) h
  have := le_rpow_ratio x q 1 3 (by norm_num) hx hq (by rw [pow_one]; exact h)
  have he : ((1 : ℕ) : ℝ) / ((3 : ℕ) : ℝ) = (1 : ℝ) / 3 := by norm_num
  rw [he] at this
  exact this

theorem cbrt_le (x q : ℝ) (hx : 0 ≤ x) (hq : 0 ≤ q) (h : x ≤ q ^ 3) :
    jsCbrt x ≤ q := by
  have := rpow_ratio_le x q 1 3 (by norm_num) hx hq (by rw [pow_one]; exact h)
  have he : ((1 : ℕ) : ℝ) / ((3 : ℕ) : ℝ) = (1 : ℝ) / 3 := by norm_num
  rw [he] at this
  exact this

-- Bracketing for the 2.4 exponent (= 12/5) of `srgbToLinear`.
theorem le_rpow24 (x q : ℝ) (hx : 0 ≤ x) (hq : 0 ≤ q) (h : q ^ 5 ≤ x ^ 12) :
    q ≤ x ^ (2.4 : ℝ) := by
  have := le_rpow_ratio x q 12 5 (by norm_num) hx hq h
  have he : ((12 : ℕ) : ℝ) / ((5 : ℕ) : ℝ) = (2.4 : ℝ) := by norm_num
  rw [he] at this
  exact this

theorem rpow24_le (x q : ℝ) (hx : 0 ≤ x) (hq : 0 ≤ q) (h : x ^ 12 ≤ q ^ 5) :
    x ^ (2.4 : ℝ) ≤ q := by
  have := rpow_ratio_le x q 12 5 (by norm_num) hx hq h
  have he : ((12 : ℕ) : ℝ) / ((5 : ℕ) : ℝ) = (2.4 : ℝ) := by norm_num
  rw [he] at this
  exact this

-- Bracketing for the 1/2.4 exponent (= 5/12) of `linearToSrgb`.
theorem le_rpow512 (x q : ℝ) (hx : 0 ≤ x) (hq : 0 ≤ q) (h : q ^ 12 ≤ x ^ 5) :
    q ≤ x ^ ((1 : ℝ) / 2.4) := by
  have := le_rpow_ratio x q 5 12 (by norm_num) hx hq h
  have he : ((5 : ℕ) : ℝ) / ((12 : ℕ) : ℝ) = (1 : ℝ) / 2.4 := by norm_num
  rw [he] at this
  exact this

theorem rpow512_le (x q : ℝ) (hx : 0 ≤ x) (hq : 0 ≤ q) (h : x ^ 5 ≤ q ^ 12) :
    x ^ ((1 : ℝ) / 2.4) ≤ q := by
  have := rpow_ratio_le x q 5 12 (by norm_num) hx hq h
  have he : ((5 : ℕ) : ℝ) / ((12 : ℕ) : ℝ) = (1 : ℝ) / 2.4 := by norm_num
  rw [he] at this
  exact this

-- Branch characterizations of the transfer functions.
theorem srgbToLinear_of_le (c : ℝ) (h : c ≤ 0.04045) :
    srgbToLinear c = c / 12.92 := by
  unfold srgbToLinear
  rw [if_pos h]

theorem srgbToLinear_of_gt (c : ℝ) (h : ¬c ≤ 0.04045) :
    srgbToLinear c = ((c + 0.055) / 1.055) ^ (2.4 : ℝ) := by
  unfold srgbToLinear
  rw [if_neg h]

theorem linearToSrgb_of_le (c : ℝ) (h : c ≤ 0.0031308) :
    linearToSrgb c = c * 12.92 := by
  unfold linearToSrgb
  rw [if_pos h]

theorem linearToSrgb_of_gt (c : ℝ) (h : ¬c ≤ 0.0031308) :
    linearToSrgb c = 1.055 * c ^ ((1 : ℝ) / 2.4) - 0.055 := by
  unfold linearToSrgb
  rw [if_neg h]

theorem jsCbrt_zero : jsCbrt 0 = 0 := by
  unfold jsCbrt
  exact Real.zero_rpow (by norm_num)

-- Bracketing of `srgbToLinear` at a concrete power-branch argument.
theorem le_srgbToLinear (c q : ℝ) (hbr : ¬c ≤ 0.04045) (hq : 0 ≤ q)
    (h : q ^ 5 ≤ ((c + 0.055) / 1.055) ^ 12) : q ≤ srgbToLinear c := by
  rw [srgbToLinear_of_gt c hbr]
  push_neg at hbr
  exact le_rpow24 _ q (div_nonneg (by linarith) (by norm_num)) hq h

theorem srgbToLinear_le (c q : ℝ) (hbr : ¬c ≤ 0.04045) (hq : 0 ≤ q)
    (h : ((c + 0.055) / 1.055) ^ 12 ≤ q ^ 5) : srgbToLinear c ≤ q := by
  rw [srgbToLinear_of_gt c hbr]
  push_neg at hbr
  exact rpow24_le _ q (div_nonneg (by linarith) (by norm_num)) hq h

-- `Math.round` pinning and bounding.
theorem jsRound_eq (x : ℝ) (k : Int) (h1 : (k : ℝ) ≤ x + 1 / 2)
    (h2 : x + 1 / 2 < (k : ℝ) + 1) : jsRound x = k := by
  unfold jsRound
  rw [Int.floor_eq_iff]
  constructor
  · exact h1
  · push_cast
    exact h2

theorem jsRound_ge (x : ℝ) (k : Int) (h : (k : ℝ) ≤ x + 1 / 2) :
    k ≤ jsRound x := by
  unfold jsRound
  exact Int.le_floor.mpr (by push_cast; exact h)

-- Rounding through the linear branch of `linearToSrgb`.
theorem jsRound_linearToSrgb_eq (x : ℝ) (k : Int) (lo hi : ℝ)
    (hlo : lo ≤ x) (hhi : x ≤ hi) (hbr : hi ≤ 0.0031308)
    (h1 : (k : ℝ) ≤ lo * 12.92 * 255 + 1 / 2)
    (h2 : hi * 12.92 * 255 + 1 / 2 < (k : ℝ) + 1) :
    jsRound (linearToSrgb x * 255) = k := by
  rw [linearToSrgb_of_le x (le_trans hhi hbr)]
  apply jsRound_eq
  · nlinarith
  · nlinarith

-- Saturation through the power branch of `linearToSrgb`.
theorem jsRound_linearToSrgb_sat (x : ℝ) (h : 1 ≤ x) :
    (255 : Int) ≤ jsRound (linearToSrgb x * 255) := by
  have hbr : ¬x ≤ 0.0031308 := by norm_num at *; linarith
  rw [linearToSrgb_of_gt x hbr]
  have h1 : (1 : ℝ) ≤ x ^ ((1 : ℝ) / 2.4) := by
    have := Real.rpow_le_rpow (le_of_lt one_pos) h (by norm_num : (0:ℝ) ≤ 1 / 2.4)
    rwa [Real.one_rpow] at this
  apply jsRound_ge
  push_cast
  nlinarith

-- Exact rounding through the power branch of `linearToSrgb`.
theorem jsRound_linearToSrgb_pow_eq (x : ℝ) (k : Int) (lo hi slo shi : ℝ)
    (hlo : lo ≤ x) (hhi : x ≤ hi) (hbr : (0.0031308 : ℝ) < lo)
    (hslo0 : 0 ≤ slo) (hshi0 : 0 ≤ shi)
    (hslo : slo ^ 12 ≤ lo ^ 5) (hshi : hi ^ 5 ≤ shi ^ 12)
    (h1 : (k : ℝ) ≤ (1.055 * slo - 0.055) * 255 + 1 / 2)
    (h2 : (1.055 * shi - 0.055) * 255 + 1 / 2 < (k : ℝ) + 1) :
    jsRound (linearToSrgb x * 255) = k := by
  have hlo0 : (0 : ℝ) ≤ lo := by linarith
  have hx0 : (0 : ℝ) ≤ x := by linarith
  rw [linearToSrgb_of_gt x (by linarith)]
  have m1 : slo ≤ x ^ ((1 : ℝ) / 2.4) := by
    have a1 : slo ≤ lo ^ ((1 : ℝ) / 2.4) := le_rpow512 lo slo hlo0 hslo0 hslo
    have a2 : lo ^ ((1 : ℝ) / 2.4) ≤ x ^ ((1 : ℝ) / 2.4) :=
      Real.rpow_le_rpow hlo0 hlo (by norm_num)
    linarith
  have m2 : x ^ ((1 : ℝ) / 2.4) ≤ shi := by
    have a1 : x ^ ((1 : ℝ) / 2.4) ≤ hi ^ ((1 : ℝ) / 2.4) :=
      Real.rpow_le_rpow hx0 hhi (by norm_num)
    have a2 : hi ^ ((1 : ℝ) / 2.4) ≤ shi := rpow512_le hi shi (by linarith) hshi0 hshi
    linarith
  apply jsRound_eq
  · nlinarith
  · nlinarith

-- Lower bound through the power branch of `linearToSrgb`.
theorem jsRound_linearToSrgb_pow_ge (x : ℝ) (k : Int) (lo slo : ℝ)
    (hlo : lo ≤ x) (hbr : (0.0031308 : ℝ) < lo) (hslo0 : 0 ≤ slo)
    (hslo : slo ^ 12 ≤ lo ^ 5)
    (h1 : (k : ℝ) ≤ (1.055 * slo - 0.055) * 255 + 1 / 2) :
    k ≤ jsRound (linearToSrgb x * 255) := by
  have hlo0 : (0 : ℝ) ≤ lo := by linarith
  rw [linearToSrgb_of_gt x (by linarith)]
  have m1 : slo ≤ x ^ ((1 : ℝ) / 2.4) := by
    have a1 : slo ≤ lo ^ ((1 : ℝ) / 2.4) := le_rpow512 lo slo hlo0 hslo0 hslo
    have a2 : lo ^ ((1 : ℝ) / 2.4) ≤ x ^ ((1 : ℝ) / 2.4) :=
      Real.rpow_le_rpow hlo0 hlo (by norm_num)
    linarith
  apply jsRound_ge
  push_cast
  nlinarith

-- Cube monotonicity on nonnegative reals.
theorem cube_le_cube (p x : ℝ) (h0 : 0 ≤ p) (h : p ≤ x) :
    p * p * p ≤ x * x * x := by
  nlinarith [mul_nonneg h0 h0, sq_nonneg (x - p), sq_nonneg (x + p)]

end Heatmap

namespace Heatmap

/-! ## Color-pipeline evaluation lemmas -/

-- Zeta-expanded form of `rgbToOklab` with explicit cube-root atoms.
theorem rgbToOklab_as (r g b : ℝ) :
    rgbToOklab r g b =
      { L := 0.2104542553 * jsCbrt (0.4122214708 * srgbToLinear (r / 255) + 0.5363325363 * srgbToLinear (g / 255) + 0.0514459929 * srgbToLinear (b / 255)) + 0.7936177850 * jsCbrt (0.2119034982 * srgbToLinear (r / 255) + 0.6806995451 * srgbToLinear (g / 255) + 0.1073969566 * srgbToLinear (b / 255)) - 0.0040720468 * jsCbrt (0.0883024619 * srgbToLinear (r / 255) + 0.2817188376 * srgbToLinear (g / 255) + 0.6299787005 * srgbToLinear (b / 255)),
        a := 1.9779984951 * jsCbrt (0.4122214708 * srgbToLinear (r / 255) + 0.5363325363 * srgbToLinear (g / 255) + 0.0514459929 * srgbToLinear (b / 255)) - 2.4285922050 * jsCbrt (0.2119034982 * srgbToLinear (r / 255) + 0.6806995451 * srgbToLinear (g / 255) + 0.1073969566 * srgbToLinear (b / 255)) + 0.4505937099 * jsCbrt (0.0883024619 * srgbToLinear (r / 255) + 0.2817188376 * srgbToLinear (g / 255) + 0.6299787005 * srgbToLinear (b / 255)),
        b := 0.0259040371 * jsCbrt (0.4122214708 * srgbToLinear (r / 255) + 0.5363325363 * srgbToLinear (g / 255) + 0.0514459929 * srgbToLinear (b / 255)) + 0.7827717662 * jsCbrt (0.2119034982 * srgbToLinear (r / 255) + 0.6806995451 * srgbToLinear (g / 255) + 0.1073969566 * srgbToLinear (b / 255)) - 0.8086757660 * jsCbrt (0.0883024619 * srgbToLinear (r / 255) + 0.2817188376 * srgbToLinear (g / 255) + 0.6299787005 * srgbToLinear (b / 255)) } := rfl

-- Zeta-expanded form of `interpolateColor` given closed forms for the
-- endpoint Oklab coordinates and the interpolated coordinates.
theorem interpolateColor_as (c1 c2 : String) (t L1 a1 b1 L2 a2 b2 L a b : ℝ)
    (h1 : rgbToOklab ((hexToRgb c1).r : ℝ) ((hexToRgb c1).g : ℝ)
      ((hexToRgb c1).b : ℝ) = ⟨L1, a1, b1⟩)
    (h2 : rgbToOklab ((hexToRgb c2).r : ℝ) ((hexToRgb c2).g : ℝ)
      ((hexToRgb c2).b : ℝ) = ⟨L2, a2, b2⟩)
    (hL : L1 + (L2 - L1) * t = L) (ha : a1 + (a2 - a1) * t = a)
    (hb : b1 + (b2 - b1) * t = b) :
    interpolateColor c1 c2 t =
      rgbToHexInt
        (jsRound (linearToSrgb (4.0767416621 * ((L + 0.3963377774 * a + 0.2158037573 * b) * (L + 0.3963377774 * a + 0.2158037573 * b) * (L + 0.3963377774 * a + 0.2158037573 * b)) - 3.3077115913 * ((L - 0.1055613458 * a - 0.0638541728 * b) * (L - 0.1055613458 * a - 0.0638541728 * b) * (L - 0.1055613458 * a - 0.0638541728 * b)) + 0.2309699292 * ((L - 0.0894841775 * a - 1.2914855480 * b) * (L - 0.0894841775 * a - 1.2914855480 * b) * (L - 0.0894841775 * a - 1.2914855480 * b))) * 255))
        (jsRound (linearToSrgb (-1.2684380046 * ((L + 0.3963377774 * a + 0.2158037573 * b) * (L + 0.3963377774 * a + 0.2158037573 * b) * (L + 0.3963377774 * a + 0.2158037573 * b)) + 2.6097574011 * ((L - 0.1055613458 * a - 0.0638541728 * b) * (L - 0.1055613458 * a - 0.0638541728 * b) * (L - 0.1055613458 * a - 0.0638541728 * b)) - 0.3413193965 * ((L - 0.0894841775 * a - 1.2914855480 * b) * (L - 0.0894841775 * a - 1.2914855480 * b) * (L - 0.0894841775 * a - 1.2914855480 * b))) * 255))
        (jsRound (linearToSrgb (-0.0041960863 * ((L + 0.3963377774 * a + 0.2158037573 * b) * (L + 0.3963377774 * a + 0.2158037573 * b) * (L + 0.3963377774 * a + 0.2158037573 * b)) - 0.7034186147 * ((L - 0.1055613458 * a - 0.0638541728 * b) * (L - 0.1055613458 * a - 0.0638541728 * b) * (L - 0.1055613458 * a - 0.0638541728 * b)) + 1.7076147010 * ((L - 0.0894841775 * a - 1.2914855480 * b) * (L - 0.0894841775 * a - 1.2914855480 * b) * (L - 0.0894841775 * a - 1.2914855480 * b))) * 255)) := by
  unfold interpolateColor oklabToRgb
  simp only [h1, h2]
  rw [hL, ha, hb]

theorem srgbToLinear_zero : srgbToLinear 0 = 0 := by
  rw [srgbToLinear_of_le 0 (by norm_num)]
  norm_num

-- The black point maps to the Oklab origin.
theorem rgbToOklab_black : rgbToOklab 0 0 0 = ⟨0, 0, 0⟩ := by
  rw [rgbToOklab_as]
  have h0 : srgbToLinear ((0 : ℝ) / 255) = 0 := by
    rw [srgbToLinear_of_le _ (by norm_num)]
    norm_num
  rw [h0]
  norm_num [jsCbrt_zero]

theorem hexByte_ge_255 (n : Int) (h : 255 ≤ n) : hexByte n = "ff" := by
  show String.mk [hexChar ((max 0 (min 255 n)).toNat / 16),
    hexChar ((max 0 (min 255 n)).toNat % 16)] = "ff"
  rw [min_eq_left h]
  rfl

theorem rgbToHexInt_sat (r g b : Int) (hr : 255 ≤ r) (hg : 255 ≤ g)
    (hb : 255 ≤ b) : rgbToHexInt r g b = "#ffffff" := by
  unfold rgbToHexInt
  rw [hexByte_ge_255 r hr, hexByte_ge_255 g hg, hexByte_ge_255 b hb]
  rfl

theorem rgbToHexInt_congr (r g b r' g' b' : Int) (hr : r = r') (hg : g = g')
    (hb : b = b') : rgbToHexInt r g b = rgbToHexInt r' g' b' := by
  rw [hr, hg, hb]

-- A channel of at least 190 renders with a leading hex letter, never '9'.
theorem hexChar_hi_ne_nine (n : Int) (h : 190 ≤ n) :
    hexChar ((max 0 (min 255 n)).toNat / 16) ≠ '9' := by
  have hmn : (190 : Int) ≤ min 255 n := le_min (by norm_num) h
  rw [max_eq_right (by linarith : (0 : Int) ≤ min 255 n)]
  have hub : min 255 n ≤ 255 := min_le_left _ _
  have hk : 190 ≤ (min 255 n).toNat ∧ (min 255 n).toNat ≤ 255 := by omega
  set j := (min 255 n).toNat / 16 with hj
  have hjb : 11 ≤ j ∧ j ≤ 15 := by omega
  obtain ⟨hj1, hj2⟩ := hjb
  interval_cases j <;> decide

theorem rgbToHexInt_ne_919395 (r g b : Int) (h : 190 ≤ r) :
    rgbToHexInt r g b ≠ "#919395" := by
  intro heq
  have hd := congrArg String.data heq
  simp only [rgbToHexInt, hexByte, String.data_append] at hd
  exact hexChar_hi_ne_nine r h (by
    have := hd
    simp only [List.cons_append, List.nil_append, List.cons.injEq] at this
    exact this.2.1)

theorem lum_black : getRelativeLuminance "#000000" = 0 := by
  unfold getRelativeLuminance
  rw [show hexToRgb "#000000" = ⟨0, 0, 0⟩ from by decide]
  norm_num [srgbToLinear_zero]

theorem adjustColorForTheme_light (hex : String)
    (h : getRelativeLuminance hex < 0.85) :
    adjustColorForTheme hex false = interpolateColor hex "#ebedf0" 0.7 := by
  unfold adjustColorForTheme
  rw [if_neg (show ¬(false = true) from by simp), if_pos h]

set_option maxHeartbeats 4000000 in
/-- C5: the spec says `interpolateColor` clamps `t` to [0,1]; it does not:
at `t = 1000` the interpolation extrapolates far past the second endpoint
(every channel saturates, giving `"#ffffff"`), while the clamped factor
gives `"#050505"`. -/
theorem interpolateColor_counterexample :
    interpolateColor "#000000" "#050505" 1000 ≠
      interpolateColor "#000000" "#050505" (max 0 (min 1 (1000 : ℝ))) := by
  have hclamp : (max 0 (min 1 (1000 : ℝ))) = 1 := by norm_num
  rw [hclamp]
  have hbk : hexToRgb "#000000" = ⟨0, 0, 0⟩ := by decide
  have h1 : rgbToOklab ((hexToRgb "#000000").r : ℝ) ((hexToRgb "#000000").g : ℝ)
      ((hexToRgb "#000000").b : ℝ) = ⟨0, 0, 0⟩ := by
    rw [hbk]
    show rgbToOklab ((0 : ℕ) : ℝ) ((0 : ℕ) : ℝ) ((0 : ℕ) : ℝ) = _
    rw [Nat.cast_zero]
    exact rgbToOklab_black
  have hgr : hexToRgb "#050505" = ⟨5, 5, 5⟩ := by decide
  have hA : srgbToLinear ((5 : ℝ) / 255) = 25 / 16473 := by
    rw [srgbToLinear_of_le _ (by norm_num)]
    norm_num
  set u1 : ℝ := jsCbrt (0.4122214708 * srgbToLinear (5 / 255) + 0.5363325363 * srgbToLinear (5 / 255) + 0.0514459929 * srgbToLinear (5 / 255)) with hu1def
  set u2 : ℝ := jsCbrt (0.2119034982 * srgbToLinear (5 / 255) + 0.6806995451 * srgbToLinear (5 / 255) + 0.1073969566 * srgbToLinear (5 / 255)) with hu2def
  set u3 : ℝ := jsCbrt (0.0883024619 * srgbToLinear (5 / 255) + 0.2817188376 * srgbToLinear (5 / 255) + 0.6299787005 * srgbToLinear (5 / 255)) with hu3def
  have h2 : rgbToOklab ((hexToRgb "#050505").r : ℝ) ((hexToRgb "#050505").g : ℝ)
      ((hexToRgb "#050505").b : ℝ) =
      ⟨0.2104542553 * u1 + 0.7936177850 * u2 - 0.0040720468 * u3, 1.9779984951 * u1 - 2.4285922050 * u2 + 0.4505937099 * u3, 0.0259040371 * u1 + 0.7827717662 * u2 - 0.8086757660 * u3⟩ := by
    rw [hgr]
    show rgbToOklab ((5 : ℕ) : ℝ) ((5 : ℕ) : ℝ) ((5 : ℕ) : ℝ) = _
    rw [show ((5 : ℕ) : ℝ) = 5 from by norm_num]
    rw [hu1def, hu2def, hu3def]
    exact rgbToOklab_as 5 5 5
  have hu1 : (0.11491827634 : ℝ) ≤ u1 ∧ u1 ≤ 0.11491827635 := by
    rw [hu1def]
    constructor
    · refine le_cbrt _ _ (by norm_num) ?_
      rw [hA]
      norm_num
    · refine cbrt_le _ _ ?_ (by norm_num) ?_
      · rw [hA]; norm_num
      · rw [hA]; norm_num
  have hu2 : (0.11491827634 : ℝ) ≤ u2 ∧ u2 ≤ 0.11491827635 := by
    rw [hu2def]
    constructor
    · refine le_cbrt _ _ (by norm_num) ?_
      rw [hA]
      norm_num
    · refine cbrt_le _ _ ?_ (by norm_num) ?_
      · rw [hA]; norm_num
      · rw [hA]; norm_num
  have hu3 : (0.11491827634 : ℝ) ≤ u3 ∧ u3 ≤ 0.11491827635 := by
    rw [hu3def]
    constructor
    · refine le_cbrt _ _ (by norm_num) ?_
      rw [hA]
      norm_num
    · refine cbrt_le _ _ ?_ (by norm_num) ?_
      · rw [hA]; norm_num
      · rw [hA]; norm_num
  have hp1 : (0.1149182765 : ℝ) ≤ (0.99999997108389738657) * u1 + (0.00000003651365197626) * u2 + (-0.00000000604806921554) * u3 ∧ (0.99999997108389738657) * u1 + (0.00000003651365197626) * u2 + (-0.00000000604806921554) * u3 ≤ 0.1149182766 :=
    ⟨by linarith only [hu1.1, hu1.2, hu2.1, hu2.2, hu3.1, hu3.2], by linarith only [hu1.1, hu1.2, hu2.1, hu2.2, hu3.1, hu3.2]⟩
  have hp2 : (0.1149182753 : ℝ) ≤ (-0.00000000869433171646) * u1 + (1.00000000293729348964) * u2 + (-0.00000000312472241862) * u3 ∧ (-0.00000000869433171646) * u1 + (1.00000000293729348964) * u2 + (-0.00000000312472241862) * u3 ≤ 0.1149182754 :=
    ⟨by linarith only [hu1.1, hu1.2, hu2.1, hu2.2, hu3.1, hu3.2], by linarith only [hu1.1, hu1.2, hu2.1, hu2.2, hu3.1, hu3.2]⟩
  have hp3 : (0.1149182700 : ℝ) ≤ (-0.00000000267976711105) * u1 + (-0.0000000624823984901) * u2 + (1.00000001048975466075) * u3 ∧ (-0.00000000267976711105) * u1 + (-0.0000000624823984901) * u2 + (1.00000001048975466075) * u3 ≤ 0.1149182701 :=
    ⟨by linarith only [hu1.1, hu1.2, hu2.1, hu2.2, hu3.1, hu3.2], by linarith only [hu1.1, hu1.2, hu2.1, hu2.2, hu3.1, hu3.2]⟩
  have hq1 : (0.0015176349237 : ℝ) ≤ ((0.99999997108389738657) * u1 + (0.00000003651365197626) * u2 + (-0.00000000604806921554) * u3) * ((0.99999997108389738657) * u1 + (0.00000003651365197626) * u2 + (-0.00000000604806921554) * u3) * ((0.99999997108389738657) * u1 + (0.00000003651365197626) * u2 + (-0.00000000604806921554) * u3) ∧
      ((0.99999997108389738657) * u1 + (0.00000003651365197626) * u2 + (-0.00000000604806921554) * u3) * ((0.99999997108389738657) * u1 + (0.00000003651365197626) * u2 + (-0.00000000604806921554) * u3) * ((0.99999997108389738657) * u1 + (0.00000003651365197626) * u2 + (-0.00000000604806921554) * u3) ≤ 0.0015176349278 :=
    ⟨le_trans (by norm_num : (0.0015176349237 : ℝ) ≤ (0.1149182765 : ℝ) * 0.1149182765 * 0.1149182765)
      (cube_le_cube (0.1149182765 : ℝ) ((0.99999997108389738657) * u1 + (0.00000003651365197626) * u2 + (-0.00000000604806921554) * u3) (by norm_num) hp1.1),
     le_trans (cube_le_cube ((0.99999997108389738657) * u1 + (0.00000003651365197626) * u2 + (-0.00000000604806921554) * u3) (0.1149182766 : ℝ) (by linarith only [hp1.1]) hp1.2)
      (by norm_num : (0.1149182766 : ℝ) * 0.1149182766 * 0.1149182766 ≤ 0.0015176349278)⟩
  have hq2 : (0.0015176348762 : ℝ) ≤ ((-0.00000000869433171646) * u1 + (1.00000000293729348964) * u2 + (-0.00000000312472241862) * u3) * ((-0.00000000869433171646) * u1 + (1.00000000293729348964) * u2 + (-0.00000000312472241862) * u3) * ((-0.00000000869433171646) * u1 + (1.00000000293729348964) * u2 + (-0.00000000312472241862) * u3) ∧
      ((-0.00000000869433171646) * u1 + (1.00000000293729348964) * u2 + (-0.00000000312472241862) * u3) * ((-0.00000000869433171646) * u1 + (1.00000000293729348964) * u2 + (-0.00000000312472241862) * u3) * ((-0.00000000869433171646) * u1 + (1.00000000293729348964) * u2 + (-0.00000000312472241862) * u3) ≤ 0.0015176348802 :=
    ⟨le_trans (by norm_num : (0.0015176348762 : ℝ) ≤ (0.1149182753 : ℝ) * 0.1149182753 * 0.1149182753)
      (cube_le_cube (0.1149182753 : ℝ) ((-0.00000000869433171646) * u1 + (1.00000000293729348964) * u2 + (-0.00000000312472241862) * u3) (by norm_num) hp2.1),
     le_trans (cube_le_cube ((-0.00000000869433171646) * u1 + (1.00000000293729348964) * u2 + (-0.00000000312472241862) * u3) (0.1149182754 : ℝ) (by linarith only [hp2.1]) hp2.2)
      (by norm_num : (0.1149182754 : ℝ) * 0.1149182754 * 0.1149182754 ≤ 0.0015176348802)⟩
  have hq3 : (0.0015176346662 : ℝ) ≤ ((-0.00000000267976711105) * u1 + (-0.0000000624823984901) * u2 + (1.00000001048975466075) * u3) * ((-0.00000000267976711105) * u1 + (-0.0000000624823984901) * u2 + (1.00000001048975466075) * u3) * ((-0.00000000267976711105) * u1 + (-0.0000000624823984901) * u2 + (1.00000001048975466075) * u3) ∧
      ((-0.00000000267976711105) * u1 + (-0.0000000624823984901) * u2 + (1.00000001048975466075) * u3) * ((-0.00000000267976711105) * u1 + (-0.0000000624823984901) * u2 + (1.00000001048975466075) * u3) * ((-0.00000000267976711105) * u1 + (-0.0000000624823984901) * u2 + (1.00000001048975466075) * u3) ≤ 0.0015176346702 :=
    ⟨le_trans (by norm_num : (0.0015176346662 : ℝ) ≤ (0.1149182700 : ℝ) * 0.1149182700 * 0.1149182700)
      (cube_le_cube (0.1149182700 : ℝ) ((-0.00000000267976711105) * u1 + (-0.0000000624823984901) * u2 + (1.00000001048975466075) * u3) (by norm_num) hp3.1),
     le_trans (cube_le_cube ((-0.00000000267976711105) * u1 + (-0.0000000624823984901) * u2 + (1.00000001048975466075) * u3) (0.1149182701 : ℝ) (by linarith only [hp3.1]) hp3.2)
      (by norm_num : (0.1149182701 : ℝ) * 0.1149182701 * 0.1149182701 ≤ 0.0015176346702)⟩
  have key1000 := interpolateColor_as "#000000" "#050505" 1000 0 0 0
    (0.2104542553 * u1 + 0.7936177850 * u2 - 0.0040720468 * u3) (1.9779984951 * u1 - 2.4285922050 * u2 + 0.4505937099 * u3) (0.0259040371 * u1 + 0.7827717662 * u2 - 0.8086757660 * u3)
    ((0.2104542553 * u1 + 0.7936177850 * u2 - 0.0040720468 * u3) * 1000) ((1.9779984951 * u1 - 2.4285922050 * u2 + 0.4505937099 * u3) * 1000) ((0.0259040371 * u1 + 0.7827717662 * u2 - 0.8086757660 * u3) * 1000)
    h1 h2 (by ring) (by ring) (by ring)
  have key1 := interpolateColor_as "#000000" "#050505" 1 0 0 0
    (0.2104542553 * u1 + 0.7936177850 * u2 - 0.0040720468 * u3) (1.9779984951 * u1 - 2.4285922050 * u2 + 0.4505937099 * u3) (0.0259040371 * u1 + 0.7827717662 * u2 - 0.8086757660 * u3) (0.2104542553 * u1 + 0.7936177850 * u2 - 0.0040720468 * u3) (1.9779984951 * u1 - 2.4285922050 * u2 + 0.4505937099 * u3) (0.0259040371 * u1 + 0.7827717662 * u2 - 0.8086757660 * u3)
    h1 h2 (by ring) (by ring) (by ring)
  have e1000 : interpolateColor "#000000" "#050505" 1000 = "#ffffff" := by
    rw [key1000]
    refine rgbToHexInt_sat _ _ _ ?_ ?_ ?_ <;>
      · refine jsRound_linearToSrgb_sat _ ?_
        linarith only [hq1.1, hq1.2, hq2.1, hq2.2, hq3.1, hq3.2]
  have e1 : interpolateColor "#000000" "#050505" 1 = "#050505" := by
    rw [key1]
    rw [show ("#050505" : String) = rgbToHexInt 5 5 5 from by decide]
    refine rgbToHexInt_congr _ _ _ _ _ _ ?_ ?_ ?_ <;>
      · refine jsRound_linearToSrgb_eq _ _ (0.0015176 : ℝ) (0.0015178 : ℝ) ?_ ?_
          (by norm_num) (by norm_num) (by norm_num)
        · linarith only [hq1.1, hq1.2, hq2.1, hq2.2, hq3.1, hq3.2]
        · linarith only [hq1.1, hq1.2, hq2.1, hq2.2, hq3.1, hq3.2]
  rw [e1000, e1]
  decide

/-- C5 (amended): `interpolateColor` itself does not clamp `t`; the clamping
happens at its call site: `getColorForIntensity` passes the factor clamped to
[0,1], so its result at any intensity equals its result at the clamped
intensity. -/
theorem getColorForIntensity_amended (i : ℝ) (scheme : ColorScheme)
    (isDark : Bool) :
    getColorForIntensity i scheme isDark =
      getColorForIntensity (max 0 (min 1 i)) scheme isDark := by
  unfold getColorForIntensity
  rcases le_or_lt i 0 with h | h
  · rw [if_pos h, if_pos (max_le le_rfl (le_trans (min_le_right 1 i) h))]
  · rw [if_neg (not_le.mpr h),
      if_neg (not_le.mpr (lt_max_iff.mpr (Or.inr (lt_min one_pos h))))]
    have hcu : max 0 (min 1 i) ≤ 1 := max_le (by norm_num) (min_le_left _ _)
    have hcl : (0 : ℝ) ≤ max 0 (min 1 i) := le_max_left _ _
    rw [min_eq_right hcu, max_eq_right hcl]

/-- C7 (amended): a color already inside the theme's luminance band
(luminance at most 0.15 in dark mode, at least 0.85 in light mode) is returned
unchanged by `adjustColorForTheme`, and on that band the adjustment is
idempotent. -/
theorem adjustColorForTheme_amended (hex : String) (isDark : Bool)
    (hdark : isDark = true → getRelativeLuminance hex ≤ 0.15)
    (hlight : isDark = false → 0.85 ≤ getRelativeLuminance hex) :
    adjustColorForTheme hex isDark = hex ∧
      adjustColorForTheme (adjustColorForTheme hex isDark) isDark = hex := by
  have hfix : adjustColorForTheme hex isDark = hex := by
    unfold adjustColorForTheme
    cases isDark
    · rw [if_neg (show ¬(false = true) from by simp),
        if_neg (not_lt.mpr (hlight rfl))]
    · rw [if_pos rfl, if_neg (not_lt.mpr (hdark rfl))]
  exact ⟨hfix, by rw [hfix, hfix]⟩

/-- Witness for the amended C7 theorem: black in dark mode (luminance 0) is a
fixed point of the adjustment. -/
theorem adjustColorForTheme_amended_witness :
    adjustColorForTheme "#000000" true = "#000000" ∧
      adjustColorForTheme (adjustColorForTheme "#000000" true) true =
        "#000000" :=
  adjustColorForTheme_amended "#000000" true
    (fun _ => by rw [lum_black]; norm_num)
    (fun h => nomatch h)

set_option maxHeartbeats 4000000 in
/-- C7: theme adjustment is not idempotent: in light mode the 70% blend of
black toward `"#ebedf0"` gives `"#919395"`, whose luminance (about 0.29) is
still below the 0.85 threshold, so a second application blends again and
yields a different color. -/
theorem adjustColorForTheme_counterexample :
    adjustColorForTheme (adjustColorForTheme "#000000" false) false ≠
      adjustColorForTheme "#000000" false := by
  have hbk : hexToRgb "#000000" = ⟨0, 0, 0⟩ := by decide
  have h1 : rgbToOklab ((hexToRgb "#000000").r : ℝ) ((hexToRgb "#000000").g : ℝ)
      ((hexToRgb "#000000").b : ℝ) = ⟨0, 0, 0⟩ := by
    rw [hbk]
    show rgbToOklab ((0 : ℕ) : ℝ) ((0 : ℕ) : ℝ) ((0 : ℕ) : ℝ) = _
    rw [Nat.cast_zero]
    exact rgbToOklab_black
  have heb : hexToRgb "#ebedf0" = ⟨235, 237, 240⟩ := by decide
  have hgr : hexToRgb "#919395" = ⟨145, 147, 149⟩ := by decide
  set s1 : ℝ := srgbToLinear (235 / 255) with s1def
  set s2 : ℝ := srgbToLinear (237 / 255) with s2def
  set s3 : ℝ := srgbToLinear (240 / 255) with s3def
  set t1 : ℝ := srgbToLinear (145 / 255) with t1def
  set t2 : ℝ := srgbToLinear (147 / 255) with t2def
  set t3 : ℝ := srgbToLinear (149 / 255) with t3def
  set v1 : ℝ := jsCbrt (0.4122214708 * s1 + 0.5363325363 * s2 + 0.0514459929 * s3) with hv1def
  set v2 : ℝ := jsCbrt (0.2119034982 * s1 + 0.6806995451 * s2 + 0.1073969566 * s3) with hv2def
  set v3 : ℝ := jsCbrt (0.0883024619 * s1 + 0.2817188376 * s2 + 0.6299787005 * s3) with hv3def
  set x1 : ℝ := jsCbrt (0.4122214708 * t1 + 0.5363325363 * t2 + 0.0514459929 * t3) with hx1def
  set x2 : ℝ := jsCbrt (0.2119034982 * t1 + 0.6806995451 * t2 + 0.1073969566 * t3) with hx2def
  set x3 : ℝ := jsCbrt (0.0883024619 * t1 + 0.2817188376 * t2 + 0.6299787005 * t3) with hx3def
  have h2 : rgbToOklab ((hexToRgb "#ebedf0").r : ℝ) ((hexToRgb "#ebedf0").g : ℝ)
      ((hexToRgb "#ebedf0").b : ℝ) =
      ⟨0.2104542553 * v1 + 0.7936177850 * v2 - 0.0040720468 * v3, 1.9779984951 * v1 - 2.4285922050 * v2 + 0.4505937099 * v3, 0.0259040371 * v1 + 0.7827717662 * v2 - 0.8086757660 * v3⟩ := by
    rw [heb]
    show rgbToOklab ((235 : ℕ) : ℝ) ((237 : ℕ) : ℝ) ((240 : ℕ) : ℝ) = _
    rw [show ((235 : ℕ) : ℝ) = 235 from by norm_num,
      show ((237 : ℕ) : ℝ) = 237 from by norm_num,
      show ((240 : ℕ) : ℝ) = 240 from by norm_num]
    rw [hv1def, hv2def, hv3def, s1def, s2def, s3def]
    exact rgbToOklab_as 235 237 240
  have h3 : rgbToOklab ((hexToRgb "#919395").r : ℝ) ((hexToRgb "#919395").g : ℝ)
      ((hexToRgb "#919395").b : ℝ) =
      ⟨0.2104542553 * x1 + 0.7936177850 * x2 - 0.0040720468 * x3, 1.9779984951 * x1 - 2.4285922050 * x2 + 0.4505937099 * x3, 0.0259040371 * x1 + 0.7827717662 * x2 - 0.8086757660 * x3⟩ := by
    rw [hgr]
    show rgbToOklab ((145 : ℕ) : ℝ) ((147 : ℕ) : ℝ) ((149 : ℕ) : ℝ) = _
    rw [show ((145 : ℕ) : ℝ) = 145 from by norm_num,
      show ((147 : ℕ) : ℝ) = 147 from by norm_num,
      show ((149 : ℕ) : ℝ) = 149 from by norm_num]
    rw [hx1def, hx2def, hx3def, t1def, t2def, t3def]
    exact rgbToOklab_as 145 147 149
  have hs1 : (0.830769876774654 : ℝ) ≤ s1 ∧ s1 ≤ 0.830769876774655 := by
    rw [s1def]
    exact ⟨le_srgbToLinear _ _ (by norm_num) (by norm_num) (by norm_num),
      srgbToLinear_le _ _ (by norm_num) (by norm_num) (by norm_num)⟩
  have hs2 : (0.846873231509857 : ℝ) ≤ s2 ∧ s2 ≤ 0.846873231509858 := by
    rw [s2def]
    exact ⟨le_srgbToLinear _ _ (by norm_num) (by norm_num) (by norm_num),
      srgbToLinear_le _ _ (by norm_num) (by norm_num) (by norm_num)⟩
  have hs3 : (0.871367119198797 : ℝ) ≤ s3 ∧ s3 ≤ 0.871367119198798 := by
    rw [s3def]
    exact ⟨le_srgbToLinear _ _ (by norm_num) (by norm_num) (by norm_num),
      srgbToLinear_le _ _ (by norm_num) (by norm_num) (by norm_num)⟩
  have ht1 : (0.283148740429991 : ℝ) ≤ t1 ∧ t1 ≤ 0.283148740429992 := by
    rw [t1def]
    exact ⟨le_srgbToLinear _ _ (by norm_num) (by norm_num) (by norm_num),
      srgbToLinear_le _ _ (by norm_num) (by norm_num) (by norm_num)⟩
  have ht2 : (0.291770649817535 : ℝ) ≤ t2 ∧ t2 ≤ 0.291770649817536 := by
    rw [t2def]
    exact ⟨le_srgbToLinear _ _ (by norm_num) (by norm_num) (by norm_num),
      srgbToLinear_le _ _ (by norm_num) (by norm_num) (by norm_num)⟩
  have ht3 : (0.300543794415776 : ℝ) ≤ t3 ∧ t3 ≤ 0.300543794415777 := by
    rw [t3def]
    exact ⟨le_srgbToLinear _ _ (by norm_num) (by norm_num) (by norm_num),
      srgbToLinear_le _ _ (by norm_num) (by norm_num) (by norm_num)⟩
  have hv1 : (0.9440982954881 : ℝ) ≤ v1 ∧ v1 ≤ 0.9440982954882 := by
    rw [hv1def]
    constructor
    · refine le_cbrt _ _ (by norm_num) ?_
      linarith only [hs1.1, hs2.1, hs3.1]
    · refine cbrt_le _ _ ?_ (by norm_num) ?_
      · linarith only [hs1.1, hs2.1, hs3.1]
      · linarith only [hs1.2, hs2.2, hs3.2]
  have hv2 : (0.9458140641534 : ℝ) ≤ v2 ∧ v2 ≤ 0.9458140641535 := by
    rw [hv2def]
    constructor
    · refine le_cbrt _ _ (by norm_num) ?_
      linarith only [hs1.1, hs2.1, hs3.1]
    · refine cbrt_le _ _ ?_ (by norm_num) ?_
      · linarith only [hs1.1, hs2.1, hs3.1]
      · linarith only [hs1.2, hs2.2, hs3.2]
  have hv3 : (0.9512934894318 : ℝ) ≤ v3 ∧ v3 ≤ 0.9512934894319 := by
    rw [hv3def]
    constructor
    · refine le_cbrt _ _ (by norm_num) ?_
      linarith only [hs1.1, hs2.1, hs3.1]
    · refine cbrt_le _ _ ?_ (by norm_num) ?_
      · linarith only [hs1.1, hs2.1, hs3.1]
      · linarith only [hs1.2, hs2.2, hs3.2]
  have hx1 : (0.6608955220271 : ℝ) ≤ x1 ∧ x1 ≤ 0.6608955220272 := by
    rw [hx1def]
    constructor
    · refine le_cbrt _ _ (by norm_num) ?_
      linarith only [ht1.1, ht2.1, ht3.1]
    · refine cbrt_le _ _ ?_ (by norm_num) ?_
      · linarith only [ht1.1, ht2.1, ht3.1]
      · linarith only [ht1.2, ht2.2, ht3.2]
  have hx2 : (0.6625838762640 : ℝ) ≤ x2 ∧ x2 ≤ 0.6625838762641 := by
    rw [hx2def]
    constructor
    · refine le_cbrt _ _ (by norm_num) ?_
      linarith only [ht1.1, ht2.1, ht3.1]
    · refine cbrt_le _ _ ?_ (by norm_num) ?_
      · linarith only [ht1.1, ht2.1, ht3.1]
      · linarith only [ht1.2, ht2.2, ht3.2]
  have hx3 : (0.6668465520711 : ℝ) ≤ x3 ∧ x3 ≤ 0.6668465520712 := by
    rw [hx3def]
    constructor
    · refine le_cbrt _ _ (by norm_num) ?_
      linarith only [ht1.1, ht2.1, ht3.1]
    · refine cbrt_le _ _ ?_ (by norm_num) ?_
      · linarith only [ht1.1, ht2.1, ht3.1]
      · linarith only [ht1.2, ht2.2, ht3.2]
  have hpf1 : (0.660868807879 : ℝ) ≤ (0.699999979758728170599) * v1 + (0.000000025559556383382) * v2 + (-0.000000004233648450878) * v3 ∧ (0.699999979758728170599) * v1 + (0.000000025559556383382) * v2 + (-0.000000004233648450878) * v3 ≤ 0.660868807880 :=
    ⟨by linarith only [hv1.1, hv1.2, hv2.1, hv2.2, hv3.1, hv3.2], by linarith only [hv1.1, hv1.2, hv2.1, hv2.2, hv3.1, hv3.2]⟩
  have hpf2 : (0.662069839025 : ℝ) ≤ (-0.000000006086032201522) * v1 + (0.700000002056105442748) * v2 + (-0.000000002187305693034) * v3 ∧ (-0.000000006086032201522) * v1 + (0.700000002056105442748) * v2 + (-0.000000002187305693034) * v3 ≤ 0.662069839026 :=
    ⟨by linarith only [hv1.1, hv1.2, hv2.1, hv2.2, hv3.1, hv3.2], by linarith only [hv1.1, hv1.2, hv2.1, hv2.2, hv3.1, hv3.2]⟩
  have hpf3 : (0.665905406448 : ℝ) ≤ (-0.000000001875836977735) * v1 + (-0.00000004373767894307) * v2 + (0.700000007342828262525) * v3 ∧ (-0.000000001875836977735) * v1 + (-0.00000004373767894307) * v2 + (0.700000007342828262525) * v3 ≤ 0.665905406449 :=
    ⟨by linarith only [hv1.1, hv1.2, hv2.1, hv2.2, hv3.1, hv3.2], by linarith only [hv1.1, hv1.2, hv2.1, hv2.2, hv3.1, hv3.2]⟩
  have hqf1 : (0.2886328533497 : ℝ) ≤ ((0.699999979758728170599) * v1 + (0.000000025559556383382) * v2 + (-0.000000004233648450878) * v3) * ((0.699999979758728170599) * v1 + (0.000000025559556383382) * v2 + (-0.000000004233648450878) * v3) * ((0.699999979758728170599) * v1 + (0.000000025559556383382) * v2 + (-0.000000004233648450878) * v3) ∧
      ((0.699999979758728170599) * v1 + (0.000000025559556383382) * v2 + (-0.000000004233648450878) * v3) * ((0.699999979758728170599) * v1 + (0.000000025559556383382) * v2 + (-0.000000004233648450878) * v3) * ((0.699999979758728170599) * v1 + (0.000000025559556383382) * v2 + (-0.000000004233648450878) * v3) ≤ 0.2886328533512 :=
    ⟨le_trans (by norm_num : (0.2886328533497 : ℝ) ≤ (0.660868807879 : ℝ) * 0.660868807879 * 0.660868807879)
      (cube_le_cube (0.660868807879 : ℝ) ((0.699999979758728170599) * v1 + (0.000000025559556383382) * v2 + (-0.000000004233648450878) * v3) (by norm_num) hpf1.1),
     le_trans (cube_le_cube ((0.699999979758728170599) * v1 + (0.000000025559556383382) * v2 + (-0.000000004233648450878) * v3) (0.660868807880 : ℝ) (by linarith only [hpf1.1]) hpf1.2)
      (by norm_num : (0.660868807880 : ℝ) * 0.660868807880 * 0.660868807880 ≤ 0.2886328533512)⟩
  have hqf2 : (0.2902093572880 : ℝ) ≤ ((-0.000000006086032201522) * v1 + (0.700000002056105442748) * v2 + (-0.000000002187305693034) * v3) * ((-0.000000006086032201522) * v1 + (0.700000002056105442748) * v2 + (-0.000000002187305693034) * v3) * ((-0.000000006086032201522) * v1 + (0.700000002056105442748) * v2 + (-0.000000002187305693034) * v3) ∧
      ((-0.000000006086032201522) * v1 + (0.700000002056105442748) * v2 + (-0.000000002187305693034) * v3) * ((-0.000000006086032201522) * v1 + (0.700000002056105442748) * v2 + (-0.000000002187305693034) * v3) * ((-0.000000006086032201522) * v1 + (0.700000002056105442748) * v2 + (-0.000000002187305693034) * v3) ≤ 0.2902093572894 :=
    ⟨le_trans (by norm_num : (0.2902093572880 : ℝ) ≤ (0.662069839025 : ℝ) * 0.662069839025 * 0.662069839025)
      (cube_le_cube (0.662069839025 : ℝ) ((-0.000000006086032201522) * v1 + (0.700000002056105442748) * v2 + (-0.000000002187305693034) * v3) (by norm_num) hpf2.1),
     le_trans (cube_le_cube ((-0.000000006086032201522) * v1 + (0.700000002056105442748) * v2 + (-0.000000002187305693034) * v3) (0.662069839026 : ℝ) (by linarith only [hpf2.1]) hpf2.2)
      (by norm_num : (0.662069839026 : ℝ) * 0.662069839026 * 0.662069839026 ≤ 0.2902093572894)⟩
  have hqf3 : (0.2952824412644 : ℝ) ≤ ((-0.000000001875836977735) * v1 + (-0.00000004373767894307) * v2 + (0.700000007342828262525) * v3) * ((-0.000000001875836977735) * v1 + (-0.00000004373767894307) * v2 + (0.700000007342828262525) * v3) * ((-0.000000001875836977735) * v1 + (-0.00000004373767894307) * v2 + (0.700000007342828262525) * v3) ∧
      ((-0.000000001875836977735) * v1 + (-0.00000004373767894307) * v2 + (0.700000007342828262525) * v3) * ((-0.000000001875836977735) * v1 + (-0.00000004373767894307) * v2 + (0.700000007342828262525) * v3) * ((-0.000000001875836977735) * v1 + (-0.00000004373767894307) * v2 + (0.700000007342828262525) * v3) ≤ 0.2952824412659 :=
    ⟨le_trans (by norm_num : (0.2952824412644 : ℝ) ≤ (0.665905406448 : ℝ) * 0.665905406448 * 0.665905406448)
      (cube_le_cube (0.665905406448 : ℝ) ((-0.000000001875836977735) * v1 + (-0.00000004373767894307) * v2 + (0.700000007342828262525) * v3) (by norm_num) hpf3.1),
     le_trans (cube_le_cube ((-0.000000001875836977735) * v1 + (-0.00000004373767894307) * v2 + (0.700000007342828262525) * v3) (0.665905406449 : ℝ) (by linarith only [hpf3.1]) hpf3.2)
      (by norm_num : (0.665905406449 : ℝ) * 0.665905406449 * 0.665905406449 ≤ 0.2952824412659)⟩
  have key1 := interpolateColor_as "#000000" "#ebedf0" 0.7 0 0 0
    (0.2104542553 * v1 + 0.7936177850 * v2 - 0.0040720468 * v3) (1.9779984951 * v1 - 2.4285922050 * v2 + 0.4505937099 * v3) (0.0259040371 * v1 + 0.7827717662 * v2 - 0.8086757660 * v3)
    ((0.2104542553 * v1 + 0.7936177850 * v2 - 0.0040720468 * v3) * 0.7) ((1.9779984951 * v1 - 2.4285922050 * v2 + 0.4505937099 * v3) * 0.7) ((0.0259040371 * v1 + 0.7827717662 * v2 - 0.8086757660 * v3) * 0.7)
    h1 h2 (by ring) (by ring) (by ring)
  have first : adjustColorForTheme "#000000" false = "#919395" := by
    rw [adjustColorForTheme_light "#000000" (by rw [lum_black]; norm_num)]
    rw [key1]
    rw [show ("#919395" : String) = rgbToHexInt 145 147 149 from by decide]
    refine rgbToHexInt_congr _ _ _ _ _ _ ?_ ?_ ?_
    · refine jsRound_linearToSrgb_pow_eq _ _ (0.284954087844 : ℝ) (0.284954087856 : ℝ)
        (0.59268354724114 : ℝ) (0.59268354725154 : ℝ) ?_ ?_ (by norm_num) (by norm_num)
        (by norm_num) (by norm_num) (by norm_num) (by norm_num) (by norm_num)
      · linarith only [hqf1.1, hqf1.2, hqf2.1, hqf2.2, hqf3.1, hqf3.2]
      · linarith only [hqf1.1, hqf1.2, hqf2.1, hqf2.2, hqf3.1, hqf3.2]
    · refine jsRound_linearToSrgb_pow_eq _ _ (0.290477512834 : ℝ) (0.290477512841 : ℝ)
        (0.59744355740082 : ℝ) (0.59744355740683 : ℝ) ?_ ?_ (by norm_num) (by norm_num)
        (by norm_num) (by norm_num) (by norm_num) (by norm_num) (by norm_num)
      · linarith only [hqf1.1, hqf1.2, hqf2.1, hqf2.2, hqf3.1, hqf3.2]
      · linarith only [hqf1.1, hqf1.2, hqf2.1, hqf2.2, hqf3.1, hqf3.2]
    · refine jsRound_linearToSrgb_pow_eq _ _ (0.298878845211 : ℝ) (0.298878845215 : ℝ)
        (0.60458354609987 : ℝ) (0.60458354610325 : ℝ) ?_ ?_ (by norm_num) (by norm_num)
        (by norm_num) (by norm_num) (by norm_num) (by norm_num) (by norm_num)
      · linarith only [hqf1.1, hqf1.2, hqf2.1, hqf2.2, hqf3.1, hqf3.2]
      · linarith only [hqf1.1, hqf1.2, hqf2.1, hqf2.2, hqf3.1, hqf3.2]
  have hpg1 : (0.859137464802 : ℝ) ≤ (0.299999991325169215971) * x1 + (0.000000010954095592878) * x2 + (-0.000000001814420764662) * x3 + (0.699999979758728170599) * v1 + (0.000000025559556383382) * v2 + (-0.000000004233648450878) * v3 ∧ (0.299999991325169215971) * x1 + (0.000000010954095592878) * x2 + (-0.000000001814420764662) * x3 + (0.699999979758728170599) * v1 + (0.000000025559556383382) * v2 + (-0.000000004233648450878) * v3 ≤ 0.859137464803 :=
    ⟨by linarith only [hx1.1, hx1.2, hx2.1, hx2.2, hx3.1, hx3.2, hv1.1, hv1.2, hv2.1, hv2.2, hv3.1, hv3.2], by linarith only [hx1.1, hx1.2, hx2.1, hx2.2, hx3.1, hx3.2, hv1.1, hv1.2, hv2.1, hv2.2, hv3.1, hv3.2]⟩
  have hpg2 : (0.860845000139 : ℝ) ≤ (-0.000000002608299514938) * x1 + (0.300000000881188046892) * x2 + (-0.000000000937416725586) * x3 + (-0.000000006086032201522) * v1 + (0.700000002056105442748) * v2 + (-0.000000002187305693034) * v3 ∧ (-0.000000002608299514938) * x1 + (0.300000000881188046892) * x2 + (-0.000000000937416725586) * x3 + (-0.000000006086032201522) * v1 + (0.700000002056105442748) * v2 + (-0.000000002187305693034) * v3 ≤ 0.860845000140 :=
    ⟨by linarith only [hx1.1, hx1.2, hx2.1, hx2.2, hx3.1, hx3.2, hv1.1, hv1.2, hv2.1, hv2.2, hv3.1, hv3.2], by linarith only [hx1.1, hx1.2, hx2.1, hx2.2, hx3.1, hx3.2, hv1.1, hv1.2, hv2.1, hv2.2, hv3.1, hv3.2]⟩
  have hpg3 : (0.865959361217 : ℝ) ≤ (-0.000000000803930133315) * x1 + (-0.00000001874471954703) * x2 + (0.300000003146926398225) * x3 + (-0.000000001875836977735) * v1 + (-0.00000004373767894307) * v2 + (0.700000007342828262525) * v3 ∧ (-0.000000000803930133315) * x1 + (-0.00000001874471954703) * x2 + (0.300000003146926398225) * x3 + (-0.000000001875836977735) * v1 + (-0.00000004373767894307) * v2 + (0.700000007342828262525) * v3 ≤ 0.865959361218 :=
    ⟨by linarith only [hx1.1, hx1.2, hx2.1, hx2.2, hx3.1, hx3.2, hv1.1, hv1.2, hv2.1, hv2.2, hv3.1, hv3.2], by linarith only [hx1.1, hx1.2, hx2.1, hx2.2, hx3.1, hx3.2, hv1.1, hv1.2, hv2.1, hv2.2, hv3.1, hv3.2]⟩
  have hqg1 : (0.6341441256957 : ℝ) ≤ ((0.299999991325169215971) * x1 + (0.000000010954095592878) * x2 + (-0.000000001814420764662) * x3 + (0.699999979758728170599) * v1 + (0.000000025559556383382) * v2 + (-0.000000004233648450878) * v3) * ((0.299999991325169215971) * x1 + (0.000000010954095592878) * x2 + (-0.000000001814420764662) * x3 + (0.699999979758728170599) * v1 + (0.000000025559556383382) * v2 + (-0.000000004233648450878) * v3) * ((0.299999991325169215971) * x1 + (0.000000010954095592878) * x2 + (-0.000000001814420764662) * x3 + (0.699999979758728170599) * v1 + (0.000000025559556383382) * v2 + (-0.000000004233648450878) * v3) ∧
      ((0.299999991325169215971) * x1 + (0.000000010954095592878) * x2 + (-0.000000001814420764662) * x3 + (0.699999979758728170599) * v1 + (0.000000025559556383382) * v2 + (-0.000000004233648450878) * v3) * ((0.299999991325169215971) * x1 + (0.000000010954095592878) * x2 + (-0.000000001814420764662) * x3 + (0.699999979758728170599) * v1 + (0.000000025559556383382) * v2 + (-0.000000004233648450878) * v3) * ((0.299999991325169215971) * x1 + (0.000000010954095592878) * x2 + (-0.000000001814420764662) * x3 + (0.699999979758728170599) * v1 + (0.000000025559556383382) * v2 + (-0.000000004233648450878) * v3) ≤ 0.6341441256980 :=
    ⟨le_trans (by norm_num : (0.6341441256957 : ℝ) ≤ (0.859137464802 : ℝ) * 0.859137464802 * 0.859137464802)
      (cube_le_cube (0.859137464802 : ℝ) ((0.299999991325169215971) * x1 + (0.000000010954095592878) * x2 + (-0.000000001814420764662) * x3 + (0.699999979758728170599) * v1 + (0.000000025559556383382) * v2 + (-0.000000004233648450878) * v3) (by norm_num) hpg1.1),
     le_trans (cube_le_cube ((0.299999991325169215971) * x1 + (0.000000010954095592878) * x2 + (-0.000000001814420764662) * x3 + (0.699999979758728170599) * v1 + (0.000000025559556383382) * v2 + (-0.000000004233648450878) * v3) (0.859137464803 : ℝ) (by linarith only [hpg1.1]) hpg1.2)
      (by norm_num : (0.859137464803 : ℝ) * 0.859137464803 * 0.859137464803 ≤ 0.6341441256980)⟩
  have hqg2 : (0.6379327290968 : ℝ) ≤ ((-0.000000002608299514938) * x1 + (0.300000000881188046892) * x2 + (-0.000000000937416725586) * x3 + (-0.000000006086032201522) * v1 + (0.700000002056105442748) * v2 + (-0.000000002187305693034) * v3) * ((-0.000000002608299514938) * x1 + (0.300000000881188046892) * x2 + (-0.000000000937416725586) * x3 + (-0.000000006086032201522) * v1 + (0.700000002056105442748) * v2 + (-0.000000002187305693034) * v3) * ((-0.000000002608299514938) * x1 + (0.300000000881188046892) * x2 + (-0.000000000937416725586) * x3 + (-0.000000006086032201522) * v1 + (0.700000002056105442748) * v2 + (-0.000000002187305693034) * v3) ∧
      ((-0.000000002608299514938) * x1 + (0.300000000881188046892) * x2 + (-0.000000000937416725586) * x3 + (-0.000000006086032201522) * v1 + (0.700000002056105442748) * v2 + (-0.000000002187305693034) * v3) * ((-0.000000002608299514938) * x1 + (0.300000000881188046892) * x2 + (-0.000000000937416725586) * x3 + (-0.000000006086032201522) * v1 + (0.700000002056105442748) * v2 + (-0.000000002187305693034) * v3) * ((-0.000000002608299514938) * x1 + (0.300000000881188046892) * x2 + (-0.000000000937416725586) * x3 + (-0.000000006086032201522) * v1 + (0.700000002056105442748) * v2 + (-0.000000002187305693034) * v3) ≤ 0.6379327290991 :=
    ⟨le_trans (by norm_num : (0.6379327290968 : ℝ) ≤ (0.860845000139 : ℝ) * 0.860845000139 * 0.860845000139)
      (cube_le_cube (0.860845000139 : ℝ) ((-0.000000002608299514938) * x1 + (0.300000000881188046892) * x2 + (-0.000000000937416725586) * x3 + (-0.000000006086032201522) * v1 + (0.700000002056105442748) * v2 + (-0.000000002187305693034) * v3) (by norm_num) hpg2.1),
     le_trans (cube_le_cube ((-0.000000002608299514938) * x1 + (0.300000000881188046892) * x2 + (-0.000000000937416725586) * x3 + (-0.000000006086032201522) * v1 + (0.700000002056105442748) * v2 + (-0.000000002187305693034) * v3) (0.860845000140 : ℝ) (by linarith only [hpg2.1]) hpg2.2)
      (by norm_num : (0.860845000140 : ℝ) * 0.860845000140 * 0.860845000140 ≤ 0.6379327290991)⟩
  have hqg3 : (0.6493704683931 : ℝ) ≤ ((-0.000000000803930133315) * x1 + (-0.00000001874471954703) * x2 + (0.300000003146926398225) * x3 + (-0.000000001875836977735) * v1 + (-0.00000004373767894307) * v2 + (0.700000007342828262525) * v3) * ((-0.000000000803930133315) * x1 + (-0.00000001874471954703) * x2 + (0.300000003146926398225) * x3 + (-0.000000001875836977735) * v1 + (-0.00000004373767894307) * v2 + (0.700000007342828262525) * v3) * ((-0.000000000803930133315) * x1 + (-0.00000001874471954703) * x2 + (0.300000003146926398225) * x3 + (-0.000000001875836977735) * v1 + (-0.00000004373767894307) * v2 + (0.700000007342828262525) * v3) ∧
      ((-0.000000000803930133315) * x1 + (-0.00000001874471954703) * x2 + (0.300000003146926398225) * x3 + (-0.000000001875836977735) * v1 + (-0.00000004373767894307) * v2 + (0.700000007342828262525) * v3) * ((-0.000000000803930133315) * x1 + (-0.00000001874471954703) * x2 + (0.300000003146926398225) * x3 + (-0.000000001875836977735) * v1 + (-0.00000004373767894307) * v2 + (0.700000007342828262525) * v3) * ((-0.000000000803930133315) * x1 + (-0.00000001874471954703) * x2 + (0.300000003146926398225) * x3 + (-0.000000001875836977735) * v1 + (-0.00000004373767894307) * v2 + (0.700000007342828262525) * v3) ≤ 0.6493704683954 :=
    ⟨le_trans (by norm_num : (0.6493704683931 : ℝ) ≤ (0.865959361217 : ℝ) * 0.865959361217 * 0.865959361217)
      (cube_le_cube (0.865959361217 : ℝ) ((-0.000000000803930133315) * x1 + (-0.00000001874471954703) * x2 + (0.300000003146926398225) * x3 + (-0.000000001875836977735) * v1 + (-0.00000004373767894307) * v2 + (0.700000007342828262525) * v3) (by norm_num) hpg3.1),
     le_trans (cube_le_cube ((-0.000000000803930133315) * x1 + (-0.00000001874471954703) * x2 + (0.300000003146926398225) * x3 + (-0.000000001875836977735) * v1 + (-0.00000004373767894307) * v2 + (0.700000007342828262525) * v3) (0.865959361218 : ℝ) (by linarith only [hpg3.1]) hpg3.2)
      (by norm_num : (0.865959361218 : ℝ) * 0.865959361218 * 0.865959361218 ≤ 0.6493704683954)⟩
  have key2 := interpolateColor_as "#919395" "#ebedf0" 0.7
    (0.2104542553 * x1 + 0.7936177850 * x2 - 0.0040720468 * x3) (1.9779984951 * x1 - 2.4285922050 * x2 + 0.4505937099 * x3) (0.0259040371 * x1 + 0.7827717662 * x2 - 0.8086757660 * x3)
    (0.2104542553 * v1 + 0.7936177850 * v2 - 0.0040720468 * v3) (1.9779984951 * v1 - 2.4285922050 * v2 + 0.4505937099 * v3) (0.0259040371 * v1 + 0.7827717662 * v2 - 0.8086757660 * v3)
    (0.3 * (0.2104542553 * x1 + 0.7936177850 * x2 - 0.0040720468 * x3) + 0.7 * (0.2104542553 * v1 + 0.7936177850 * v2 - 0.0040720468 * v3))
    (0.3 * (1.9779984951 * x1 - 2.4285922050 * x2 + 0.4505937099 * x3) + 0.7 * (1.9779984951 * v1 - 2.4285922050 * v2 + 0.4505937099 * v3))
    (0.3 * (0.0259040371 * x1 + 0.7827717662 * x2 - 0.8086757660 * x3) + 0.7 * (0.0259040371 * v1 + 0.7827717662 * v2 - 0.8086757660 * v3))
    h3 h2 (by ring) (by ring) (by ring)
  have hlum : getRelativeLuminance "#919395" < 0.85 := by
    unfold getRelativeLuminance
    rw [hgr]
    show 0.2126 * srgbToLinear (((145 : ℕ) : ℝ) / 255) +
      0.7152 * srgbToLinear (((147 : ℕ) : ℝ) / 255) +
      0.0722 * srgbToLinear (((149 : ℕ) : ℝ) / 255) < 0.85
    rw [show ((145 : ℕ) : ℝ) = 145 from by norm_num,
      show ((147 : ℕ) : ℝ) = 147 from by norm_num,
      show ((149 : ℕ) : ℝ) = 149 from by norm_num]
    rw [← t1def, ← t2def, ← t3def]
    linarith only [ht1.2, ht2.2, ht3.2]
  rw [first, adjustColorForTheme_light "#919395" hlum, key2]
  refine rgbToHexInt_ne_919395 _ _ _ ?_
  refine jsRound_linearToSrgb_pow_ge _ _ (0.625129345598 : ℝ) (0.82221889476478 : ℝ) ?_
    (by norm_num) (by norm_num) (by norm_num) (by norm_num)
  linarith only [hqg1.1, hqg1.2, hqg2.1, hqg2.2, hqg3.1, hqg3.2]

end Heatmap

namespace Heatmap

/-! ## The endpoint round trip (exactness of `interpolateColor` at 0 and 1) -/

-- Cubing is monotone on all of ℝ.
theorem cube_mono (x y : ℝ) (h : x ≤ y) : x * x * x ≤ y * y * y := by
  nlinarith [sq_nonneg (x + y), sq_nonneg (x - y), sq_nonneg x, sq_nonneg y]

theorem jsCbrt_cube (x : ℝ) (hx : 0 ≤ x) : jsCbrt x * jsCbrt x * jsCbrt x = x := by
  unfold jsCbrt
  rw [show x ^ ((1 : ℝ) / 3) * x ^ ((1 : ℝ) / 3) * x ^ ((1 : ℝ) / 3)
      = (x ^ ((1 : ℝ) / 3)) ^ (3 : ℕ) from by ring]
  rw [← Real.rpow_natCast (x ^ ((1 : ℝ) / 3)) 3, ← Real.rpow_mul hx]
  norm_num

theorem jsCbrt_nonneg (x : ℝ) (hx : 0 ≤ x) : 0 ≤ jsCbrt x :=
  Real.rpow_nonneg hx _

theorem jsCbrt_le_one (x : ℝ) (h0 : 0 ≤ x) (h1 : x ≤ 1) : jsCbrt x ≤ 1 :=
  Real.rpow_le_one h0 h1 (by norm_num)

theorem rpow_24_inv (bs : ℝ) (hb : 0 ≤ bs) :
    (bs ^ (2.4 : ℝ)) ^ ((1 : ℝ) / 2.4) = bs := by
  rw [← Real.rpow_mul hb]
  rw [show (2.4 : ℝ) * (1 / 2.4) = 1 from by norm_num, Real.rpow_one]

-- Tangent-line bound for the concave 1/2.4 power, by weighted AM-GM.
theorem rpow512_tangent (x a : ℝ) (hx : 0 ≤ x) (ha : 0 < a) :
    x ^ ((1 : ℝ) / 2.4) ≤
      a ^ ((1 : ℝ) / 2.4) + 5 / 12 * (a ^ ((1 : ℝ) / 2.4) / a) * (x - a) := by
  rw [show ((1 : ℝ) / 2.4) = (5 : ℝ) / 12 from by norm_num]
  have hxa : 0 ≤ x / a := div_nonneg hx ha.le
  have hgm := Real.geom_mean_le_arith_mean2_weighted
    (by norm_num : (0 : ℝ) ≤ 5 / 12) (by norm_num : (0 : ℝ) ≤ 7 / 12) hxa
    (by norm_num : (0 : ℝ) ≤ 1) (by norm_num : (5 : ℝ) / 12 + 7 / 12 = 1)
  rw [Real.one_rpow, mul_one, mul_one] at hgm
  have hsplit : x ^ ((5 : ℝ) / 12) = a ^ ((5 : ℝ) / 12) * (x / a) ^ ((5 : ℝ) / 12) := by
    rw [← Real.mul_rpow ha.le hxa]
    rw [show a * (x / a) = x from by field_simp]
  have hnn : 0 ≤ a ^ ((5 : ℝ) / 12) := Real.rpow_nonneg ha.le _
  have step := mul_le_mul_of_nonneg_left hgm hnn
  rw [← hsplit] at step
  have expand : a ^ ((5 : ℝ) / 12) * (5 / 12 * (x / a) + 7 / 12)
      = a ^ ((5 : ℝ) / 12) + 5 / 12 * (a ^ ((5 : ℝ) / 12) / a) * (x - a) := by
    field_simp
    ring
  rw [expand] at step
  exact step

-- The per-channel sRGB transfer functions are exact inverses on the 8-bit
-- grid, with the branch data needed downstream.
theorem channel_linear_facts (c : ℕ) (hc : c ≤ 255) :
    0 ≤ srgbToLinear ((c : ℝ) / 255) ∧ srgbToLinear ((c : ℝ) / 255) ≤ 1 ∧
      linearToSrgb (srgbToLinear ((c : ℝ) / 255)) * 255 = (c : ℝ) ∧
      ((c ≤ 10 ∧ srgbToLinear ((c : ℝ) / 255) ≤ 0.0031) ∨
        (11 ≤ c ∧ (0.00334 : ℝ) ≤ srgbToLinear ((c : ℝ) / 255))) := by
  have hc0 : (0 : ℝ) ≤ (c : ℝ) := Nat.cast_nonneg c
  have hc255 : (c : ℝ) ≤ 255 := by exact_mod_cast hc
  rcases le_or_lt c 10 with h10 | h11
  · have hcv : (c : ℝ) ≤ 10 := by exact_mod_cast h10
    rw [srgbToLinear_of_le _ (by linarith : (c : ℝ) / 255 ≤ 0.04045)]
    have k1 : 0 ≤ (c : ℝ) / 255 / 12.92 := by positivity
    have k2 : (c : ℝ) / 255 / 12.92 ≤ 0.0031 := by
      rw [div_le_iff (by norm_num : (0 : ℝ) < 12.92),
        div_le_iff (by norm_num : (0 : ℝ) < 255)]
      linarith
    refine ⟨k1, by linarith [k2], ?_, Or.inl ⟨h10, k2⟩⟩
    rw [linearToSrgb_of_le _ (by linarith [k2] : (c : ℝ) / 255 / 12.92 ≤ 0.0031308)]
    field_simp
    ring
  · have hcv : (11 : ℝ) ≤ (c : ℝ) := by exact_mod_cast h11
    have hbig : (0.04045 : ℝ) < (c : ℝ) / 255 := by
      rw [lt_div_iff (by norm_num : (0 : ℝ) < 255)]
      linarith
    rw [srgbToLinear_of_gt _ (not_le.mpr hbig)]
    set bs : ℝ := ((c : ℝ) / 255 + 0.055) / 1.055 with hbs
    have hc255' : (0.043137 : ℝ) ≤ (c : ℝ) / 255 := by
      rw [le_div_iff (by norm_num : (0 : ℝ) < 255)]
      linarith
    have hcub : (c : ℝ) / 255 ≤ 1 := by
      rw [div_le_iff (by norm_num : (0 : ℝ) < 255)]
      linarith
    have hb0 : (0.0930 : ℝ) ≤ bs := by
      rw [hbs, le_div_iff (by norm_num : (0 : ℝ) < 1.055)]
      linarith
    have hb1 : bs ≤ 1 := by
      rw [hbs, div_le_iff (by norm_num : (0 : ℝ) < 1.055)]
      linarith
    have hlin0 : (0 : ℝ) ≤ bs ^ (2.4 : ℝ) := Real.rpow_nonneg (by linarith) _
    have hlin1 : bs ^ (2.4 : ℝ) ≤ 1 := Real.rpow_le_one (by linarith) hb1 (by norm_num)
    have hlow : (0.00334 : ℝ) ≤ bs ^ (2.4 : ℝ) := by
      have t1 : (0.00334 : ℝ) ≤ (0.0930 : ℝ) ^ (2.4 : ℝ) :=
        le_rpow24 _ _ (by norm_num) (by norm_num) (by norm_num)
      have t2 : (0.0930 : ℝ) ^ (2.4 : ℝ) ≤ bs ^ (2.4 : ℝ) :=
        Real.rpow_le_rpow (by norm_num) hb0 (by norm_num)
      linarith
    refine ⟨hlin0, hlin1, ?_, Or.inr ⟨h11, hlow⟩⟩
    rw [linearToSrgb_of_gt _ (not_le.mpr (by linarith : (0.0031308 : ℝ) < bs ^ (2.4 : ℝ)))]
    rw [rpow_24_inv bs (by linarith), hbs]
    field_simp
    ring

set_option maxHeartbeats 1000000 in
-- A linear value within 2e-6 of a grid value rounds back to the same 8-bit
-- channel.
theorem round_channel (lin E : ℝ) (c : ℕ) (hc : c ≤ 255)
    (hlin0 : 0 ≤ lin) (hlin1 : lin ≤ 1)
    (hback : linearToSrgb lin * 255 = (c : ℝ))
    (hbr : (c ≤ 10 ∧ lin ≤ 0.0031) ∨ (11 ≤ c ∧ (0.00334 : ℝ) ≤ lin))
    (hE1 : lin - 0.000002 ≤ E) (hE2 : E ≤ lin + 0.000002) :
    jsRound (linearToSrgb E * 255) = ((c : ℕ) : ℤ) := by
  rcases hbr with ⟨h10, hsm⟩ | ⟨h11, hbig⟩
  · rw [linearToSrgb_of_le lin (by linarith)] at hback
    rw [linearToSrgb_of_le E (by linarith)]
    apply jsRound_eq
    · push_cast
      linarith
    · push_cast
      linarith
  · have hE0 : (0.00333 : ℝ) ≤ E := by linarith
    rw [linearToSrgb_of_gt lin (not_le.mpr (by linarith))] at hback
    rw [linearToSrgb_of_gt E (not_le.mpr (by linarith))]
    have ht1 := rpow512_tangent E lin (by linarith) (by linarith)
    have ht2 := rpow512_tangent lin E hlin0 (by linarith)
    have ha1 : lin ^ ((1 : ℝ) / 2.4) ≤ 1 := Real.rpow_le_one hlin0 hlin1 (by norm_num)
    have ha0 : 0 ≤ lin ^ ((1 : ℝ) / 2.4) := Real.rpow_nonneg hlin0 _
    have hbu : E ^ ((1 : ℝ) / 2.4) ≤ 1.0001 := by
      have k1 : E ^ ((1 : ℝ) / 2.4) ≤ (1.0001 : ℝ) ^ ((1 : ℝ) / 2.4) :=
        Real.rpow_le_rpow (by linarith) (by linarith) (by norm_num)
      have k2 : (1.0001 : ℝ) ^ ((1 : ℝ) / 2.4) ≤ (1.0001 : ℝ) ^ (1 : ℝ) :=
        Real.rpow_le_rpow_of_exponent_le (by norm_num) (by norm_num)
      rw [Real.rpow_one] at k2
      linarith
    have hb0 : 0 ≤ E ^ ((1 : ℝ) / 2.4) := Real.rpow_nonneg (by linarith) _
    have hs1 : lin ^ ((1 : ℝ) / 2.4) / lin ≤ 300 := by
      rw [div_le_iff (by linarith : (0 : ℝ) < lin)]
      nlinarith
    have hs1n : 0 ≤ lin ^ ((1 : ℝ) / 2.4) / lin := div_nonneg ha0 (by linarith)
    have hs2 : E ^ ((1 : ℝ) / 2.4) / E ≤ 301 := by
      rw [div_le_iff (by linarith : (0 : ℝ) < E)]
      nlinarith
    have hs2n : 0 ≤ E ^ ((1 : ℝ) / 2.4) / E := div_nonneg hb0 (by linarith)
    have hub : E ^ ((1 : ℝ) / 2.4) ≤ lin ^ ((1 : ℝ) / 2.4) + 0.0003 := by
      have k1 : lin ^ ((1 : ℝ) / 2.4) / lin * (E - lin) ≤ 300 * 0.000002 := by
        rcases le_total (E - lin) 0 with hneg | hpos
        · nlinarith [mul_le_mul_of_nonneg_left hneg hs1n]
        · nlinarith
      linarith
    have hlb : lin ^ ((1 : ℝ) / 2.4) ≤ E ^ ((1 : ℝ) / 2.4) + 0.0003 := by
      have k1 : E ^ ((1 : ℝ) / 2.4) / E * (lin - E) ≤ 301 * 0.000002 := by
        rcases le_total (lin - E) 0 with hneg | hpos
        · nlinarith [mul_le_mul_of_nonneg_left hneg hs2n]
        · nlinarith
      linarith
    apply jsRound_eq
    · push_cast
      linarith
    · push_cast
      linarith

-- Lowercase hex digits print back to themselves.
theorem hexChar_hexVal (c : Char) (h : isLowerHexDigit c = true) :
    hexChar (hexVal c) = c ∧ hexVal c ≤ 15 ∧ isHexDigit c = true := by
  have hm : c ∈ lowerHexDigits := by
    simpa [isLowerHexDigit] using h
  fin_cases hm <;> exact ⟨by decide, by decide, by decide⟩

-- `hexByte` on an in-range value is the two expected hex characters.
theorem hexByte_eq (v1 v2 : ℕ) (h1 : v1 ≤ 15) (h2 : v2 ≤ 15) :
    hexByte ((16 * v1 + v2 : ℕ) : ℤ) = String.mk [hexChar v1, hexChar v2] := by
  show String.mk
    [hexChar ((max 0 (min 255 ((16 * v1 + v2 : ℕ) : ℤ))).toNat / 16),
      hexChar ((max 0 (min 255 ((16 * v1 + v2 : ℕ) : ℤ))).toNat % 16)] = _
  have hle : ((16 * v1 + v2 : ℕ) : ℤ) ≤ 255 := by omega
  have hge : (0 : ℤ) ≤ ((16 * v1 + v2 : ℕ) : ℤ) := by omega
  rw [min_eq_right hle, max_eq_right hge]
  rw [show (((16 * v1 + v2 : ℕ) : ℤ)).toNat = 16 * v1 + v2 from by omega]
  rw [show (16 * v1 + v2) / 16 = v1 from by omega,
    show (16 * v1 + v2) % 16 = v2 from by omega]

-- Parsing and printing are mutually inverse on lowercase hex strings.
theorem lowerHex_spec (s : String) (h : isLowerHexString s = true) :
    ∃ r g b : ℕ, r ≤ 255 ∧ g ≤ 255 ∧ b ≤ 255 ∧
      hexToRgb s = ⟨r, g, b⟩ ∧ rgbToHexInt ((r : ℕ) : ℤ) ((g : ℕ) : ℤ) ((b : ℕ) : ℤ) = s := by
  unfold isLowerHexString at h
  split at h
  next c1 c2 c3 c4 c5 c6 heq =>
    simp only [Bool.and_eq_true] at h
    obtain ⟨⟨⟨⟨⟨hd1, hd2⟩, hd3⟩, hd4⟩, hd5⟩, hd6⟩ := h
    obtain ⟨hc1, hv1, hx1⟩ := hexChar_hexVal c1 hd1
    obtain ⟨hc2, hv2, hx2⟩ := hexChar_hexVal c2 hd2
    obtain ⟨hc3, hv3, hx3⟩ := hexChar_hexVal c3 hd3
    obtain ⟨hc4, hv4, hx4⟩ := hexChar_hexVal c4 hd4
    obtain ⟨hc5, hv5, hx5⟩ := hexChar_hexVal c5 hd5
    obtain ⟨hc6, hv6, hx6⟩ := hexChar_hexVal c6 hd6
    refine ⟨16 * hexVal c1 + hexVal c2, 16 * hexVal c3 + hexVal c4,
      16 * hexVal c5 + hexVal c6, by omega, by omega, by omega, ?_, ?_⟩
    · unfold hexToRgb
      rw [heq]
      show (if isHexDigit c1 && isHexDigit c2 && isHexDigit c3 && isHexDigit c4 &&
            isHexDigit c5 && isHexDigit c6 then
          Rgb.mk (16 * hexVal c1 + hexVal c2) (16 * hexVal c3 + hexVal c4)
            (16 * hexVal c5 + hexVal c6)
        else Rgb.mk 0 0 0) = _
      rw [hx1, hx2, hx3, hx4, hx5, hx6]
      simp
    · refine String.ext ?_
      rw [heq]
      unfold rgbToHexInt
      rw [hexByte_eq _ _ hv1 hv2, hexByte_eq _ _ hv3 hv4, hexByte_eq _ _ hv5 hv6]
      rw [hc1, hc2, hc3, hc4, hc5, hc6]
      simp [String.data_append]
  next heq =>
    exact absurd h Bool.false_ne_true

-- Interpolating at the endpoints is the bare Oklab round trip.
theorem interpolateColor_zero (c1 c2 : String) :
    interpolateColor c1 c2 0 =
      rgbToHexInt
        (oklabToRgb (rgbToOklab ((hexToRgb c1).r : ℝ) ((hexToRgb c1).g : ℝ)
            ((hexToRgb c1).b : ℝ)).L
          (rgbToOklab ((hexToRgb c1).r : ℝ) ((hexToRgb c1).g : ℝ)
            ((hexToRgb c1).b : ℝ)).a
          (rgbToOklab ((hexToRgb c1).r : ℝ) ((hexToRgb c1).g : ℝ)
            ((hexToRgb c1).b : ℝ)).b).1
        (oklabToRgb (rgbToOklab ((hexToRgb c1).r : ℝ) ((hexToRgb c1).g : ℝ)
            ((hexToRgb c1).b : ℝ)).L
          (rgbToOklab ((hexToRgb c1).r : ℝ) ((hexToRgb c1).g : ℝ)
            ((hexToRgb c1).b : ℝ)).a
          (rgbToOklab ((hexToRgb c1).r : ℝ) ((hexToRgb c1).g : ℝ)
            ((hexToRgb c1).b : ℝ)).b).2.1
        (oklabToRgb (rgbToOklab ((hexToRgb c1).r : ℝ) ((hexToRgb c1).g : ℝ)
            ((hexToRgb c1).b : ℝ)).L
          (rgbToOklab ((hexToRgb c1).r : ℝ) ((hexToRgb c1).g : ℝ)
            ((hexToRgb c1).b : ℝ)).a
          (rgbToOklab ((hexToRgb c1).r : ℝ) ((hexToRgb c1).g : ℝ)
            ((hexToRgb c1).b : ℝ)).b).2.2 := by
  simp only [interpolateColor]
  simp only [show ∀ x y : ℝ, x + (y - x) * 0 = x from fun x y => by ring]

theorem interpolateColor_one (c1 c2 : String) :
    interpolateColor c1 c2 1 =
      rgbToHexInt
        (oklabToRgb (rgbToOklab ((hexToRgb c2).r : ℝ) ((hexToRgb c2).g : ℝ)
            ((hexToRgb c2).b : ℝ)).L
          (rgbToOklab ((hexToRgb c2).r : ℝ) ((hexToRgb c2).g : ℝ)
            ((hexToRgb c2).b : ℝ)).a
          (rgbToOklab ((hexToRgb c2).r : ℝ) ((hexToRgb c2).g : ℝ)
            ((hexToRgb c2).b : ℝ)).b).1
        (oklabToRgb (rgbToOklab ((hexToRgb c2).r : ℝ) ((hexToRgb c2).g : ℝ)
            ((hexToRgb c2).b : ℝ)).L
          (rgbToOklab ((hexToRgb c2).r : ℝ) ((hexToRgb c2).g : ℝ)
            ((hexToRgb c2).b : ℝ)).a
          (rgbToOklab ((hexToRgb c2).r : ℝ) ((hexToRgb c2).g : ℝ)
            ((hexToRgb c2).b : ℝ)).b).2.1
        (oklabToRgb (rgbToOklab ((hexToRgb c2).r : ℝ) ((hexToRgb c2).g : ℝ)
            ((hexToRgb c2).b : ℝ)).L
          (rgbToOklab ((hexToRgb c2).r : ℝ) ((hexToRgb c2).g : ℝ)
            ((hexToRgb c2).b : ℝ)).a
          (rgbToOklab ((hexToRgb c2).r : ℝ) ((hexToRgb c2).g : ℝ)
            ((hexToRgb c2).b : ℝ)).b).2.2 := by
  simp only [interpolateColor]
  simp only [show ∀ x y : ℝ, x + (y - x) * 1 = y from fun x y => by ring]

-- Zeta-expanded form of the sRGB -> Oklab -> sRGB round trip.
theorem roundtrip_as (r g b : ℝ) :
    oklabToRgb (rgbToOklab r g b).L (rgbToOklab r g b).a (rgbToOklab r g b).b =
      (jsRound (linearToSrgb (4.0767416621 * ((0.2104542553 * jsCbrt (0.4122214708 * srgbToLinear (r / 255) + 0.5363325363 * srgbToLinear (g / 255) + 0.0514459929 * srgbToLinear (b / 255)) + 0.7936177850 * jsCbrt (0.2119034982 * srgbToLinear (r / 255) + 0.6806995451 * srgbToLinear (g / 255) + 0.1073969566 * srgbToLinear (b / 255)) - 0.0040720468 * jsCbrt (0.0883024619 * srgbToLinear (r / 255) + 0.2817188376 * srgbToLinear (g / 255) + 0.6299787005 * srgbToLinear (b / 255)) + 0.3963377774 * (1.9779984951 * jsCbrt (0.4122214708 * srgbToLinear (r / 255) + 0.5363325363 * srgbToLinear (g / 255) + 0.0514459929 * srgbToLinear (b / 255)) - 2.4285922050 * jsCbrt (0.2119034982 * srgbToLinear (r / 255) + 0.6806995451 * srgbToLinear (g / 255) + 0.1073969566 * srgbToLinear (b / 255)) + 0.4505937099 * jsCbrt (0.0883024619 * srgbToLinear (r / 255) + 0.2817188376 * srgbToLinear (g / 255) + 0.6299787005 * srgbToLinear (b / 255))) + 0.2158037573 * (0.0259040371 * jsCbrt (0.4122214708 * srgbToLinear (r / 255) + 0.5363325363 * srgbToLinear (g / 255) + 0.0514459929 * srgbToLinear (b / 255)) + 0.7827717662 * jsCbrt (0.2119034982 * srgbToLinear (r / 255) + 0.6806995451 * srgbToLinear (g / 255) + 0.1073969566 * srgbToLinear (b / 255)) - 0.8086757660 * jsCbrt (0.0883024619 * srgbToLinear (r / 255) + 0.2817188376 * srgbToLinear (g / 255) + 0.6299787005 * srgbToLinear (b / 255)))) * (0.2104542553 * jsCbrt (0.4122214708 * srgbToLinear (r / 255) + 0.5363325363 * srgbToLinear (g / 255) + 0.0514459929 * srgbToLinear (b / 255)) + 0.7936177850 * jsCbrt (0.2119034982 * srgbToLinear (r / 255) + 0.6806995451 * srgbToLinear (g / 255) + 0.1073969566 * srgbToLinear (b / 255)) - 0.0040720468 * jsCbrt (0.0883024619 * srgbToLinear (r / 255) + 0.2817188376 * srgbToLinear (g / 255) + 0.6299787005 * srgbToLinear (b / 255)) + 0.3963377774 * (1.9779984951 * jsCbrt (0.4122214708 * srgbToLinear (r / 255) + 0.5363325363 * srgbToLinear (g / 255) + 0.0514459929 * srgbToLinear (b / 255)) - 2.4285922050 * jsCbrt (0.2119034982 * srgbToLinear (r / 255) + 0.6806995451 * srgbToLinear (g / 255) + 0.1073969566 * srgbToLinear (b / 255)) + 0.4505937099 * jsCbrt (0.0883024619 * srgbToLinear (r / 255) + 0.2817188376 * srgbToLinear (g / 255) + 0.6299787005 * srgbToLinear (b / 255))) + 0.2158037573 * (0.0259040371 * jsCbrt (0.4122214708 * srgbToLinear (r / 255) + 0.5363325363 * srgbToLinear (g / 255) + 0.0514459929 * srgbToLinear (b / 255)) + 0.7827717662 * jsCbrt (0.2119034982 * srgbToLinear (r / 255) + 0.6806995451 * srgbToLinear (g / 255) + 0.1073969566 * srgbToLinear (b / 255)) - 0.8086757660 * jsCbrt (0.0883024619 * srgbToLinear (r / 255) + 0.2817188376 * srgbToLinear (g / 255) + 0.6299787005 * srgbToLinear (b / 255)))) * (0.2104542553 * jsCbrt (0.4122214708 * srgbToLinear (r / 255) + 0.5363325363 * srgbToLinear (g / 255) + 0.0514459929 * srgbToLinear (b / 255)) + 0.7936177850 * jsCbrt (0.2119034982 * srgbToLinear (r / 255) + 0.6806995451 * srgbToLinear (g / 255) + 0.1073969566 * srgbToLinear (b / 255)) - 0.0040720468 * jsCbrt (0.0883024619 * srgbToLinear (r / 255) + 0.2817188376 * srgbToLinear (g / 255) + 0.6299787005 * srgbToLinear (b / 255)) + 0.3963377774 * (1.9779984951 * jsCbrt (0.4122214708 * srgbToLinear (r / 255) + 0.5363325363 * srgbToLinear (g / 255) + 0.0514459929 * srgbToLinear (b / 255)) - 2.4285922050 * jsCbrt (0.2119034982 * srgbToLinear (r / 255) + 0.6806995451 * srgbToLinear (g / 255) + 0.1073969566 * srgbToLinear (b / 255)) + 0.4505937099 * jsCbrt (0.0883024619 * srgbToLinear (r / 255) + 0.2817188376 * srgbToLinear (g / 255) + 0.6299787005 * srgbToLinear (b / 255))) + 0.2158037573 * (0.0259040371 * jsCbrt (0.4122214708 * srgbToLinear (r / 255) + 0.5363325363 * srgbToLinear (g / 255) + 0.0514459929 * srgbToLinear (b / 255)) + 0.7827717662 * jsCbrt (0.2119034982 * srgbToLinear (r / 255) + 0.6806995451 * srgbToLinear (g / 255) + 0.1073969566 * srgbToLinear (b / 255)) - 0.8086757660 * jsCbrt (0.0883024619 * srgbToLinear (r / 255) + 0.2817188376 * srgbToLinear (g / 255) + 0.6299787005 * srgbToLinear (b / 255))))) - 3.3077115913 * ((0.2104542553 * jsCbrt (0.4122214708 * srgbToLinear (r / 255) + 0.5363325363 * srgbToLinear (g / 255) + 0.0514459929 * srgbToLinear (b / 255)) + 0.7936177850 * jsCbrt (0.2119034982 * srgbToLinear (r / 255) + 0.6806995451 * srgbToLinear (g / 255) + 0.1073969566 * srgbToLinear (b / 255)) - 0.0040720468 * jsCbrt (0.0883024619 * srgbToLinear (r / 255) + 0.2817188376 * srgbToLinear (g / 255) + 0.6299787005 * srgbToLinear (b / 255)) - 0.1055613458 * (1.9779984951 * jsCbrt (0.4122214708 * srgbToLinear (r / 255) + 0.5363325363 * srgbToLinear (g / 255) + 0.0514459929 * srgbToLinear (b / 255)) - 2.4285922050 * jsCbrt (0.2119034982 * srgbToLinear (r / 255) + 0.6806995451 * srgbToLinear (g / 255) + 0.1073969566 * srgbToLinear (b / 255)) + 0.4505937099 * jsCbrt (0.0883024619 * srgbToLinear (r / 255) + 0.2817188376 * srgbToLinear (g / 255) + 0.6299787005 * srgbToLinear (b / 255))) - 0.0638541728 * (0.0259040371 * jsCbrt (0.4122214708 * srgbToLinear (r / 255) + 0.5363325363 * srgbToLinear (g / 255) + 0.0514459929 * srgbToLinear (b / 255)) + 0.7827717662 * jsCbrt (0.2119034982 * srgbToLinear (r / 255) + 0.6806995451 * srgbToLinear (g / 255) + 0.1073969566 * srgbToLinear (b / 255)) - 0.8086757660 * jsCbrt (0.0883024619 * srgbToLinear (r / 255) + 0.2817188376 * srgbToLinear (g / 255) + 0.6299787005 * srgbToLinear (b / 255)))) * (0.2104542553 * jsCbrt (0.4122214708 * srgbToLinear (r / 255) + 0.5363325363 * srgbToLinear (g / 255) + 0.0514459929 * srgbToLinear (b / 255)) + 0.7936177850 * jsCbrt (0.2119034982 * srgbToLinear (r / 255) + 0.6806995451 * srgbToLinear (g / 255) + 0.1073969566 * srgbToLinear (b / 255)) - 0.0040720468 * jsCbrt (0.0883024619 * srgbToLinear (r / 255) + 0.2817188376 * srgbToLinear (g / 255) + 0.6299787005 * srgbToLinear (b / 255)) - 0.1055613458 * (1.9779984951 * jsCbrt (0.4122214708 * srgbToLinear (r / 255) + 0.5363325363 * srgbToLinear (g / 255) + 0.0514459929 * srgbToLinear (b / 255)) - 2.4285922050 * jsCbrt (0.2119034982 * srgbToLinear (r / 255) + 0.6806995451 * srgbToLinear (g / 255) + 0.1073969566 * srgbToLinear (b / 255)) + 0.4505937099 * jsCbrt (0.0883024619 * srgbToLinear (r / 255) + 0.2817188376 * srgbToLinear (g / 255) + 0.6299787005 * srgbToLinear (b / 255))) - 0.0638541728 * (0.0259040371 * jsCbrt (0.4122214708 * srgbToLinear (r / 255) + 0.5363325363 * srgbToLinear (g / 255) + 0.0514459929 * srgbToLinear (b / 255)) + 0.7827717662 * jsCbrt (0.2119034982 * srgbToLinear (r / 255) + 0.6806995451 * srgbToLinear (g / 255) + 0.1073969566 * srgbToLinear (b / 255)) - 0.8086757660 * jsCbrt (0.0883024619 * srgbToLinear (r / 255) + 0.2817188376 * srgbToLinear (g / 255) + 0.6299787005 * srgbToLinear (b / 255)))) * (0.2104542553 * jsCbrt (0.4122214708 * srgbToLinear (r / 255) + 0.5363325363 * srgbToLinear (g / 255) + 0.0514459929 * srgbToLinear (b / 255)) + 0.7936177850 * jsCbrt (0.2119034982 * srgbToLinear (r / 255) + 0.6806995451 * srgbToLinear (g / 255) + 0.1073969566 * srgbToLinear (b / 255)) - 0.0040720468 * jsCbrt (0.0883024619 * srgbToLinear (r / 255) + 0.2817188376 * srgbToLinear (g / 255) + 0.6299787005 * srgbToLinear (b / 255)) - 0.1055613458 * (1.9779984951 * jsCbrt (0.4122214708 * srgbToLinear (r / 255) + 0.5363325363 * srgbToLinear (g / 255) + 0.0514459929 * srgbToLinear (b / 255)) - 2.4285922050 * jsCbrt (0.2119034982 * srgbToLinear (r / 255) + 0.6806995451 * srgbToLinear (g / 255) + 0.1073969566 * srgbToLinear (b / 255)) + 0.4505937099 * jsCbrt (0.0883024619 * srgbToLinear (r / 255) + 0.2817188376 * srgbToLinear (g / 255) + 0.6299787005 * srgbToLinear (b / 255))) - 0.0638541728 * (0.0259040371 * jsCbrt (0.4122214708 * srgbToLinear (r / 255) + 0.5363325363 * srgbToLinear (g / 255) + 0.0514459929 * srgbToLinear (b / 255)) + 0.7827717662 * jsCbrt (0.2119034982 * srgbToLinear (r / 255) + 0.6806995451 * srgbToLinear (g / 255) + 0.1073969566 * srgbToLinear (b / 255)) - 0.8086757660 * jsCbrt (0.0883024619 * srgbToLinear (r / 255) + 0.2817188376 * srgbToLinear (g / 255) + 0.6299787005 * srgbToLinear (b / 255))))) + 0.2309699292 * ((0.2104542553 * jsCbrt (0.4122214708 * srgbToLinear (r / 255) + 0.5363325363 * srgbToLinear (g / 255) + 0.0514459929 * srgbToLinear (b / 255)) + 0.7936177850 * jsCbrt (0.2119034982 * srgbToLinear (r / 255) + 0.6806995451 * srgbToLinear (g / 255) + 0.1073969566 * srgbToLinear (b / 255)) - 0.0040720468 * jsCbrt (0.0883024619 * srgbToLinear (r / 255) + 0.2817188376 * srgbToLinear (g / 255) + 0.6299787005 * srgbToLinear (b / 255)) - 0.0894841775 * (1.9779984951 * jsCbrt (0.4122214708 * srgbToLinear (r / 255) + 0.5363325363 * srgbToLinear (g / 255) + 0.0514459929 * srgbToLinear (b / 255)) - 2.4285922050 * jsCbrt (0.2119034982 * srgbToLinear (r / 255) + 0.6806995451 * srgbToLinear (g / 255) + 0.1073969566 * srgbToLinear (b / 255)) + 0.4505937099 * jsCbrt (0.0883024619 * srgbToLinear (r / 255) + 0.2817188376 * srgbToLinear (g / 255) + 0.6299787005 * srgbToLinear (b / 255))) - 1.2914855480 * (0.0259040371 * jsCbrt (0.4122214708 * srgbToLinear (r / 255) + 0.5363325363 * srgbToLinear (g / 255) + 0.0514459929 * srgbToLinear (b / 255)) + 0.7827717662 * jsCbrt (0.2119034982 * srgbToLinear (r / 255) + 0.6806995451 * srgbToLinear (g / 255) + 0.1073969566 * srgbToLinear (b / 255)) - 0.8086757660 * jsCbrt (0.0883024619 * srgbToLinear (r / 255) + 0.2817188376 * srgbToLinear (g / 255) + 0.6299787005 * srgbToLinear (b / 255)))) * (0.2104542553 * jsCbrt (0.4122214708 * srgbToLinear (r / 255) + 0.5363325363 * srgbToLinear (g / 255) + 0.0514459929 * srgbToLinear (b / 255)) + 0.7936177850 * jsCbrt (0.2119034982 * srgbToLinear (r / 255) + 0.6806995451 * srgbToLinear (g / 255) + 0.1073969566 * srgbToLinear (b / 255)) - 0.0040720468 * jsCbrt (0.0883024619 * srgbToLinear (r / 255) + 0.2817188376 * srgbToLinear (g / 255) + 0.6299787005 * srgbToLinear (b / 255)) - 0.0894841775 * (1.9779984951 * jsCbrt (0.4122214708 * srgbToLinear (r / 255) + 0.5363325363 * srgbToLinear (g / 255) + 0.0514459929 * srgbToLinear (b / 255)) - 2.4285922050 * jsCbrt (0.2119034982 * srgbToLinear (r / 255) + 0.6806995451 * srgbToLinear (g / 255) + 0.1073969566 * srgbToLinear (b / 255)) + 0.4505937099 * jsCbrt (0.0883024619 * srgbToLinear (r / 255) + 0.2817188376 * srgbToLinear (g / 255) + 0.6299787005 * srgbToLinear (b / 255))) - 1.2914855480 * (0.0259040371 * jsCbrt (0.4122214708 * srgbToLinear (r / 255) + 0.5363325363 * srgbToLinear (g / 255) + 0.0514459929 * srgbToLinear (b / 255)) + 0.7827717662 * jsCbrt (0.2119034982 * srgbToLinear (r / 255) + 0.6806995451 * srgbToLinear (g / 255) + 0.1073969566 * srgbToLinear (b / 255)) - 0.8086757660 * jsCbrt (0.0883024619 * srgbToLinear (r / 255) + 0.2817188376 * srgbToLinear (g / 255) + 0.6299787005 * srgbToLinear (b / 255)))) * (0.2104542553 * jsCbrt (0.4122214708 * srgbToLinear (r / 255) + 0.5363325363 * srgbToLinear (g / 255) + 0.0514459929 * srgbToLinear (b / 255)) + 0.7936177850 * jsCbrt (0.2119034982 * srgbToLinear (r / 255) + 0.6806995451 * srgbToLinear (g / 255) + 0.1073969566 * srgbToLinear (b / 255)) - 0.0040720468 * jsCbrt (0.0883024619 * srgbToLinear (r / 255) + 0.2817188376 * srgbToLinear (g / 255) + 0.6299787005 * srgbToLinear (b / 255)) - 0.0894841775 * (1.9779984951 * jsCbrt (0.4122214708 * srgbToLinear (r / 255) + 0.5363325363 * srgbToLinear (g / 255) + 0.0514459929 * srgbToLinear (b / 255)) - 2.4285922050 * jsCbrt (0.2119034982 * srgbToLinear (r / 255) + 0.6806995451 * srgbToLinear (g / 255) + 0.1073969566 * srgbToLinear (b / 255)) + 0.4505937099 * jsCbrt (0.0883024619 * srgbToLinear (r / 255) + 0.2817188376 * srgbToLinear (g / 255) + 0.6299787005 * srgbToLinear (b / 255))) - 1.2914855480 * (0.0259040371 * jsCbrt (0.4122214708 * srgbToLinear (r / 255) + 0.5363325363 * srgbToLinear (g / 255) + 0.0514459929 * srgbToLinear (b / 255)) + 0.7827717662 * jsCbrt (0.2119034982 * srgbToLinear (r / 255) + 0.6806995451 * srgbToLinear (g / 255) + 0.1073969566 * srgbToLinear (b / 255)) - 0.8086757660 * jsCbrt (0.0883024619 * srgbToLinear (r / 255) + 0.2817188376 * srgbToLinear (g / 255) + 0.6299787005 * srgbToLinear (b / 255)))))) * 255),
        jsRound (linearToSrgb (-1.2684380046 * ((0.2104542553 * jsCbrt (0.4122214708 * srgbToLinear (r / 255) + 0.5363325363 * srgbToLinear (g / 255) + 0.0514459929 * srgbToLinear (b / 255)) + 0.7936177850 * jsCbrt (0.2119034982 * srgbToLinear (r / 255) + 0.6806995451 * srgbToLinear (g / 255) + 0.1073969566 * srgbToLinear (b / 255)) - 0.0040720468 * jsCbrt (0.0883024619 * srgbToLinear (r / 255) + 0.2817188376 * srgbToLinear (g / 255) + 0.6299787005 * srgbToLinear (b / 255)) + 0.3963377774 * (1.9779984951 * jsCbrt (0.4122214708 * srgbToLinear (r / 255) + 0.5363325363 * srgbToLinear (g / 255) + 0.0514459929 * srgbToLinear (b / 255)) - 2.4285922050 * jsCbrt (0.2119034982 * srgbToLinear (r / 255) + 0.6806995451 * srgbToLinear (g / 255) + 0.1073969566 * srgbToLinear (b / 255)) + 0.4505937099 * jsCbrt (0.0883024619 * srgbToLinear (r / 255) + 0.2817188376 * srgbToLinear (g / 255) + 0.6299787005 * srgbToLinear (b / 255))) + 0.2158037573 * (0.0259040371 * jsCbrt (0.4122214708 * srgbToLinear (r / 255) + 0.5363325363 * srgbToLinear (g / 255) + 0.0514459929 * srgbToLinear (b / 255)) + 0.7827717662 * jsCbrt (0.2119034982 * srgbToLinear (r / 255) + 0.6806995451 * srgbToLinear (g / 255) + 0.1073969566 * srgbToLinear (b / 255)) - 0.8086757660 * jsCbrt (0.0883024619 * srgbToLinear (r / 255) + 0.2817188376 * srgbToLinear (g / 255) + 0.6299787005 * srgbToLinear (b / 255)))) * (0.2104542553 * jsCbrt (0.4122214708 * srgbToLinear (r / 255) + 0.5363325363 * srgbToLinear (g / 255) + 0.0514459929 * srgbToLinear (b / 255)) + 0.7936177850 * jsCbrt (0.2119034982 * srgbToLinear (r / 255) + 0.6806995451 * srgbToLinear (g / 255) + 0.1073969566 * srgbToLinear (b / 255)) - 0.0040720468 * jsCbrt (0.0883024619 * srgbToLinear (r / 255) + 0.2817188376 * srgbToLinear (g / 255) + 0.6299787005 * srgbToLinear (b / 255)) + 0.3963377774 * (1.9779984951 * jsCbrt (0.4122214708 * srgbToLinear (r / 255) + 0.5363325363 * srgbToLinear (g / 255) + 0.0514459929 * srgbToLinear (b / 255)) - 2.4285922050 * jsCbrt (0.2119034982 * srgbToLinear (r / 255) + 0.6806995451 * srgbToLinear (g / 255) + 0.1073969566 * srgbToLinear (b / 255)) + 0.4505937099 * jsCbrt (0.0883024619 * srgbToLinear (r / 255) + 0.2817188376 * srgbToLinear (g / 255) + 0.6299787005 * srgbToLinear (b / 255))) + 0.2158037573 * (0.0259040371 * jsCbrt (0.4122214708 * srgbToLinear (r / 255) + 0.5363325363 * srgbToLinear (g / 255) + 0.0514459929 * srgbToLinear (b / 255)) + 0.7827717662 * jsCbrt (0.2119034982 * srgbToLinear (r / 255) + 0.6806995451 * srgbToLinear (g / 255) + 0.1073969566 * srgbToLinear (b / 255)) - 0.8086757660 * jsCbrt (0.0883024619 * srgbToLinear (r / 255) + 0.2817188376 * srgbToLinear (g / 255) + 0.6299787005 * srgbToLinear (b / 255)))) * (0.2104542553 * jsCbrt (0.4122214708 * srgbToLinear (r / 255) + 0.5363325363 * srgbToLinear (g / 255) + 0.0514459929 * srgbToLinear (b / 255)) + 0.7936177850 * jsCbrt (0.2119034982 * srgbToLinear (r / 255) + 0.6806995451 * srgbToLinear (g / 255) + 0.1073969566 * srgbToLinear (b / 255)) - 0.0040720468 * jsCbrt (0.0883024619 * srgbToLinear (r / 255) + 0.2817188376 * srgbToLinear (g / 255) + 0.6299787005 * srgbToLinear (b / 255)) + 0.3963377774 * (1.9779984951 * jsCbrt (0.4122214708 * srgbToLinear (r / 255) + 0.5363325363 * srgbToLinear (g / 255) + 0.0514459929 * srgbToLinear (b / 255)) - 2.4285922050 * jsCbrt (0.2119034982 * srgbToLinear (r / 255) + 0.6806995451 * srgbToLinear (g / 255) + 0.1073969566 * srgbToLinear (b / 255)) + 0.4505937099 * jsCbrt (0.0883024619 * srgbToLinear (r / 255) + 0.2817188376 * srgbToLinear (g / 255) + 0.6299787005 * srgbToLinear (b / 255))) + 0.2158037573 * (0.0259040371 * jsCbrt (0.4122214708 * srgbToLinear (r / 255) + 0.5363325363 * srgbToLinear (g / 255) + 0.0514459929 * srgbToLinear (b / 255)) + 0.7827717662 * jsCbrt (0.2119034982 * srgbToLinear (r / 255) + 0.6806995451 * srgbToLinear (g / 255) + 0.1073969566 * srgbToLinear (b / 255)) - 0.8086757660 * jsCbrt (0.0883024619 * srgbToLinear (r / 255) + 0.2817188376 * srgbToLinear (g / 255) + 0.6299787005 * srgbToLinear (b / 255))))) + 2.6097574011 * ((0.2104542553 * jsCbrt (0.4122214708 * srgbToLinear (r / 255) + 0.5363325363 * srgbToLinear (g / 255) + 0.0514459929 * srgbToLinear (b / 255)) + 0.7936177850 * jsCbrt (0.2119034982 * srgbToLinear (r / 255) + 0.6806995451 * srgbToLinear (g / 255) + 0.1073969566 * srgbToLinear (b / 255)) - 0.0040720468 * jsCbrt (0.0883024619 * srgbToLinear (r / 255) + 0.2817188376 * srgbToLinear (g / 255) + 0.6299787005 * srgbToLinear (b / 255)) - 0.1055613458 * (1.9779984951 * jsCbrt (0.4122214708 * srgbToLinear (r / 255) + 0.5363325363 * srgbToLinear (g / 255) + 0.0514459929 * srgbToLinear (b / 255)) - 2.4285922050 * jsCbrt (0.2119034982 * srgbToLinear (r / 255) + 0.6806995451 * srgbToLinear (g / 255) + 0.1073969566 * srgbToLinear (b / 255)) + 0.4505937099 * jsCbrt (0.0883024619 * srgbToLinear (r / 255) + 0.2817188376 * srgbToLinear (g / 255) + 0.6299787005 * srgbToLinear (b / 255))) - 0.0638541728 * (0.0259040371 * jsCbrt (0.4122214708 * srgbToLinear (r / 255) + 0.5363325363 * srgbToLinear (g / 255) + 0.0514459929 * srgbToLinear (b / 255)) + 0.7827717662 * jsCbrt (0.2119034982 * srgbToLinear (r / 255) + 0.6806995451 * srgbToLinear (g / 255) + 0.1073969566 * srgbToLinear (b / 255)) - 0.8086757660 * jsCbrt (0.0883024619 * srgbToLinear (r / 255) + 0.2817188376 * srgbToLinear (g / 255) + 0.6299787005 * srgbToLinear (b / 255)))) * (0.2104542553 * jsCbrt (0.4122214708 * srgbToLinear (r / 255) + 0.5363325363 * srgbToLinear (g / 255) + 0.0514459929 * srgbToLinear (b / 255)) + 0.7936177850 * jsCbrt (0.2119034982 * srgbToLinear (r / 255) + 0.6806995451 * srgbToLinear (g / 255) + 0.1073969566 * srgbToLinear (b / 255)) - 0.0040720468 * jsCbrt (0.0883024619 * srgbToLinear (r / 255) + 0.2817188376 * srgbToLinear (g / 255) + 0.6299787005 * srgbToLinear (b / 255)) - 0.1055613458 * (1.9779984951 * jsCbrt (0.4122214708 * srgbToLinear (r / 255) + 0.5363325363 * srgbToLinear (g / 255) + 0.0514459929 * srgbToLinear (b / 255)) - 2.4285922050 * jsCbrt (0.2119034982 * srgbToLinear (r / 255) + 0.6806995451 * srgbToLinear (g / 255) + 0.1073969566 * srgbToLinear (b / 255)) + 0.4505937099 * jsCbrt (0.0883024619 * srgbToLinear (r / 255) + 0.2817188376 * srgbToLinear (g / 255) + 0.6299787005 * srgbToLinear (b / 255))) - 0.0638541728 * (0.0259040371 * jsCbrt (0.4122214708 * srgbToLinear (r / 255) + 0.5363325363 * srgbToLinear (g / 255) + 0.0514459929 * srgbToLinear (b / 255)) + 0.7827717662 * jsCbrt (0.2119034982 * srgbToLinear (r / 255) + 0.6806995451 * srgbToLinear (g / 255) + 0.1073969566 * srgbToLinear (b / 255)) - 0.8086757660 * jsCbrt (0.0883024619 * srgbToLinear (r / 255) + 0.2817188376 * srgbToLinear (g / 255) + 0.6299787005 * srgbToLinear (b / 255)))) * (0.2104542553 * jsCbrt (0.4122214708 * srgbToLinear (r / 255) + 0.5363325363 * srgbToLinear (g / 255) + 0.0514459929 * srgbToLinear (b / 255)) + 0.7936177850 * jsCbrt (0.2119034982 * srgbToLinear (r / 255) + 0.6806995451 * srgbToLinear (g / 255) + 0.1073969566 * srgbToLinear (b / 255)) - 0.0040720468 * jsCbrt (0.0883024619 * srgbToLinear (r / 255) + 0.2817188376 * srgbToLinear (g / 255) + 0.6299787005 * srgbToLinear (b / 255)) - 0.1055613458 * (1.9779984951 * jsCbrt (0.4122214708 * srgbToLinear (r / 255) + 0.5363325363 * srgbToLinear (g / 255) + 0.0514459929 * srgbToLinear (b / 255)) - 2.4285922050 * jsCbrt (0.2119034982 * srgbToLinear (r / 255) + 0.6806995451 * srgbToLinear (g / 255) + 0.1073969566 * srgbToLinear (b / 255)) + 0.4505937099 * jsCbrt (0.0883024619 * srgbToLinear (r / 255) + 0.2817188376 * srgbToLinear (g / 255) + 0.6299787005 * srgbToLinear (b / 255))) - 0.0638541728 * (0.0259040371 * jsCbrt (0.4122214708 * srgbToLinear (r / 255) + 0.5363325363 * srgbToLinear (g / 255) + 0.0514459929 * srgbToLinear (b / 255)) + 0.7827717662 * jsCbrt (0.2119034982 * srgbToLinear (r / 255) + 0.6806995451 * srgbToLinear (g / 255) + 0.1073969566 * srgbToLinear (b / 255)) - 0.8086757660 * jsCbrt (0.0883024619 * srgbToLinear (r / 255) + 0.2817188376 * srgbToLinear (g / 255) + 0.6299787005 * srgbToLinear (b / 255))))) - 0.3413193965 * ((0.2104542553 * jsCbrt (0.4122214708 * srgbToLinear (r / 255) + 0.5363325363 * srgbToLinear (g / 255) + 0.0514459929 * srgbToLinear (b / 255)) + 0.7936177850 * jsCbrt (0.2119034982 * srgbToLinear (r / 255) + 0.6806995451 * srgbToLinear (g / 255) + 0.1073969566 * srgbToLinear (b / 255)) - 0.0040720468 * jsCbrt (0.0883024619 * srgbToLinear (r / 255) + 0.2817188376 * srgbToLinear (g / 255) + 0.6299787005 * srgbToLinear (b / 255)) - 0.0894841775 * (1.9779984951 * jsCbrt (0.4122214708 * srgbToLinear (r / 255) + 0.5363325363 * srgbToLinear (g / 255) + 0.0514459929 * srgbToLinear (b / 255)) - 2.4285922050 * jsCbrt (0.2119034982 * srgbToLinear (r / 255) + 0.6806995451 * srgbToLinear (g / 255) + 0.1073969566 * srgbToLinear (b / 255)) + 0.4505937099 * jsCbrt (0.0883024619 * srgbToLinear (r / 255) + 0.2817188376 * srgbToLinear (g / 255) + 0.6299787005 * srgbToLinear (b / 255))) - 1.2914855480 * (0.0259040371 * jsCbrt (0.4122214708 * srgbToLinear (r / 255) + 0.5363325363 * srgbToLinear (g / 255) + 0.0514459929 * srgbToLinear (b / 255)) + 0.7827717662 * jsCbrt (0.2119034982 * srgbToLinear (r / 255) + 0.6806995451 * srgbToLinear (g / 255) + 0.1073969566 * srgbToLinear (b / 255)) - 0.8086757660 * jsCbrt (0.0883024619 * srgbToLinear (r / 255) + 0.2817188376 * srgbToLinear (g / 255) + 0.6299787005 * srgbToLinear (b / 255)))) * (0.2104542553 * jsCbrt (0.4122214708 * srgbToLinear (r / 255) + 0.5363325363 * srgbToLinear (g / 255) + 0.0514459929 * srgbToLinear (b / 255)) + 0.7936177850 * jsCbrt (0.2119034982 * srgbToLinear (r / 255) + 0.6806995451 * srgbToLinear (g / 255) + 0.1073969566 * srgbToLinear (b / 255)) - 0.0040720468 * jsCbrt (0.0883024619 * srgbToLinear (r / 255) + 0.2817188376 * srgbToLinear (g / 255) + 0.6299787005 * srgbToLinear (b / 255)) - 0.0894841775 * (1.9779984951 * jsCbrt (0.4122214708 * srgbToLinear (r / 255) + 0.5363325363 * srgbToLinear (g / 255) + 0.0514459929 * srgbToLinear (b / 255)) - 2.4285922050 * jsCbrt (0.2119034982 * srgbToLinear (r / 255) + 0.6806995451 * srgbToLinear (g / 255) + 0.1073969566 * srgbToLinear (b / 255)) + 0.4505937099 * jsCbrt (0.0883024619 * srgbToLinear (r / 255) + 0.2817188376 * srgbToLinear (g / 255) + 0.6299787005 * srgbToLinear (b / 255))) - 1.2914855480 * (0.0259040371 * jsCbrt (0.4122214708 * srgbToLinear (r / 255) + 0.5363325363 * srgbToLinear (g / 255) + 0.0514459929 * srgbToLinear (b / 255)) + 0.7827717662 * jsCbrt (0.2119034982 * srgbToLinear (r / 255) + 0.6806995451 * srgbToLinear (g / 255) + 0.1073969566 * srgbToLinear (b / 255)) - 0.8086757660 * jsCbrt (0.0883024619 * srgbToLinear (r / 255) + 0.2817188376 * srgbToLinear (g / 255) + 0.6299787005 * srgbToLinear (b / 255)))) * (0.2104542553 * jsCbrt (0.4122214708 * srgbToLinear (r / 255) + 0.5363325363 * srgbToLinear (g / 255) + 0.0514459929 * srgbToLinear (b / 255)) + 0.7936177850 * jsCbrt (0.2119034982 * srgbToLinear (r / 255) + 0.6806995451 * srgbToLinear (g / 255) + 0.1073969566 * srgbToLinear (b / 255)) - 0.0040720468 * jsCbrt (0.0883024619 * srgbToLinear (r / 255) + 0.2817188376 * srgbToLinear (g / 255) + 0.6299787005 * srgbToLinear (b / 255)) - 0.0894841775 * (1.9779984951 * jsCbrt (0.4122214708 * srgbToLinear (r / 255) + 0.5363325363 * srgbToLinear (g / 255) + 0.0514459929 * srgbToLinear (b / 255)) - 2.4285922050 * jsCbrt (0.2119034982 * srgbToLinear (r / 255) + 0.6806995451 * srgbToLinear (g / 255) + 0.1073969566 * srgbToLinear (b / 255)) + 0.4505937099 * jsCbrt (0.0883024619 * srgbToLinear (r / 255) + 0.2817188376 * srgbToLinear (g / 255) + 0.6299787005 * srgbToLinear (b / 255))) - 1.2914855480 * (0.0259040371 * jsCbrt (0.4122214708 * srgbToLinear (r / 255) + 0.5363325363 * srgbToLinear (g / 255) + 0.0514459929 * srgbToLinear (b / 255)) + 0.7827717662 * jsCbrt (0.2119034982 * srgbToLinear (r / 255) + 0.6806995451 * srgbToLinear (g / 255) + 0.1073969566 * srgbToLinear (b / 255)) - 0.8086757660 * jsCbrt (0.0883024619 * srgbToLinear (r / 255) + 0.2817188376 * srgbToLinear (g / 255) + 0.6299787005 * srgbToLinear (b / 255)))))) * 255),
        jsRound (linearToSrgb (-0.0041960863 * ((0.2104542553 * jsCbrt (0.4122214708 * srgbToLinear (r / 255) + 0.5363325363 * srgbToLinear (g / 255) + 0.0514459929 * srgbToLinear (b / 255)) + 0.7936177850 * jsCbrt (0.2119034982 * srgbToLinear (r / 255) + 0.6806995451 * srgbToLinear (g / 255) + 0.1073969566 * srgbToLinear (b / 255)) - 0.0040720468 * jsCbrt (0.0883024619 * srgbToLinear (r / 255) + 0.2817188376 * srgbToLinear (g / 255) + 0.6299787005 * srgbToLinear (b / 255)) + 0.3963377774 * (1.9779984951 * jsCbrt (0.4122214708 * srgbToLinear (r / 255) + 0.5363325363 * srgbToLinear (g / 255) + 0.0514459929 * srgbToLinear (b / 255)) - 2.4285922050 * jsCbrt (0.2119034982 * srgbToLinear (r / 255) + 0.6806995451 * srgbToLinear (g / 255) + 0.1073969566 * srgbToLinear (b / 255)) + 0.4505937099 * jsCbrt (0.0883024619 * srgbToLinear (r / 255) + 0.2817188376 * srgbToLinear (g / 255) + 0.6299787005 * srgbToLinear (b / 255))) + 0.2158037573 * (0.0259040371 * jsCbrt (0.4122214708 * srgbToLinear (r / 255) + 0.5363325363 * srgbToLinear (g / 255) + 0.0514459929 * srgbToLinear (b / 255)) + 0.7827717662 * jsCbrt (0.2119034982 * srgbToLinear (r / 255) + 0.6806995451 * srgbToLinear (g / 255) + 0.1073969566 * srgbToLinear (b / 255)) - 0.8086757660 * jsCbrt (0.0883024619 * srgbToLinear (r / 255) + 0.2817188376 * srgbToLinear (g / 255) + 0.6299787005 * srgbToLinear (b / 255)))) * (0.2104542553 * jsCbrt (0.4122214708 * srgbToLinear (r / 255) + 0.5363325363 * srgbToLinear (g / 255) + 0.0514459929 * srgbToLinear (b / 255)) + 0.7936177850 * jsCbrt (0.2119034982 * srgbToLinear (r / 255) + 0.6806995451 * srgbToLinear (g / 255) + 0.1073969566 * srgbToLinear (b / 255)) - 0.0040720468 * jsCbrt (0.0883024619 * srgbToLinear (r / 255) + 0.2817188376 * srgbToLinear (g / 255) + 0.6299787005 * srgbToLinear (b / 255)) + 0.3963377774 * (1.9779984951 * jsCbrt (0.4122214708 * srgbToLinear (r / 255) + 0.5363325363 * srgbToLinear (g / 255) + 0.0514459929 * srgbToLinear (b / 255)) - 2.4285922050 * jsCbrt (0.2119034982 * srgbToLinear (r / 255) + 0.6806995451 * srgbToLinear (g / 255) + 0.1073969566 * srgbToLinear (b / 255)) + 0.4505937099 * jsCbrt (0.0883024619 * srgbToLinear (r / 255) + 0.2817188376 * srgbToLinear (g / 255) + 0.6299787005 * srgbToLinear (b / 255))) + 0.2158037573 * (0.0259040371 * jsCbrt (0.4122214708 * srgbToLinear (r / 255) + 0.5363325363 * srgbToLinear (g / 255) + 0.0514459929 * srgbToLinear (b / 255)) + 0.7827717662 * jsCbrt (0.2119034982 * srgbToLinear (r / 255) + 0.6806995451 * srgbToLinear (g / 255) + 0.1073969566 * srgbToLinear (b / 255)) - 0.8086757660 * jsCbrt (0.0883024619 * srgbToLinear (r / 255) + 0.2817188376 * srgbToLinear (g / 255) + 0.6299787005 * srgbToLinear (b / 255)))) * (0.2104542553 * jsCbrt (0.4122214708 * srgbToLinear (r / 255) + 0.5363325363 * srgbToLinear (g / 255) + 0.0514459929 * srgbToLinear (b / 255)) + 0.7936177850 * jsCbrt (0.2119034982 * srgbToLinear (r / 255) + 0.6806995451 * srgbToLinear (g / 255) + 0.1073969566 * srgbToLinear (b / 255)) - 0.0040720468 * jsCbrt (0.0883024619 * srgbToLinear (r / 255) + 0.2817188376 * srgbToLinear (g / 255) + 0.6299787005 * srgbToLinear (b / 255)) + 0.3963377774 * (1.9779984951 * jsCbrt (0.4122214708 * srgbToLinear (r / 255) + 0.5363325363 * srgbToLinear (g / 255) + 0.0514459929 * srgbToLinear (b / 255)) - 2.4285922050 * jsCbrt (0.2119034982 * srgbToLinear (r / 255) + 0.6806995451 * srgbToLinear (g / 255) + 0.1073969566 * srgbToLinear (b / 255)) + 0.4505937099 * jsCbrt (0.0883024619 * srgbToLinear (r / 255) + 0.2817188376 * srgbToLinear (g / 255) + 0.6299787005 * srgbToLinear (b / 255))) + 0.2158037573 * (0.0259040371 * jsCbrt (0.4122214708 * srgbToLinear (r / 255) + 0.5363325363 * srgbToLinear (g / 255) + 0.0514459929 * srgbToLinear (b / 255)) + 0.7827717662 * jsCbrt (0.2119034982 * srgbToLinear (r / 255) + 0.6806995451 * srgbToLinear (g / 255) + 0.1073969566 * srgbToLinear (b / 255)) - 0.8086757660 * jsCbrt (0.0883024619 * srgbToLinear (r / 255) + 0.2817188376 * srgbToLinear (g / 255) + 0.6299787005 * srgbToLinear (b / 255))))) - 0.7034186147 * ((0.2104542553 * jsCbrt (0.4122214708 * srgbToLinear (r / 255) + 0.5363325363 * srgbToLinear (g / 255) + 0.0514459929 * srgbToLinear (b / 255)) + 0.7936177850 * jsCbrt (0.2119034982 * srgbToLinear (r / 255) + 0.6806995451 * srgbToLinear (g / 255) + 0.1073969566 * srgbToLinear (b / 255)) - 0.0040720468 * jsCbrt (0.0883024619 * srgbToLinear (r / 255) + 0.2817188376 * srgbToLinear (g / 255) + 0.6299787005 * srgbToLinear (b / 255)) - 0.1055613458 * (1.9779984951 * jsCbrt (0.4122214708 * srgbToLinear (r / 255) + 0.5363325363 * srgbToLinear (g / 255) + 0.0514459929 * srgbToLinear (b / 255)) - 2.4285922050 * jsCbrt (0.2119034982 * srgbToLinear (r / 255) + 0.6806995451 * srgbToLinear (g / 255) + 0.1073969566 * srgbToLinear (b / 255)) + 0.4505937099 * jsCbrt (0.0883024619 * srgbToLinear (r / 255) + 0.2817188376 * srgbToLinear (g / 255) + 0.6299787005 * srgbToLinear (b / 255))) - 0.0638541728 * (0.0259040371 * jsCbrt (0.4122214708 * srgbToLinear (r / 255) + 0.5363325363 * srgbToLinear (g / 255) + 0.0514459929 * srgbToLinear (b / 255)) + 0.7827717662 * jsCbrt (0.2119034982 * srgbToLinear (r / 255) + 0.6806995451 * srgbToLinear (g / 255) + 0.1073969566 * srgbToLinear (b / 255)) - 0.8086757660 * jsCbrt (0.0883024619 * srgbToLinear (r / 255) + 0.2817188376 * srgbToLinear (g / 255) + 0.6299787005 * srgbToLinear (b / 255)))) * (0.2104542553 * jsCbrt (0.4122214708 * srgbToLinear (r / 255) + 0.5363325363 * srgbToLinear (g / 255) + 0.0514459929 * srgbToLinear (b / 255)) + 0.7936177850 * jsCbrt (0.2119034982 * srgbToLinear (r / 255) + 0.6806995451 * srgbToLinear (g / 255) + 0.1073969566 * srgbToLinear (b / 255)) - 0.0040720468 * jsCbrt (0.0883024619 * srgbToLinear (r / 255) + 0.2817188376 * srgbToLinear (g / 255) + 0.6299787005 * srgbToLinear (b / 255)) - 0.1055613458 * (1.9779984951 * jsCbrt (0.4122214708 * srgbToLinear (r / 255) + 0.5363325363 * srgbToLinear (g / 255) + 0.0514459929 * srgbToLinear (b / 255)) - 2.4285922050 * jsCbrt (0.2119034982 * srgbToLinear (r / 255) + 0.6806995451 * srgbToLinear (g / 255) + 0.1073969566 * srgbToLinear (b / 255)) + 0.4505937099 * jsCbrt (0.0883024619 * srgbToLinear (r / 255) + 0.2817188376 * srgbToLinear (g / 255) + 0.6299787005 * srgbToLinear (b / 255))) - 0.0638541728 * (0.0259040371 * jsCbrt (0.4122214708 * srgbToLinear (r / 255) + 0.5363325363 * srgbToLinear (g / 255) + 0.0514459929 * srgbToLinear (b / 255)) + 0.7827717662 * jsCbrt (0.2119034982 * srgbToLinear (r / 255) + 0.6806995451 * srgbToLinear (g / 255) + 0.1073969566 * srgbToLinear (b / 255)) - 0.8086757660 * jsCbrt (0.0883024619 * srgbToLinear (r / 255) + 0.2817188376 * srgbToLinear (g / 255) + 0.6299787005 * srgbToLinear (b / 255)))) * (0.2104542553 * jsCbrt (0.4122214708 * srgbToLinear (r / 255) + 0.5363325363 * srgbToLinear (g / 255) + 0.0514459929 * srgbToLinear (b / 255)) + 0.7936177850 * jsCbrt (0.2119034982 * srgbToLinear (r / 255) + 0.6806995451 * srgbToLinear (g / 255) + 0.1073969566 * srgbToLinear (b / 255)) - 0.0040720468 * jsCbrt (0.0883024619 * srgbToLinear (r / 255) + 0.2817188376 * srgbToLinear (g / 255) + 0.6299787005 * srgbToLinear (b / 255)) - 0.1055613458 * (1.9779984951 * jsCbrt (0.4122214708 * srgbToLinear (r / 255) + 0.5363325363 * srgbToLinear (g / 255) + 0.0514459929 * srgbToLinear (b / 255)) - 2.4285922050 * jsCbrt (0.2119034982 * srgbToLinear (r / 255) + 0.6806995451 * srgbToLinear (g / 255) + 0.1073969566 * srgbToLinear (b / 255)) + 0.4505937099 * jsCbrt (0.0883024619 * srgbToLinear (r / 255) + 0.2817188376 * srgbToLinear (g / 255) + 0.6299787005 * srgbToLinear (b / 255))) - 0.0638541728 * (0.0259040371 * jsCbrt (0.4122214708 * srgbToLinear (r / 255) + 0.5363325363 * srgbToLinear (g / 255) + 0.0514459929 * srgbToLinear (b / 255)) + 0.7827717662 * jsCbrt (0.2119034982 * srgbToLinear (r / 255) + 0.6806995451 * srgbToLinear (g / 255) + 0.1073969566 * srgbToLinear (b / 255)) - 0.8086757660 * jsCbrt (0.0883024619 * srgbToLinear (r / 255) + 0.2817188376 * srgbToLinear (g / 255) + 0.6299787005 * srgbToLinear (b / 255))))) + 1.7076147010 * ((0.2104542553 * jsCbrt (0.4122214708 * srgbToLinear (r / 255) + 0.5363325363 * srgbToLinear (g / 255) + 0.0514459929 * srgbToLinear (b / 255)) + 0.7936177850 * jsCbrt (0.2119034982 * srgbToLinear (r / 255) + 0.6806995451 * srgbToLinear (g / 255) + 0.1073969566 * srgbToLinear (b / 255)) - 0.0040720468 * jsCbrt (0.0883024619 * srgbToLinear (r / 255) + 0.2817188376 * srgbToLinear (g / 255) + 0.6299787005 * srgbToLinear (b / 255)) - 0.0894841775 * (1.9779984951 * jsCbrt (0.4122214708 * srgbToLinear (r / 255) + 0.5363325363 * srgbToLinear (g / 255) + 0.0514459929 * srgbToLinear (b / 255)) - 2.4285922050 * jsCbrt (0.2119034982 * srgbToLinear (r / 255) + 0.6806995451 * srgbToLinear (g / 255) + 0.1073969566 * srgbToLinear (b / 255)) + 0.4505937099 * jsCbrt (0.0883024619 * srgbToLinear (r / 255) + 0.2817188376 * srgbToLinear (g / 255) + 0.6299787005 * srgbToLinear (b / 255))) - 1.2914855480 * (0.0259040371 * jsCbrt (0.4122214708 * srgbToLinear (r / 255) + 0.5363325363 * srgbToLinear (g / 255) + 0.0514459929 * srgbToLinear (b / 255)) + 0.7827717662 * jsCbrt (0.2119034982 * srgbToLinear (r / 255) + 0.6806995451 * srgbToLinear (g / 255) + 0.1073969566 * srgbToLinear (b / 255)) - 0.8086757660 * jsCbrt (0.0883024619 * srgbToLinear (r / 255) + 0.2817188376 * srgbToLinear (g / 255) + 0.6299787005 * srgbToLinear (b / 255)))) * (0.2104542553 * jsCbrt (0.4122214708 * srgbToLinear (r / 255) + 0.5363325363 * srgbToLinear (g / 255) + 0.0514459929 * srgbToLinear (b / 255)) + 0.7936177850 * jsCbrt (0.2119034982 * srgbToLinear (r / 255) + 0.6806995451 * srgbToLinear (g / 255) + 0.1073969566 * srgbToLinear (b / 255)) - 0.0040720468 * jsCbrt (0.0883024619 * srgbToLinear (r / 255) + 0.2817188376 * srgbToLinear (g / 255) + 0.6299787005 * srgbToLinear (b / 255)) - 0.0894841775 * (1.9779984951 * jsCbrt (0.4122214708 * srgbToLinear (r / 255) + 0.5363325363 * srgbToLinear (g / 255) + 0.0514459929 * srgbToLinear (b / 255)) - 2.4285922050 * jsCbrt (0.2119034982 * srgbToLinear (r / 255) + 0.6806995451 * srgbToLinear (g / 255) + 0.1073969566 * srgbToLinear (b / 255)) + 0.4505937099 * jsCbrt (0.0883024619 * srgbToLinear (r / 255) + 0.2817188376 * srgbToLinear (g / 255) + 0.6299787005 * srgbToLinear (b / 255))) - 1.2914855480 * (0.0259040371 * jsCbrt (0.4122214708 * srgbToLinear (r / 255) + 0.5363325363 * srgbToLinear (g / 255) + 0.0514459929 * srgbToLinear (b / 255)) + 0.7827717662 * jsCbrt (0.2119034982 * srgbToLinear (r / 255) + 0.6806995451 * srgbToLinear (g / 255) + 0.1073969566 * srgbToLinear (b / 255)) - 0.8086757660 * jsCbrt (0.0883024619 * srgbToLinear (r / 255) + 0.2817188376 * srgbToLinear (g / 255) + 0.6299787005 * srgbToLinear (b / 255)))) * (0.2104542553 * jsCbrt (0.4122214708 * srgbToLinear (r / 255) + 0.5363325363 * srgbToLinear (g / 255) + 0.0514459929 * srgbToLinear (b / 255)) + 0.7936177850 * jsCbrt (0.2119034982 * srgbToLinear (r / 255) + 0.6806995451 * srgbToLinear (g / 255) + 0.1073969566 * srgbToLinear (b / 255)) - 0.0040720468 * jsCbrt (0.0883024619 * srgbToLinear (r / 255) + 0.2817188376 * srgbToLinear (g / 255) + 0.6299787005 * srgbToLinear (b / 255)) - 0.0894841775 * (1.9779984951 * jsCbrt (0.4122214708 * srgbToLinear (r / 255) + 0.5363325363 * srgbToLinear (g / 255) + 0.0514459929 * srgbToLinear (b / 255)) - 2.4285922050 * jsCbrt (0.2119034982 * srgbToLinear (r / 255) + 0.6806995451 * srgbToLinear (g / 255) + 0.1073969566 * srgbToLinear (b / 255)) + 0.4505937099 * jsCbrt (0.0883024619 * srgbToLinear (r / 255) + 0.2817188376 * srgbToLinear (g / 255) + 0.6299787005 * srgbToLinear (b / 255))) - 1.2914855480 * (0.0259040371 * jsCbrt (0.4122214708 * srgbToLinear (r / 255) + 0.5363325363 * srgbToLinear (g / 255) + 0.0514459929 * srgbToLinear (b / 255)) + 0.7827717662 * jsCbrt (0.2119034982 * srgbToLinear (r / 255) + 0.6806995451 * srgbToLinear (g / 255) + 0.1073969566 * srgbToLinear (b / 255)) - 0.8086757660 * jsCbrt (0.0883024619 * srgbToLinear (r / 255) + 0.2817188376 * srgbToLinear (g / 255) + 0.6299787005 * srgbToLinear (b / 255)))))) * 255)) := rfl

set_option maxHeartbeats 4000000 in
-- The full-gamut Oklab round trip: every 8-bit channel triple re-rounds to
-- itself. The cube-root atoms are perturbed only by the deviation of the
-- rounded matrix products from the identity, which the bounds below carry
-- through the cube and the transfer function.
theorem oklab_roundtrip (cr cg cb : ℕ) (hcr : cr ≤ 255) (hcg : cg ≤ 255)
    (hcb : cb ≤ 255) :
    oklabToRgb (rgbToOklab ((cr : ℕ) : ℝ) ((cg : ℕ) : ℝ) ((cb : ℕ) : ℝ)).L
        (rgbToOklab ((cr : ℕ) : ℝ) ((cg : ℕ) : ℝ) ((cb : ℕ) : ℝ)).a
        (rgbToOklab ((cr : ℕ) : ℝ) ((cg : ℕ) : ℝ) ((cb : ℕ) : ℝ)).b =
      (((cr : ℕ) : ℤ), ((cg : ℕ) : ℤ), ((cb : ℕ) : ℤ)) := by
  have hfr := channel_linear_facts cr hcr
  have hfg := channel_linear_facts cg hcg
  have hfb := channel_linear_facts cb hcb
  obtain ⟨hx1a, hx1b, hback1, hbr1⟩ := hfr
  obtain ⟨hx2a, hx2b, hback2, hbr2⟩ := hfg
  obtain ⟨hx3a, hx3b, hback3, hbr3⟩ := hfb
  rw [roundtrip_as]
  set x1 : ℝ := srgbToLinear ((cr : ℝ) / 255) with hx1d
  set x2 : ℝ := srgbToLinear ((cg : ℝ) / 255) with hx2d
  set x3 : ℝ := srgbToLinear ((cb : ℝ) / 255) with hx3d
  set u1 : ℝ := jsCbrt (0.4122214708 * x1 + 0.5363325363 * x2 + 0.0514459929 * x3) with hu1d
  set u2 : ℝ := jsCbrt (0.2119034982 * x1 + 0.6806995451 * x2 + 0.1073969566 * x3) with hu2d
  set u3 : ℝ := jsCbrt (0.0883024619 * x1 + 0.2817188376 * x2 + 0.6299787005 * x3) with hu3d
  have hm1 : 0 ≤ 0.4122214708 * x1 + 0.5363325363 * x2 + 0.0514459929 * x3 ∧ 0.4122214708 * x1 + 0.5363325363 * x2 + 0.0514459929 * x3 ≤ 1 :=
    ⟨by linarith only [hx1a, hx1b, hx2a, hx2b, hx3a, hx3b], by linarith only [hx1a, hx1b, hx2a, hx2b, hx3a, hx3b]⟩
  have hm2 : 0 ≤ 0.2119034982 * x1 + 0.6806995451 * x2 + 0.1073969566 * x3 ∧ 0.2119034982 * x1 + 0.6806995451 * x2 + 0.1073969566 * x3 ≤ 1 :=
    ⟨by linarith only [hx1a, hx1b, hx2a, hx2b, hx3a, hx3b], by linarith only [hx1a, hx1b, hx2a, hx2b, hx3a, hx3b]⟩
  have hm3 : 0 ≤ 0.0883024619 * x1 + 0.2817188376 * x2 + 0.6299787005 * x3 ∧ 0.0883024619 * x1 + 0.2817188376 * x2 + 0.6299787005 * x3 ≤ 1 :=
    ⟨by linarith only [hx1a, hx1b, hx2a, hx2b, hx3a, hx3b], by linarith only [hx1a, hx1b, hx2a, hx2b, hx3a, hx3b]⟩
  have hcu1 : u1 * u1 * u1 = 0.4122214708 * x1 + 0.5363325363 * x2 + 0.0514459929 * x3 := by
    rw [hu1d]
    exact jsCbrt_cube _ hm1.1
  have hcu2 : u2 * u2 * u2 = 0.2119034982 * x1 + 0.6806995451 * x2 + 0.1073969566 * x3 := by
    rw [hu2d]
    exact jsCbrt_cube _ hm2.1
  have hcu3 : u3 * u3 * u3 = 0.0883024619 * x1 + 0.2817188376 * x2 + 0.6299787005 * x3 := by
    rw [hu3d]
    exact jsCbrt_cube _ hm3.1
  have hub1 : 0 ≤ u1 ∧ u1 ≤ 1 := by
    rw [hu1d]
    exact ⟨jsCbrt_nonneg _ hm1.1, jsCbrt_le_one _ hm1.1 hm1.2⟩
  have hub2 : 0 ≤ u2 ∧ u2 ≤ 1 := by
    rw [hu2d]
    exact ⟨jsCbrt_nonneg _ hm2.1, jsCbrt_le_one _ hm2.1 hm2.2⟩
  have hub3 : 0 ≤ u3 ∧ u3 ≤ 1 := by
    rw [hu3d]
    exact ⟨jsCbrt_nonneg _ hm3.1, jsCbrt_le_one _ hm3.1 hm3.2⟩
  have hd1 : u1 - 0.000000072 ≤ (0.2104542553 * u1 + 0.7936177850 * u2 - 0.0040720468 * u3 + 0.3963377774 * (1.9779984951 * u1 - 2.4285922050 * u2 + 0.4505937099 * u3) + 0.2158037573 * (0.0259040371 * u1 + 0.7827717662 * u2 - 0.8086757660 * u3)) ∧ (0.2104542553 * u1 + 0.7936177850 * u2 - 0.0040720468 * u3 + 0.3963377774 * (1.9779984951 * u1 - 2.4285922050 * u2 + 0.4505937099 * u3) + 0.2158037573 * (0.0259040371 * u1 + 0.7827717662 * u2 - 0.8086757660 * u3)) ≤ u1 + 0.000000072 :=
    ⟨by linarith only [hub1.1, hub1.2, hub2.1, hub2.2, hub3.1, hub3.2], by linarith only [hub1.1, hub1.2, hub2.1, hub2.2, hub3.1, hub3.2]⟩
  have hd2 : u2 - 0.000000015 ≤ (0.2104542553 * u1 + 0.7936177850 * u2 - 0.0040720468 * u3 - 0.1055613458 * (1.9779984951 * u1 - 2.4285922050 * u2 + 0.4505937099 * u3) - 0.0638541728 * (0.0259040371 * u1 + 0.7827717662 * u2 - 0.8086757660 * u3)) ∧ (0.2104542553 * u1 + 0.7936177850 * u2 - 0.0040720468 * u3 - 0.1055613458 * (1.9779984951 * u1 - 2.4285922050 * u2 + 0.4505937099 * u3) - 0.0638541728 * (0.0259040371 * u1 + 0.7827717662 * u2 - 0.8086757660 * u3)) ≤ u2 + 0.000000015 :=
    ⟨by linarith only [hub1.1, hub1.2, hub2.1, hub2.2, hub3.1, hub3.2], by linarith only [hub1.1, hub1.2, hub2.1, hub2.2, hub3.1, hub3.2]⟩
  have hd3 : u3 - 0.000000076 ≤ (0.2104542553 * u1 + 0.7936177850 * u2 - 0.0040720468 * u3 - 0.0894841775 * (1.9779984951 * u1 - 2.4285922050 * u2 + 0.4505937099 * u3) - 1.2914855480 * (0.0259040371 * u1 + 0.7827717662 * u2 - 0.8086757660 * u3)) ∧ (0.2104542553 * u1 + 0.7936177850 * u2 - 0.0040720468 * u3 - 0.0894841775 * (1.9779984951 * u1 - 2.4285922050 * u2 + 0.4505937099 * u3) - 1.2914855480 * (0.0259040371 * u1 + 0.7827717662 * u2 - 0.8086757660 * u3)) ≤ u3 + 0.000000076 :=
    ⟨by linarith only [hub1.1, hub1.2, hub2.1, hub2.2, hub3.1, hub3.2], by linarith only [hub1.1, hub1.2, hub2.1, hub2.2, hub3.1, hub3.2]⟩
  have hq1 : 0.4122214708 * x1 + 0.5363325363 * x2 + 0.0514459929 * x3 - 0.00000022 ≤ ((0.2104542553 * u1 + 0.7936177850 * u2 - 0.0040720468 * u3 + 0.3963377774 * (1.9779984951 * u1 - 2.4285922050 * u2 + 0.4505937099 * u3) + 0.2158037573 * (0.0259040371 * u1 + 0.7827717662 * u2 - 0.8086757660 * u3)) * (0.2104542553 * u1 + 0.7936177850 * u2 - 0.0040720468 * u3 + 0.3963377774 * (1.9779984951 * u1 - 2.4285922050 * u2 + 0.4505937099 * u3) + 0.2158037573 * (0.0259040371 * u1 + 0.7827717662 * u2 - 0.8086757660 * u3)) * (0.2104542553 * u1 + 0.7936177850 * u2 - 0.0040720468 * u3 + 0.3963377774 * (1.9779984951 * u1 - 2.4285922050 * u2 + 0.4505937099 * u3) + 0.2158037573 * (0.0259040371 * u1 + 0.7827717662 * u2 - 0.8086757660 * u3))) ∧
      ((0.2104542553 * u1 + 0.7936177850 * u2 - 0.0040720468 * u3 + 0.3963377774 * (1.9779984951 * u1 - 2.4285922050 * u2 + 0.4505937099 * u3) + 0.2158037573 * (0.0259040371 * u1 + 0.7827717662 * u2 - 0.8086757660 * u3)) * (0.2104542553 * u1 + 0.7936177850 * u2 - 0.0040720468 * u3 + 0.3963377774 * (1.9779984951 * u1 - 2.4285922050 * u2 + 0.4505937099 * u3) + 0.2158037573 * (0.0259040371 * u1 + 0.7827717662 * u2 - 0.8086757660 * u3)) * (0.2104542553 * u1 + 0.7936177850 * u2 - 0.0040720468 * u3 + 0.3963377774 * (1.9779984951 * u1 - 2.4285922050 * u2 + 0.4505937099 * u3) + 0.2158037573 * (0.0259040371 * u1 + 0.7827717662 * u2 - 0.8086757660 * u3))) ≤ 0.4122214708 * x1 + 0.5363325363 * x2 + 0.0514459929 * x3 + 0.00000022 := by
    have m1 := cube_mono (u1 - 0.000000072) ((0.2104542553 * u1 + 0.7936177850 * u2 - 0.0040720468 * u3 + 0.3963377774 * (1.9779984951 * u1 - 2.4285922050 * u2 + 0.4505937099 * u3) + 0.2158037573 * (0.0259040371 * u1 + 0.7827717662 * u2 - 0.8086757660 * u3))) hd1.1
    have m2 := cube_mono ((0.2104542553 * u1 + 0.7936177850 * u2 - 0.0040720468 * u3 + 0.3963377774 * (1.9779984951 * u1 - 2.4285922050 * u2 + 0.4505937099 * u3) + 0.2158037573 * (0.0259040371 * u1 + 0.7827717662 * u2 - 0.8086757660 * u3))) (u1 + 0.000000072) hd1.2
    constructor
    · nlinarith only [m1, hcu1, hub1.1, hub1.2]
    · nlinarith only [m2, hcu1, hub1.1, hub1.2]
  have hq2 : 0.2119034982 * x1 + 0.6806995451 * x2 + 0.1073969566 * x3 - 0.000000046 ≤ ((0.2104542553 * u1 + 0.7936177850 * u2 - 0.0040720468 * u3 - 0.1055613458 * (1.9779984951 * u1 - 2.4285922050 * u2 + 0.4505937099 * u3) - 0.0638541728 * (0.0259040371 * u1 + 0.7827717662 * u2 - 0.8086757660 * u3)) * (0.2104542553 * u1 + 0.7936177850 * u2 - 0.0040720468 * u3 - 0.1055613458 * (1.9779984951 * u1 - 2.4285922050 * u2 + 0.4505937099 * u3) - 0.0638541728 * (0.0259040371 * u1 + 0.7827717662 * u2 - 0.8086757660 * u3)) * (0.2104542553 * u1 + 0.7936177850 * u2 - 0.0040720468 * u3 - 0.1055613458 * (1.9779984951 * u1 - 2.4285922050 * u2 + 0.4505937099 * u3) - 0.0638541728 * (0.0259040371 * u1 + 0.7827717662 * u2 - 0.8086757660 * u3))) ∧
      ((0.2104542553 * u1 + 0.7936177850 * u2 - 0.0040720468 * u3 - 0.1055613458 * (1.9779984951 * u1 - 2.4285922050 * u2 + 0.4505937099 * u3) - 0.0638541728 * (0.0259040371 * u1 + 0.7827717662 * u2 - 0.8086757660 * u3)) * (0.2104542553 * u1 + 0.7936177850 * u2 - 0.0040720468 * u3 - 0.1055613458 * (1.9779984951 * u1 - 2.4285922050 * u2 + 0.4505937099 * u3) - 0.0638541728 * (0.0259040371 * u1 + 0.7827717662 * u2 - 0.8086757660 * u3)) * (0.2104542553 * u1 + 0.7936177850 * u2 - 0.0040720468 * u3 - 0.1055613458 * (1.9779984951 * u1 - 2.4285922050 * u2 + 0.4505937099 * u3) - 0.0638541728 * (0.0259040371 * u1 + 0.7827717662 * u2 - 0.8086757660 * u3))) ≤ 0.2119034982 * x1 + 0.6806995451 * x2 + 0.1073969566 * x3 + 0.000000046 := by
    have m1 := cube_mono (u2 - 0.000000015) ((0.2104542553 * u1 + 0.7936177850 * u2 - 0.0040720468 * u3 - 0.1055613458 * (1.9779984951 * u1 - 2.4285922050 * u2 + 0.4505937099 * u3) - 0.0638541728 * (0.0259040371 * u1 + 0.7827717662 * u2 - 0.8086757660 * u3))) hd2.1
    have m2 := cube_mono ((0.2104542553 * u1 + 0.7936177850 * u2 - 0.0040720468 * u3 - 0.1055613458 * (1.9779984951 * u1 - 2.4285922050 * u2 + 0.4505937099 * u3) - 0.0638541728 * (0.0259040371 * u1 + 0.7827717662 * u2 - 0.8086757660 * u3))) (u2 + 0.000000015) hd2.2
    constructor
    · nlinarith only [m1, hcu2, hub2.1, hub2.2]
    · nlinarith only [m2, hcu2, hub2.1, hub2.2]
  have hq3 : 0.0883024619 * x1 + 0.2817188376 * x2 + 0.6299787005 * x3 - 0.00000023 ≤ ((0.2104542553 * u1 + 0.7936177850 * u2 - 0.0040720468 * u3 - 0.0894841775 * (1.9779984951 * u1 - 2.4285922050 * u2 + 0.4505937099 * u3) - 1.2914855480 * (0.0259040371 * u1 + 0.7827717662 * u2 - 0.8086757660 * u3)) * (0.2104542553 * u1 + 0.7936177850 * u2 - 0.0040720468 * u3 - 0.0894841775 * (1.9779984951 * u1 - 2.4285922050 * u2 + 0.4505937099 * u3) - 1.2914855480 * (0.0259040371 * u1 + 0.7827717662 * u2 - 0.8086757660 * u3)) * (0.2104542553 * u1 + 0.7936177850 * u2 - 0.0040720468 * u3 - 0.0894841775 * (1.9779984951 * u1 - 2.4285922050 * u2 + 0.4505937099 * u3) - 1.2914855480 * (0.0259040371 * u1 + 0.7827717662 * u2 - 0.8086757660 * u3))) ∧
      ((0.2104542553 * u1 + 0.7936177850 * u2 - 0.0040720468 * u3 - 0.0894841775 * (1.9779984951 * u1 - 2.4285922050 * u2 + 0.4505937099 * u3) - 1.2914855480 * (0.0259040371 * u1 + 0.7827717662 * u2 - 0.8086757660 * u3)) * (0.2104542553 * u1 + 0.7936177850 * u2 - 0.0040720468 * u3 - 0.0894841775 * (1.9779984951 * u1 - 2.4285922050 * u2 + 0.4505937099 * u3) - 1.2914855480 * (0.0259040371 * u1 + 0.7827717662 * u2 - 0.8086757660 * u3)) * (0.2104542553 * u1 + 0.7936177850 * u2 - 0.0040720468 * u3 - 0.0894841775 * (1.9779984951 * u1 - 2.4285922050 * u2 + 0.4505937099 * u3) - 1.2914855480 * (0.0259040371 * u1 + 0.7827717662 * u2 - 0.8086757660 * u3))) ≤ 0.0883024619 * x1 + 0.2817188376 * x2 + 0.6299787005 * x3 + 0.00000023 := by
    have m1 := cube_mono (u3 - 0.000000076) ((0.2104542553 * u1 + 0.7936177850 * u2 - 0.0040720468 * u3 - 0.0894841775 * (1.9779984951 * u1 - 2.4285922050 * u2 + 0.4505937099 * u3) - 1.2914855480 * (0.0259040371 * u1 + 0.7827717662 * u2 - 0.8086757660 * u3))) hd3.1
    have m2 := cube_mono ((0.2104542553 * u1 + 0.7936177850 * u2 - 0.0040720468 * u3 - 0.0894841775 * (1.9779984951 * u1 - 2.4285922050 * u2 + 0.4505937099 * u3) - 1.2914855480 * (0.0259040371 * u1 + 0.7827717662 * u2 - 0.8086757660 * u3))) (u3 + 0.000000076) hd3.2
    constructor
    · nlinarith only [m1, hcu3, hub3.1, hub3.2]
    · nlinarith only [m2, hcu3, hub3.1, hub3.2]
  have hE1 : x1 - 0.000002 ≤ 4.0767416621 * ((0.2104542553 * u1 + 0.7936177850 * u2 - 0.0040720468 * u3 + 0.3963377774 * (1.9779984951 * u1 - 2.4285922050 * u2 + 0.4505937099 * u3) + 0.2158037573 * (0.0259040371 * u1 + 0.7827717662 * u2 - 0.8086757660 * u3)) * (0.2104542553 * u1 + 0.7936177850 * u2 - 0.0040720468 * u3 + 0.3963377774 * (1.9779984951 * u1 - 2.4285922050 * u2 + 0.4505937099 * u3) + 0.2158037573 * (0.0259040371 * u1 + 0.7827717662 * u2 - 0.8086757660 * u3)) * (0.2104542553 * u1 + 0.7936177850 * u2 - 0.0040720468 * u3 + 0.3963377774 * (1.9779984951 * u1 - 2.4285922050 * u2 + 0.4505937099 * u3) + 0.2158037573 * (0.0259040371 * u1 + 0.7827717662 * u2 - 0.8086757660 * u3))) - 3.3077115913 * ((0.2104542553 * u1 + 0.7936177850 * u2 - 0.0040720468 * u3 - 0.1055613458 * (1.9779984951 * u1 - 2.4285922050 * u2 + 0.4505937099 * u3) - 0.0638541728 * (0.0259040371 * u1 + 0.7827717662 * u2 - 0.8086757660 * u3)) * (0.2104542553 * u1 + 0.7936177850 * u2 - 0.0040720468 * u3 - 0.1055613458 * (1.9779984951 * u1 - 2.4285922050 * u2 + 0.4505937099 * u3) - 0.0638541728 * (0.0259040371 * u1 + 0.7827717662 * u2 - 0.8086757660 * u3)) * (0.2104542553 * u1 + 0.7936177850 * u2 - 0.0040720468 * u3 - 0.1055613458 * (1.9779984951 * u1 - 2.4285922050 * u2 + 0.4505937099 * u3) - 0.0638541728 * (0.0259040371 * u1 + 0.7827717662 * u2 - 0.8086757660 * u3))) + 0.2309699292 * ((0.2104542553 * u1 + 0.7936177850 * u2 - 0.0040720468 * u3 - 0.0894841775 * (1.9779984951 * u1 - 2.4285922050 * u2 + 0.4505937099 * u3) - 1.2914855480 * (0.0259040371 * u1 + 0.7827717662 * u2 - 0.8086757660 * u3)) * (0.2104542553 * u1 + 0.7936177850 * u2 - 0.0040720468 * u3 - 0.0894841775 * (1.9779984951 * u1 - 2.4285922050 * u2 + 0.4505937099 * u3) - 1.2914855480 * (0.0259040371 * u1 + 0.7827717662 * u2 - 0.8086757660 * u3)) * (0.2104542553 * u1 + 0.7936177850 * u2 - 0.0040720468 * u3 - 0.0894841775 * (1.9779984951 * u1 - 2.4285922050 * u2 + 0.4505937099 * u3) - 1.2914855480 * (0.0259040371 * u1 + 0.7827717662 * u2 - 0.8086757660 * u3))) ∧
      4.0767416621 * ((0.2104542553 * u1 + 0.7936177850 * u2 - 0.0040720468 * u3 + 0.3963377774 * (1.9779984951 * u1 - 2.4285922050 * u2 + 0.4505937099 * u3) + 0.2158037573 * (0.0259040371 * u1 + 0.7827717662 * u2 - 0.8086757660 * u3)) * (0.2104542553 * u1 + 0.7936177850 * u2 - 0.0040720468 * u3 + 0.3963377774 * (1.9779984951 * u1 - 2.4285922050 * u2 + 0.4505937099 * u3) + 0.2158037573 * (0.0259040371 * u1 + 0.7827717662 * u2 - 0.8086757660 * u3)) * (0.2104542553 * u1 + 0.7936177850 * u2 - 0.0040720468 * u3 + 0.3963377774 * (1.9779984951 * u1 - 2.4285922050 * u2 + 0.4505937099 * u3) + 0.2158037573 * (0.0259040371 * u1 + 0.7827717662 * u2 - 0.8086757660 * u3))) - 3.3077115913 * ((0.2104542553 * u1 + 0.7936177850 * u2 - 0.0040720468 * u3 - 0.1055613458 * (1.9779984951 * u1 - 2.4285922050 * u2 + 0.4505937099 * u3) - 0.0638541728 * (0.0259040371 * u1 + 0.7827717662 * u2 - 0.8086757660 * u3)) * (0.2104542553 * u1 + 0.7936177850 * u2 - 0.0040720468 * u3 - 0.1055613458 * (1.9779984951 * u1 - 2.4285922050 * u2 + 0.4505937099 * u3) - 0.0638541728 * (0.0259040371 * u1 + 0.7827717662 * u2 - 0.8086757660 * u3)) * (0.2104542553 * u1 + 0.7936177850 * u2 - 0.0040720468 * u3 - 0.1055613458 * (1.9779984951 * u1 - 2.4285922050 * u2 + 0.4505937099 * u3) - 0.0638541728 * (0.0259040371 * u1 + 0.7827717662 * u2 - 0.8086757660 * u3))) + 0.2309699292 * ((0.2104542553 * u1 + 0.7936177850 * u2 - 0.0040720468 * u3 - 0.0894841775 * (1.9779984951 * u1 - 2.4285922050 * u2 + 0.4505937099 * u3) - 1.2914855480 * (0.0259040371 * u1 + 0.7827717662 * u2 - 0.8086757660 * u3)) * (0.2104542553 * u1 + 0.7936177850 * u2 - 0.0040720468 * u3 - 0.0894841775 * (1.9779984951 * u1 - 2.4285922050 * u2 + 0.4505937099 * u3) - 1.2914855480 * (0.0259040371 * u1 + 0.7827717662 * u2 - 0.8086757660 * u3)) * (0.2104542553 * u1 + 0.7936177850 * u2 - 0.0040720468 * u3 - 0.0894841775 * (1.9779984951 * u1 - 2.4285922050 * u2 + 0.4505937099 * u3) - 1.2914855480 * (0.0259040371 * u1 + 0.7827717662 * u2 - 0.8086757660 * u3))) ≤ x1 + 0.000002 :=
    ⟨by linarith only [hq1.1, hq1.2, hq2.1, hq2.2, hq3.1, hq3.2, hx1a, hx1b, hx2a, hx2b, hx3a, hx3b], by linarith only [hq1.1, hq1.2, hq2.1, hq2.2, hq3.1, hq3.2, hx1a, hx1b, hx2a, hx2b, hx3a, hx3b]⟩
  have hE2 : x2 - 0.000002 ≤ -1.2684380046 * ((0.2104542553 * u1 + 0.7936177850 * u2 - 0.0040720468 * u3 + 0.3963377774 * (1.9779984951 * u1 - 2.4285922050 * u2 + 0.4505937099 * u3) + 0.2158037573 * (0.0259040371 * u1 + 0.7827717662 * u2 - 0.8086757660 * u3)) * (0.2104542553 * u1 + 0.7936177850 * u2 - 0.0040720468 * u3 + 0.3963377774 * (1.9779984951 * u1 - 2.4285922050 * u2 + 0.4505937099 * u3) + 0.2158037573 * (0.0259040371 * u1 + 0.7827717662 * u2 - 0.8086757660 * u3)) * (0.2104542553 * u1 + 0.7936177850 * u2 - 0.0040720468 * u3 + 0.3963377774 * (1.9779984951 * u1 - 2.4285922050 * u2 + 0.4505937099 * u3) + 0.2158037573 * (0.0259040371 * u1 + 0.7827717662 * u2 - 0.8086757660 * u3))) + 2.6097574011 * ((0.2104542553 * u1 + 0.7936177850 * u2 - 0.0040720468 * u3 - 0.1055613458 * (1.9779984951 * u1 - 2.4285922050 * u2 + 0.4505937099 * u3) - 0.0638541728 * (0.0259040371 * u1 + 0.7827717662 * u2 - 0.8086757660 * u3)) * (0.2104542553 * u1 + 0.7936177850 * u2 - 0.0040720468 * u3 - 0.1055613458 * (1.9779984951 * u1 - 2.4285922050 * u2 + 0.4505937099 * u3) - 0.0638541728 * (0.0259040371 * u1 + 0.7827717662 * u2 - 0.8086757660 * u3)) * (0.2104542553 * u1 + 0.7936177850 * u2 - 0.0040720468 * u3 - 0.1055613458 * (1.9779984951 * u1 - 2.4285922050 * u2 + 0.4505937099 * u3) - 0.0638541728 * (0.0259040371 * u1 + 0.7827717662 * u2 - 0.8086757660 * u3))) - 0.3413193965 * ((0.2104542553 * u1 + 0.7936177850 * u2 - 0.0040720468 * u3 - 0.0894841775 * (1.9779984951 * u1 - 2.4285922050 * u2 + 0.4505937099 * u3) - 1.2914855480 * (0.0259040371 * u1 + 0.7827717662 * u2 - 0.8086757660 * u3)) * (0.2104542553 * u1 + 0.7936177850 * u2 - 0.0040720468 * u3 - 0.0894841775 * (1.9779984951 * u1 - 2.4285922050 * u2 + 0.4505937099 * u3) - 1.2914855480 * (0.0259040371 * u1 + 0.7827717662 * u2 - 0.8086757660 * u3)) * (0.2104542553 * u1 + 0.7936177850 * u2 - 0.0040720468 * u3 - 0.0894841775 * (1.9779984951 * u1 - 2.4285922050 * u2 + 0.4505937099 * u3) - 1.2914855480 * (0.0259040371 * u1 + 0.7827717662 * u2 - 0.8086757660 * u3))) ∧
      -1.2684380046 * ((0.2104542553 * u1 + 0.7936177850 * u2 - 0.0040720468 * u3 + 0.3963377774 * (1.9779984951 * u1 - 2.4285922050 * u2 + 0.4505937099 * u3) + 0.2158037573 * (0.0259040371 * u1 + 0.7827717662 * u2 - 0.8086757660 * u3)) * (0.2104542553 * u1 + 0.7936177850 * u2 - 0.0040720468 * u3 + 0.3963377774 * (1.9779984951 * u1 - 2.4285922050 * u2 + 0.4505937099 * u3) + 0.2158037573 * (0.0259040371 * u1 + 0.7827717662 * u2 - 0.8086757660 * u3)) * (0.2104542553 * u1 + 0.7936177850 * u2 - 0.0040720468 * u3 + 0.3963377774 * (1.9779984951 * u1 - 2.4285922050 * u2 + 0.4505937099 * u3) + 0.2158037573 * (0.0259040371 * u1 + 0.7827717662 * u2 - 0.8086757660 * u3))) + 2.6097574011 * ((0.2104542553 * u1 + 0.7936177850 * u2 - 0.0040720468 * u3 - 0.1055613458 * (1.9779984951 * u1 - 2.4285922050 * u2 + 0.4505937099 * u3) - 0.0638541728 * (0.0259040371 * u1 + 0.7827717662 * u2 - 0.8086757660 * u3)) * (0.2104542553 * u1 + 0.7936177850 * u2 - 0.0040720468 * u3 - 0.1055613458 * (1.9779984951 * u1 - 2.4285922050 * u2 + 0.4505937099 * u3) - 0.0638541728 * (0.0259040371 * u1 + 0.7827717662 * u2 - 0.8086757660 * u3)) * (0.2104542553 * u1 + 0.7936177850 * u2 - 0.0040720468 * u3 - 0.1055613458 * (1.9779984951 * u1 - 2.4285922050 * u2 + 0.4505937099 * u3) - 0.0638541728 * (0.0259040371 * u1 + 0.7827717662 * u2 - 0.8086757660 * u3))) - 0.3413193965 * ((0.2104542553 * u1 + 0.7936177850 * u2 - 0.0040720468 * u3 - 0.0894841775 * (1.9779984951 * u1 - 2.4285922050 * u2 + 0.4505937099 * u3) - 1.2914855480 * (0.0259040371 * u1 + 0.7827717662 * u2 - 0.8086757660 * u3)) * (0.2104542553 * u1 + 0.7936177850 * u2 - 0.0040720468 * u3 - 0.0894841775 * (1.9779984951 * u1 - 2.4285922050 * u2 + 0.4505937099 * u3) - 1.2914855480 * (0.0259040371 * u1 + 0.7827717662 * u2 - 0.8086757660 * u3)) * (0.2104542553 * u1 + 0.7936177850 * u2 - 0.0040720468 * u3 - 0.0894841775 * (1.9779984951 * u1 - 2.4285922050 * u2 + 0.4505937099 * u3) - 1.2914855480 * (0.0259040371 * u1 + 0.7827717662 * u2 - 0.8086757660 * u3))) ≤ x2 + 0.000002 :=
    ⟨by linarith only [hq1.1, hq1.2, hq2.1, hq2.2, hq3.1, hq3.2, hx1a, hx1b, hx2a, hx2b, hx3a, hx3b], by linarith only [hq1.1, hq1.2, hq2.1, hq2.2, hq3.1, hq3.2, hx1a, hx1b, hx2a, hx2b, hx3a, hx3b]⟩
  have hE3 : x3 - 0.000002 ≤ -0.0041960863 * ((0.2104542553 * u1 + 0.7936177850 * u2 - 0.0040720468 * u3 + 0.3963377774 * (1.9779984951 * u1 - 2.4285922050 * u2 + 0.4505937099 * u3) + 0.2158037573 * (0.0259040371 * u1 + 0.7827717662 * u2 - 0.8086757660 * u3)) * (0.2104542553 * u1 + 0.7936177850 * u2 - 0.0040720468 * u3 + 0.3963377774 * (1.9779984951 * u1 - 2.4285922050 * u2 + 0.4505937099 * u3) + 0.2158037573 * (0.0259040371 * u1 + 0.7827717662 * u2 - 0.8086757660 * u3)) * (0.2104542553 * u1 + 0.7936177850 * u2 - 0.0040720468 * u3 + 0.3963377774 * (1.9779984951 * u1 - 2.4285922050 * u2 + 0.4505937099 * u3) + 0.2158037573 * (0.0259040371 * u1 + 0.7827717662 * u2 - 0.8086757660 * u3))) - 0.7034186147 * ((0.2104542553 * u1 + 0.7936177850 * u2 - 0.0040720468 * u3 - 0.1055613458 * (1.9779984951 * u1 - 2.4285922050 * u2 + 0.4505937099 * u3) - 0.0638541728 * (0.0259040371 * u1 + 0.7827717662 * u2 - 0.8086757660 * u3)) * (0.2104542553 * u1 + 0.7936177850 * u2 - 0.0040720468 * u3 - 0.1055613458 * (1.9779984951 * u1 - 2.4285922050 * u2 + 0.4505937099 * u3) - 0.0638541728 * (0.0259040371 * u1 + 0.7827717662 * u2 - 0.8086757660 * u3)) * (0.2104542553 * u1 + 0.7936177850 * u2 - 0.0040720468 * u3 - 0.1055613458 * (1.9779984951 * u1 - 2.4285922050 * u2 + 0.4505937099 * u3) - 0.0638541728 * (0.0259040371 * u1 + 0.7827717662 * u2 - 0.8086757660 * u3))) + 1.7076147010 * ((0.2104542553 * u1 + 0.7936177850 * u2 - 0.0040720468 * u3 - 0.0894841775 * (1.9779984951 * u1 - 2.4285922050 * u2 + 0.4505937099 * u3) - 1.2914855480 * (0.0259040371 * u1 + 0.7827717662 * u2 - 0.8086757660 * u3)) * (0.2104542553 * u1 + 0.7936177850 * u2 - 0.0040720468 * u3 - 0.0894841775 * (1.9779984951 * u1 - 2.4285922050 * u2 + 0.4505937099 * u3) - 1.2914855480 * (0.0259040371 * u1 + 0.7827717662 * u2 - 0.8086757660 * u3)) * (0.2104542553 * u1 + 0.7936177850 * u2 - 0.0040720468 * u3 - 0.0894841775 * (1.9779984951 * u1 - 2.4285922050 * u2 + 0.4505937099 * u3) - 1.2914855480 * (0.0259040371 * u1 + 0.7827717662 * u2 - 0.8086757660 * u3))) ∧
      -0.0041960863 * ((0.2104542553 * u1 + 0.7936177850 * u2 - 0.0040720468 * u3 + 0.3963377774 * (1.9779984951 * u1 - 2.4285922050 * u2 + 0.4505937099 * u3) + 0.2158037573 * (0.0259040371 * u1 + 0.7827717662 * u2 - 0.8086757660 * u3)) * (0.2104542553 * u1 + 0.7936177850 * u2 - 0.0040720468 * u3 + 0.3963377774 * (1.9779984951 * u1 - 2.4285922050 * u2 + 0.4505937099 * u3) + 0.2158037573 * (0.0259040371 * u1 + 0.7827717662 * u2 - 0.8086757660 * u3)) * (0.2104542553 * u1 + 0.7936177850 * u2 - 0.0040720468 * u3 + 0.3963377774 * (1.9779984951 * u1 - 2.4285922050 * u2 + 0.4505937099 * u3) + 0.2158037573 * (0.0259040371 * u1 + 0.7827717662 * u2 - 0.8086757660 * u3))) - 0.7034186147 * ((0.2104542553 * u1 + 0.7936177850 * u2 - 0.0040720468 * u3 - 0.1055613458 * (1.9779984951 * u1 - 2.4285922050 * u2 + 0.4505937099 * u3) - 0.0638541728 * (0.0259040371 * u1 + 0.7827717662 * u2 - 0.8086757660 * u3)) * (0.2104542553 * u1 + 0.7936177850 * u2 - 0.0040720468 * u3 - 0.1055613458 * (1.9779984951 * u1 - 2.4285922050 * u2 + 0.4505937099 * u3) - 0.0638541728 * (0.0259040371 * u1 + 0.7827717662 * u2 - 0.8086757660 * u3)) * (0.2104542553 * u1 + 0.7936177850 * u2 - 0.0040720468 * u3 - 0.1055613458 * (1.9779984951 * u1 - 2.4285922050 * u2 + 0.4505937099 * u3) - 0.0638541728 * (0.0259040371 * u1 + 0.7827717662 * u2 - 0.8086757660 * u3))) + 1.7076147010 * ((0.2104542553 * u1 + 0.7936177850 * u2 - 0.0040720468 * u3 - 0.0894841775 * (1.9779984951 * u1 - 2.4285922050 * u2 + 0.4505937099 * u3) - 1.2914855480 * (0.0259040371 * u1 + 0.7827717662 * u2 - 0.8086757660 * u3)) * (0.2104542553 * u1 + 0.7936177850 * u2 - 0.0040720468 * u3 - 0.0894841775 * (1.9779984951 * u1 - 2.4285922050 * u2 + 0.4505937099 * u3) - 1.2914855480 * (0.0259040371 * u1 + 0.7827717662 * u2 - 0.8086757660 * u3)) * (0.2104542553 * u1 + 0.7936177850 * u2 - 0.0040720468 * u3 - 0.0894841775 * (1.9779984951 * u1 - 2.4285922050 * u2 + 0.4505937099 * u3) - 1.2914855480 * (0.0259040371 * u1 + 0.7827717662 * u2 - 0.8086757660 * u3))) ≤ x3 + 0.000002 :=
    ⟨by linarith only [hq1.1, hq1.2, hq2.1, hq2.2, hq3.1, hq3.2, hx1a, hx1b, hx2a, hx2b, hx3a, hx3b], by linarith only [hq1.1, hq1.2, hq2.1, hq2.2, hq3.1, hq3.2, hx1a, hx1b, hx2a, hx2b, hx3a, hx3b]⟩
  simp only [Prod.mk.injEq]
  refine ⟨?_, ?_, ?_⟩
  · exact round_channel x1 _ cr hcr hx1a hx1b hback1 hbr1 hE1.1 hE1.2
  · exact round_channel x2 _ cg hcg hx2a hx2b hback2 hbr2 hE2.1 hE2.2
  · exact round_channel x3 _ cb hcb hx3a hx3b hback3 hbr3 hE3.1 hE3.2

/-- C6: at `t = 0` and `t = 1` the interpolation reproduces the endpoint hex
strings exactly, for every pair of lowercase `#`-prefixed 6-digit hex colors:
the Oklab round trip re-rounds every 8-bit channel to itself (the rounded
matrices deviate from exact inverses by at most 2e-6 in linear value, far
inside the 1/2 rounding margin), and printing reproduces the string. -/
theorem interpolateColor_endpoints (c1 c2 : String)
    (h1 : isLowerHexString c1 = true) (h2 : isLowerHexString c2 = true) :
    interpolateColor c1 c2 0 = c1 ∧ interpolateColor c1 c2 1 = c2 := by
  obtain ⟨r1, g1, b1, hr1, hg1, hb1, hp1, hq1⟩ := lowerHex_spec c1 h1
  obtain ⟨r2, g2, b2, hr2, hg2, hb2, hp2, hq2⟩ := lowerHex_spec c2 h2
  constructor
  · rw [interpolateColor_zero c1 c2, hp1]
    dsimp only
    rw [oklab_roundtrip r1 g1 b1 hr1 hg1 hb1]
    exact hq1
  · rw [interpolateColor_one c1 c2, hp2]
    dsimp only
    rw [oklab_roundtrip r2 g2 b2 hr2 hg2 hb2]
    exact hq2

/-- Witness for the C6 theorem at the green scheme's dark zero and max
colors. -/
theorem interpolateColor_endpoints_witness :
    interpolateColor "#161b22" "#39d353" 0 = "#161b22" ∧
      interpolateColor "#161b22" "#39d353" 1 = "#39d353" :=
  interpolateColor_endpoints "#161b22" "#39d353" (by decide) (by decide)

end Heatmap
